import Mathlib

/-!
# Glasgow firmware: the vendor-request dispatcher, status latch and alert handler

A shallow embedding of `firmware/main.c`.  Firmware variables are fields of `State`; every call
that leaves `main.c` (bus primitives, FPGA primitives, voltage backends, endpoint-0 macros,
pin writes) is appended to a chronological effect trace, and its answer is supplied by an
environment `Env` that may depend on the whole history of effects.  Machine integers are
natural numbers reduced modulo `2^8` / `2^16` where the C code can wrap (SDCC for the 8051 has
16-bit `int`, so `uint16_t` arithmetic is carried out modulo `2^16`).

Modelling conventions:

* Interrupts are not interleaved with a running handler: each function of `main.c` is one
  atomic step, and a busy-wait `while(EP0CS & _BUSY);` is one effect after which the
  environment supplies the content of the endpoint-0 buffer.
* The collaborators write only the buffers they are handed and the hardware; the one field of
  the configuration record that a collaborator owns is `voltage_limit`
  (`iobuf_set_voltage_limit`).
* Loops take a bound on their number of iterations as first argument; the callers pass the
  byte count, which is never exhausted (`eeprom_loop_fuel`, `fpga_cfg_loop_fuel`,
  `bootstrap_loop_fuel`).
* Constants of headers that are not part of the translated file are the fields of `Consts`.

The file has three parts: the definitions, auxiliary lemmas, and the claims `C1`, `C2`, ...
in order.
-/

namespace Glasgow

/-! ## Constants -/

/-- The configuration record `glasgow_config` (its fields as used by `main.c`). -/
structure Config where
  revision : Nat
  serial : List Nat
  bitstream_size : Nat
  bitstream_id : List Nat
  voltage_limit : List Nat
  manufacturer : List Nat
  flags : Nat

/-- Constants and layout facts declared by `glasgow.h` / `version.h`, which are not part of
the translated source file; every definition below takes them as a parameter. -/
structure Consts where
  I2C_ADDR_FX2_MEM : Nat
  I2C_ADDR_ICE_MEM : Nat
  GLASGOW_REV_NA : Nat
  GLASGOW_REV_C0 : Nat
  GLASGOW_REV_C2 : Nat
  CONFIG_SIZE_BITSTREAM_ID : Nat
  CONFIG_FLAG_MODIFIED_DESIGN : Nat
  CUR_API_LEVEL : Nat
  VID_CYPRESS : Nat
  PID_FX2 : Nat
  VID_QIHW : Nat
  PID_GLASGOW : Nat
  PIND_LED_FX2 : Nat
  PIND_LED_ACT : Nat
  PIND_LED_ERR : Nat
  /-- The value of `__builtin_offsetof(struct glasgow_config, voltage_limit)`. -/
  offsetof_voltage_limit : Nat
  /-- The value of `sizeof(glasgow_config.voltage_limit)`. -/
  sizeof_voltage_limit : Nat
  /-- The value of `sizeof(glasgow_config)`. -/
  sizeof_glasgow_config : Nat
  /-- The value of `sizeof(glasgow_config.serial)`. -/
  sizeof_serial : Nat
  /-- The record that a `struct glasgow_config` overlaid on the given bytes denotes. -/
  decode_config : List Nat → Config
  /-- The string `GIT_REVISION` of `version.h`. -/
  GIT_REVISION : String

/-- Direction bit of `bmRequestType` (USB 2.0, table 9-2; `fx2usb.h` of libfx2). -/
def USB_DIR_IN : Nat := 0x80
/-- Direction bit of `bmRequestType`, host to device. -/
def USB_DIR_OUT : Nat := 0x00
/-- Type field of `bmRequestType`, vendor request. -/
def USB_TYPE_VENDOR : Nat := 0x40
/-- Recipient field of `bmRequestType`, device. -/
def USB_RECIP_DEVICE : Nat := 0x00
/-- Microsoft OS descriptor index, extended compat id (`usbmicrosoft.h` of libfx2). -/
def USB_DESC_MS_EXTENDED_COMPAT_ID : Nat := 0x0004
/-- Microsoft OS descriptor index, extended properties. -/
def USB_DESC_MS_EXTENDED_PROPERTIES : Nat := 0x0005
/-- Descriptor type of a string descriptor (USB 2.0, table 9-5). -/
def USB_DESC_STRING : Nat := 3

def USB_REQ_API_LEVEL : Nat := 0x0F
def USB_REQ_EEPROM : Nat := 0x10
def USB_REQ_FPGA_CFG : Nat := 0x11
def USB_REQ_STATUS : Nat := 0x12
def USB_REQ_REGISTER : Nat := 0x13
def USB_REQ_IO_VOLT : Nat := 0x14
def USB_REQ_SENSE_VOLT : Nat := 0x15
def USB_REQ_ALERT_VOLT : Nat := 0x16
def USB_REQ_POLL_ALERT : Nat := 0x17
def USB_REQ_BITSTREAM_ID : Nat := 0x18
def USB_REQ_IOBUF_ENABLE : Nat := 0x19
def USB_REQ_LIMIT_VOLT : Nat := 0x1A
def USB_REQ_PULL : Nat := 0x1B
def USB_REQ_TEST_LEDS : Nat := 0x1C
def USB_REQ_CYPRESS_EEPROM_DB : Nat := 0xA9
def USB_REQ_LIBFX2_PAGE_SIZE : Nat := 0xB0
def USB_REQ_GET_MS_DESCRIPTOR : Nat := 0xC0

def ST_ERROR : Nat := 1 <<< 0
def ST_FPGA_RDY : Nat := 1 <<< 1
def ST_ALERT : Nat := 1 <<< 2

/-! ## Data model -/

/-- The 8-byte SETUP packet in `SETUPDAT`. -/
structure Setup where
  bmRequestType : Nat
  bRequest : Nat
  wValue : Nat
  wIndex : Nat
  wLength : Nat

/-- A SETUP packet whose fields fit their wire widths. -/
def Setup.wf (req : Setup) : Prop :=
  req.bmRequestType < 256 ∧ req.bRequest < 256 ∧
  req.wValue < 65536 ∧ req.wIndex < 65536 ∧ req.wLength < 65536

instance (req : Setup) : Decidable req.wf := by
  unfold Setup.wf; infer_instance

/-- Everything `main.c` does that is visible outside its own variables, plus the writes to
the handoff flags and to the status register (recorded so that their order relative to the
bus traffic can be stated). -/
inductive Effect where
  | pending_setup (b : Bool)
  | armed_alert (b : Bool)
  | status (v : Nat)
  | IO_LED_ERR (b : Bool)
  | IO_LED_ACT (b : Bool)
  | IO_LED_FX2 (b : Bool)
  | IOD (v : Nat)
  | STALL_EP0
  | ACK_EP0
  | SETUP_EP0_BUF (len : Nat)
  | SETUP_EP0_IN_DESC (index : Nat)
  | EP0CS_BUSY
  | eeprom_read (chip addr len : Nat) (double_byte : Bool)
  | eeprom_write (chip addr len : Nat) (double_byte : Bool) (page_size timeout : Nat)
  | fpga_init
  | fpga_reset
  | fpga_load (len : Nat)
  | fpga_start
  | fpga_is_ready
  | fpga_reg_select (addr : Nat)
  | fpga_reg_read (len : Nat)
  | fpga_reg_write (len : Nat)
  | fpga_pipe_rst (set clr : Nat)
  | fifo_init
  | fifo_configure (two_ep : Bool)
  | fifo_reset (two_ep : Bool) (mask : Nat)
  | usb_init (reconnect : Bool)
  | usb_reset_data_toggles (interface alt_setting : Nat)
  | usb_serve_descriptor (type index : Nat)
  | iobuf_init_dac_ldo
  | iobuf_init_adc_ina233
  | iobuf_init_adc_adc081c
  | iobuf_enable (enable : Bool)
  | iobuf_get_voltage (mask : Nat)
  | iobuf_set_voltage (mask millivolts : Nat)
  | iobuf_get_voltage_limit (mask : Nat)
  | iobuf_set_voltage_limit (mask millivolts : Nat)
  | iobuf_measure_voltage_ina233 (mask : Nat)
  | iobuf_measure_voltage_adc081c (mask : Nat)
  | iobuf_get_alert_ina233 (mask : Nat)
  | iobuf_get_alert_adc081c (mask : Nat)
  | iobuf_set_alert_ina233 (mask low high : Nat)
  | iobuf_set_alert_adc081c (mask low high : Nat)
  | iobuf_read_alert_cache_ina233 (clear : Bool)
  | iobuf_poll_alert_adc081c (clear : Bool)
  | iobuf_poll_alert_ina233
  | iobuf_clear_alert_ina233 (mask : Nat)
  | iobuf_get_pull (selector : Nat)
  | iobuf_set_pull (selector enable level : Nat)
  deriving DecidableEq, Repr

/-- The collaborators of `main.c`: for a call made after the effects `history`, `ok` is
the call's boolean result and `data` the bytes it leaves in its output buffer (for
`EP0CS_BUSY`, the content of `EP0BUF` once the buffer is no longer busy). -/
structure Env where
  ok : List Effect → Effect → Bool
  data : List Effect → Effect → List Nat

/-- The variables of `main.c`, the registers it owns, and the effect trace. -/
structure State where
  status : Nat
  test_leds : Bool
  pending_setup : Bool
  armed_alert : Bool
  usb_config_value : Nat
  usb_alt_setting : Nat → Nat
  bitstream_idx : Nat
  glasgow_config : Config
  EP0BUF : Nat → Nat
  IOD : Nat
  idVendor : Nat
  idProduct : Nat
  bcdDevice : Nat
  usb_strings : List (List Nat)
  trace : List Effect

/-! ## Primitive steps -/

/-- Append one effect to the trace. -/
def emit (e : Effect) (s : State) : State :=
  { s with trace := s.trace ++ [e] }

/-- Assignment to one bit of an 8-bit register (an `sbit` write). -/
def set_bit (reg pin : Nat) (b : Bool) : Nat :=
  if b then reg ||| (1 <<< pin) else reg &&& (0xFF ^^^ (1 <<< pin))

/-- The statement `IO_LED_ERR = b`. -/
def write_IO_LED_ERR (k : Consts) (b : Bool) (s : State) : State :=
  emit (.IO_LED_ERR b) { s with IOD := set_bit s.IOD k.PIND_LED_ERR b }

/-- The statement `IO_LED_ACT = b`. -/
def write_IO_LED_ACT (k : Consts) (b : Bool) (s : State) : State :=
  emit (.IO_LED_ACT b) { s with IOD := set_bit s.IOD k.PIND_LED_ACT b }

/-- The statement `IO_LED_FX2 = b`. -/
def write_IO_LED_FX2 (k : Consts) (b : Bool) (s : State) : State :=
  emit (.IO_LED_FX2 b) { s with IOD := set_bit s.IOD k.PIND_LED_FX2 b }

/-- The statement `pending_setup = false`. -/
def clear_pending_setup (s : State) : State :=
  emit (.pending_setup false) { s with pending_setup := false }

/-- Overwrite the first `n` bytes of a buffer with the bytes `d` (missing bytes read 0). -/
def fill (buf : Nat → Nat) (d : List Nat) (n : Nat) : Nat → Nat :=
  fun i => if i < n then d.getD i 0 % 256 else buf i

/-- The busy-wait `while(EP0CS & _BUSY);` before the firmware writes `EP0BUF`. -/
def wait_EP0 (s : State) : State :=
  emit .EP0CS_BUSY s

/-- The busy-wait `while(EP0CS & _BUSY);` after arming an OUT data stage: when it ends,
`EP0BUF` holds the bytes the host sent. -/
def wait_EP0_data (env : Env) (s : State) : State :=
  { emit .EP0CS_BUSY s with EP0BUF := fill s.EP0BUF (env.data s.trace .EP0CS_BUSY) 64 }

/-- A call of a collaborator that fills `EP0BUF` (first `n` bytes) and returns a flag. -/
def call_into_EP0 (env : Env) (e : Effect) (n : Nat) (s : State) : Bool × State :=
  (env.ok s.trace e, { emit e s with EP0BUF := fill s.EP0BUF (env.data s.trace e) n })

/-- A call of a collaborator that only returns a flag. -/
def call (env : Env) (e : Effect) (s : State) : Bool × State :=
  (env.ok s.trace e, emit e s)

/-- The 16-bit little-endian word `((__xdata uint16_t *)EP0BUF)[i]`. -/
def EP0BUF_word (s : State) (i : Nat) : Nat :=
  s.EP0BUF (2 * i) + 256 * s.EP0BUF (2 * i + 1)

/-! ## Status latch (`update_err_led`, `latch_status_bit`, `reset_status_bit`) -/

def update_err_led (k : Consts) (s : State) : State :=
  if !s.test_leds then
    if s.status &&& (ST_ERROR ||| ST_ALERT) ≠ 0 then
      write_IO_LED_ERR k true s
    else
      write_IO_LED_ERR k false s
  else s

def latch_status_bit (k : Consts) (bit : Nat) (s : State) : State :=
  update_err_led k (emit (.status (s.status ||| bit)) { s with status := s.status ||| bit })

def reset_status_bit (k : Consts) (bit : Nat) (s : State) : Bool × State :=
  if s.status &&& bit ≠ 0 then
    (true, update_err_led k
      (emit (.status (s.status &&& (0xFF ^^^ bit)))
        { s with status := s.status &&& (0xFF ^^^ bit) }))
  else
    (false, s)

/-! ## SETUP handoff and standard requests -/

def handle_usb_setup (s : State) : State :=
  if s.pending_setup then emit .STALL_EP0 s
  else emit (.pending_setup true) { s with pending_setup := true }

/-- The exit `stall_ep0_return:` of `handle_pending_usb_setup`. -/
def stall_ep0_return (s : State) : State :=
  emit .STALL_EP0 (clear_pending_setup s)

def handle_usb_set_configuration (config_value : Nat) (s : State) : Bool × State :=
  if config_value = 0 ∨ config_value = 1 ∨ config_value = 2 then
    let s := if config_value = 1 then emit (.fifo_configure false) s
             else if config_value = 2 then emit (.fifo_configure true) s
             else s
    let s := { s with usb_config_value := config_value }
    let s := { s with usb_alt_setting := Function.update s.usb_alt_setting 0 0 }
    let s := { s with usb_alt_setting := Function.update s.usb_alt_setting 1 0 }
    let s := { s with usb_alt_setting := Function.update s.usb_alt_setting 2 0 }
    let s := { s with usb_alt_setting := Function.update s.usb_alt_setting 3 0 }
    let s := emit (.fpga_pipe_rst 0xf 0) s
    let s := emit (.usb_reset_data_toggles 0xff 0xff) s
    (true, s)
  else
    (false, s)

def handle_usb_set_interface (env : Env) (interface alt_setting : Nat) (s : State) :
    Bool × State :=
  if s.usb_config_value = 1 ∨ s.usb_config_value = 2 then
    let two_ep : Bool := s.usb_config_value = 2
    let ep_mask : Nat :=
      if s.usb_config_value = 1 then (1 <<< interface) % 256
      else (1 <<< (2 * interface)) % 256
    let r := call env (.fpga_pipe_rst ep_mask 0) s
    if !r.1 then (false, r.2)
    else
      let s := emit (.fifo_reset two_ep ep_mask) r.2
      let r := if alt_setting = 1 then call env (.fpga_pipe_rst 0 ep_mask) s else (true, s)
      if !r.1 then (false, r.2)
      else
        let s := { r.2 with usb_alt_setting :=
                    Function.update r.2.usb_alt_setting interface alt_setting }
        (true, emit (.usb_reset_data_toggles interface alt_setting) s)
  else
    (false, s)

def handle_usb_get_interface (interface : Nat) (s : State) : State :=
  emit (.SETUP_EP0_BUF 1)
    { s with EP0BUF := Function.update s.EP0BUF 0 (s.usb_alt_setting interface) }

/-! ## The request dispatcher `handle_pending_usb_setup`, branch by branch -/

/-- The flag `req_dir_in = (req->bmRequestType & USB_DIR_IN)`. -/
def req_dir_in (req : Setup) : Bool :=
  req.bmRequestType &&& USB_DIR_IN ≠ 0

/-- Page-size request: acknowledge only. -/
def req_page_size (s : State) : State :=
  emit .ACK_EP0 (clear_pending_setup s)

/-- The locals `(arg_chip, arg_addr, page_size)` chosen by the EEPROM request before its
chunk loop (lines 440-472 of `main.c`). -/
def eeprom_select (k : Consts) (req : Setup) : Nat × Nat × Nat :=
  let arg_addr := req.wValue
  let arg_len := req.wLength
  if req.bRequest = USB_REQ_CYPRESS_EEPROM_DB then
    (k.I2C_ADDR_FX2_MEM, arg_addr, 0)
  else if req.wIndex = 0 then
    (k.I2C_ADDR_FX2_MEM, arg_addr, 6)
  else if req.wIndex = 1 then
    (k.I2C_ADDR_ICE_MEM, arg_addr, 8)
  else if req.wIndex = 2 then
    ((k.I2C_ADDR_ICE_MEM + 1) % 256, arg_addr, 8)
  else if req.wIndex = 3 then
    if arg_addr ≤ 0x1000 ∧ arg_len ≤ 0x1000 ∧ (arg_addr + arg_len) % 65536 ≤ 0x1000 then
      (k.I2C_ADDR_FX2_MEM, (arg_addr + 0x7000) % 65536, 6)
    else
      (0, arg_addr, 0)
  else
    (0, arg_addr, 0)

/-- The loop `while(arg_len > 0)` of the EEPROM request.  The first argument bounds the
number of iterations; every iteration removes at least one byte from `arg_len`, so any bound
of at least `arg_len` is never exhausted (`eeprom_loop_fuel`). -/
def eeprom_loop (env : Env) (dir_in : Bool) (arg_chip page_size timeout : Nat) :
    Nat → Nat → Nat → State → State
  | 0, _, _, s => s
  | fuel + 1, arg_addr, arg_len, s =>
    if arg_len > 0 then
      let chunk_len := if arg_len < 64 then arg_len else 64
      if dir_in then
        let s := wait_EP0 s
        let r := call_into_EP0 env (.eeprom_read arg_chip arg_addr chunk_len true) chunk_len s
        if !r.1 then stall_ep0_return r.2
        else
          eeprom_loop env dir_in arg_chip page_size timeout fuel
            ((arg_addr + chunk_len) % 65536) (arg_len - chunk_len)
            (emit (.SETUP_EP0_BUF chunk_len) r.2)
      else
        let s := emit (.SETUP_EP0_BUF 0) s
        let s := wait_EP0_data env s
        let r := call env (.eeprom_write arg_chip arg_addr chunk_len true page_size timeout) s
        if !r.1 then stall_ep0_return r.2
        else
          eeprom_loop env dir_in arg_chip page_size timeout fuel
            ((arg_addr + chunk_len) % 65536) (arg_len - chunk_len) r.2
    else s

/-- EEPROM read/write request (`USB_REQ_CYPRESS_EEPROM_DB` or `USB_REQ_EEPROM`). -/
def req_eeprom (env : Env) (k : Consts) (req : Setup) (s : State) : State :=
  let sel := eeprom_select k req
  let arg_chip := sel.1
  let arg_addr := sel.2.1
  let page_size := sel.2.2
  let arg_len := req.wLength
  let timeout := 255
  let s := clear_pending_setup s
  if arg_chip = 0 then stall_ep0_return s
  else eeprom_loop env (req_dir_in req) arg_chip page_size timeout arg_len arg_addr arg_len s

/-- FPGA register read/write request. -/
def req_register (env : Env) (req : Setup) (s : State) : State :=
  let arg_addr := req.wValue % 256
  let arg_len := req.wLength
  let s := clear_pending_setup s
  let r := call env (.fpga_reg_select arg_addr) s
  if r.1 then
    if req_dir_in req then
      let s := wait_EP0 r.2
      let r := call_into_EP0 env (.fpga_reg_read arg_len) arg_len s
      if r.1 then emit (.SETUP_EP0_BUF arg_len) r.2
      else stall_ep0_return r.2
    else
      let s := emit (.SETUP_EP0_BUF 0) r.2
      let s := wait_EP0_data env s
      emit (.fpga_reg_write arg_len) s
  else stall_ep0_return r.2

/-- Device status request. -/
def req_status (env : Env) (k : Consts) (s : State) : State :=
  let s := clear_pending_setup s
  let s := wait_EP0 s
  let r := call env .fpga_is_ready s
  let s := { r.2 with EP0BUF :=
              Function.update r.2.EP0BUF 0 (s.status ||| (if r.1 then ST_FPGA_RDY else 0)) }
  let s := emit (.SETUP_EP0_BUF 1) s
  (reset_status_bit k ST_ERROR s).2

/-- The loop `while(arg_len > 0)` of the bitstream download request; the first argument
bounds the number of iterations as in `eeprom_loop`. -/
def fpga_cfg_loop (env : Env) : Nat → Nat → State → State
  | 0, _, s => s
  | fuel + 1, arg_len, s =>
    if arg_len > 0 then
      let chunk_len := if arg_len < 64 then arg_len else 64
      let s := emit (.SETUP_EP0_BUF 0) s
      let s := wait_EP0_data env s
      let s := emit (.fpga_load chunk_len) s
      fpga_cfg_loop env fuel (arg_len - chunk_len) s
    else s

/-- The guard `req->wIndex == 0 || req->wIndex == bitstream_idx + 1` (16-bit addition). -/
def fpga_cfg_index_ok (req : Setup) (s : State) : Bool :=
  req.wIndex = 0 ∨ req.wIndex = (s.bitstream_idx + 1) % 65536

/-- Bitstream download request. -/
def req_fpga_cfg (env : Env) (k : Consts) (req : Setup) (s : State) : State :=
  let arg_idx := req.wIndex
  let arg_len := req.wLength
  let s := clear_pending_setup s
  let s :=
    if arg_idx = 0 then
      emit .fpga_reset
        { s with glasgow_config :=
            { s.glasgow_config with
              bitstream_id := List.replicate k.CONFIG_SIZE_BITSTREAM_ID 0 } }
    else s
  let s := fpga_cfg_loop env arg_len arg_len s
  { s with bitstream_idx := arg_idx }

/-- Bitstream ID get/set request. -/
def req_bitstream_id (env : Env) (k : Consts) (req : Setup) (s : State) : State :=
  let s := clear_pending_setup s
  if req_dir_in req then
    let s := wait_EP0 s
    let s := { s with EP0BUF := fill s.EP0BUF s.glasgow_config.bitstream_id
                                  k.CONFIG_SIZE_BITSTREAM_ID }
    emit (.SETUP_EP0_BUF k.CONFIG_SIZE_BITSTREAM_ID) s
  else
    let r := call env .fpga_start s
    if r.1 then
      let s := emit (.SETUP_EP0_BUF 0) r.2
      let s := wait_EP0_data env s
      { s with glasgow_config :=
          { s.glasgow_config with
            bitstream_id := (List.range k.CONFIG_SIZE_BITSTREAM_ID).map s.EP0BUF } }
    else stall_ep0_return r.2

/-- I/O voltage get/set request. -/
def req_io_volt (env : Env) (k : Consts) (req : Setup) (s : State) : State :=
  let arg_mask := req.wIndex % 256
  let s := clear_pending_setup s
  if req_dir_in req then
    let s := wait_EP0 s
    let r := call_into_EP0 env (.iobuf_get_voltage arg_mask) 2 s
    if !r.1 then stall_ep0_return r.2
    else emit (.SETUP_EP0_BUF 2) r.2
  else
    let s := emit (.SETUP_EP0_BUF 2) s
    let s := wait_EP0_data env s
    let r := call env (.iobuf_set_voltage arg_mask (EP0BUF_word s 0)) s
    if !r.1 then latch_status_bit k ST_ERROR r.2
    else r.2

/-- Voltage sense request. -/
def req_sense_volt (env : Env) (k : Consts) (req : Setup) (s : State) : State :=
  let arg_mask := req.wIndex % 256
  let s := clear_pending_setup s
  let s := wait_EP0 s
  let r :=
    if s.glasgow_config.revision ≥ k.GLASGOW_REV_C2 then
      call_into_EP0 env (.iobuf_measure_voltage_ina233 arg_mask) 2 s
    else
      call_into_EP0 env (.iobuf_measure_voltage_adc081c arg_mask) 2 s
  if !r.1 then stall_ep0_return r.2
  else emit (.SETUP_EP0_BUF 2) r.2

/-- Voltage alert get/set request. -/
def req_alert_volt (env : Env) (k : Consts) (req : Setup) (s : State) : State :=
  let arg_mask := req.wIndex % 256
  let s := clear_pending_setup s
  if req_dir_in req then
    let s := wait_EP0 s
    let r :=
      if s.glasgow_config.revision ≥ k.GLASGOW_REV_C2 then
        call_into_EP0 env (.iobuf_get_alert_ina233 arg_mask) 4 s
      else
        call_into_EP0 env (.iobuf_get_alert_adc081c arg_mask) 4 s
    if !r.1 then stall_ep0_return r.2
    else emit (.SETUP_EP0_BUF 4) r.2
  else
    let s := emit (.SETUP_EP0_BUF 4) s
    let s := wait_EP0_data env s
    let r :=
      if s.glasgow_config.revision ≥ k.GLASGOW_REV_C2 then
        call env (.iobuf_set_alert_ina233 arg_mask (EP0BUF_word s 0) (EP0BUF_word s 1)) s
      else
        call env (.iobuf_set_alert_adc081c arg_mask (EP0BUF_word s 0) (EP0BUF_word s 1)) s
    if !r.1 then latch_status_bit k ST_ERROR r.2
    else r.2

/-- Alert poll request. -/
def req_poll_alert (env : Env) (k : Consts) (s : State) : State :=
  let s := clear_pending_setup s
  let s := wait_EP0 s
  let r :=
    if s.glasgow_config.revision ≥ k.GLASGOW_REV_C2 then
      (true, (call_into_EP0 env (.iobuf_read_alert_cache_ina233 true) 1 s).2)
    else
      call_into_EP0 env (.iobuf_poll_alert_adc081c true) 1 s
  if !r.1 then stall_ep0_return r.2
  else
    let s := emit (.SETUP_EP0_BUF 1) r.2
    (reset_status_bit k ST_ALERT s).2

/-- I/O buffer enable request. -/
def req_iobuf_enable (req : Setup) (s : State) : State :=
  let arg_enable : Bool := req.wValue ≠ 0
  let s := clear_pending_setup s
  let s := emit (.iobuf_enable arg_enable) s
  emit .ACK_EP0 s

/-- I/O voltage limit get/set request.  The collaborator `iobuf_set_voltage_limit` owns the
field `glasgow_config.voltage_limit`; the bytes it leaves there are supplied by the
environment. -/
def req_limit_volt (env : Env) (k : Consts) (req : Setup) (s : State) : State :=
  let arg_mask := req.wIndex % 256
  let s := clear_pending_setup s
  if req_dir_in req then
    let s := wait_EP0 s
    let r := call_into_EP0 env (.iobuf_get_voltage_limit arg_mask) 2 s
    if !r.1 then stall_ep0_return r.2
    else emit (.SETUP_EP0_BUF 2) r.2
  else
    let s := emit (.SETUP_EP0_BUF 2) s
    let s := wait_EP0_data env s
    let e := Effect.iobuf_set_voltage_limit arg_mask (EP0BUF_word s 0)
    let limit := env.data s.trace e
    let r := call env e s
    let s := { r.2 with glasgow_config := { r.2.glasgow_config with voltage_limit := limit } }
    if !r.1 then latch_status_bit k ST_ERROR s
    else
      let r := call env
        (.eeprom_write k.I2C_ADDR_FX2_MEM (8 + 4 + k.offsetof_voltage_limit)
          k.sizeof_voltage_limit true 8 255) s
      if !r.1 then latch_status_bit k ST_ERROR r.2
      else r.2

/-- Pull resistor get/set request. -/
def req_pull (env : Env) (k : Consts) (req : Setup) (s : State) : State :=
  let arg_selector := req.wIndex % 256
  let s := clear_pending_setup s
  if req_dir_in req then
    let s := wait_EP0 s
    if s.glasgow_config.revision < k.GLASGOW_REV_C0 then stall_ep0_return s
    else
      let r := call_into_EP0 env (.iobuf_get_pull arg_selector) 2 s
      if !r.1 then stall_ep0_return r.2
      else emit (.SETUP_EP0_BUF 2) r.2
  else
    let s := emit (.SETUP_EP0_BUF 2) s
    let s := wait_EP0_data env s
    if s.glasgow_config.revision < k.GLASGOW_REV_C0 then latch_status_bit k ST_ERROR s
    else
      let r := call env (.iobuf_set_pull arg_selector (s.EP0BUF 0) (s.EP0BUF 1)) s
      if !r.1 then latch_status_bit k ST_ERROR r.2
      else r.2

/-- LED test mode request. -/
def req_test_leds (k : Consts) (req : Setup) (s : State) : State :=
  let arg_states := req.wIndex % 256
  let s := clear_pending_setup s
  let s := { s with test_leds := true }
  let v := s.IOD &&& (0xFF ^^^ ((0xf <<< k.PIND_LED_FX2) % 256))
  let s := emit (.IOD v) { s with IOD := v }
  let v := s.IOD ||| (((arg_states &&& 0xf) <<< k.PIND_LED_FX2) % 256)
  let s := emit (.IOD v) { s with IOD := v }
  emit .ACK_EP0 s

/-- Legacy API level request. -/
def req_api_level (k : Consts) (s : State) : State :=
  let s := clear_pending_setup s
  let s := wait_EP0 s
  let s := { s with EP0BUF := Function.update s.EP0BUF 0 k.CUR_API_LEVEL }
  emit (.SETUP_EP0_BUF 1) s

/-- Microsoft descriptor request: serve the fixed descriptor blob with index `wIndex`. -/
def req_ms_descriptor (index : Nat) (s : State) : State :=
  let s := clear_pending_setup s
  emit (.SETUP_EP0_IN_DESC index) s

/-- The dispatcher.  Each `if` of the C function that ends in `return` is one arm of the
chain; `goto stall_ep0_return` inside an arm is a call of `stall_ep0_return`. -/
def handle_pending_usb_setup (env : Env) (k : Consts) (req : Setup) (s : State) : State :=
  if req.bmRequestType ≠ (USB_RECIP_DEVICE ||| USB_TYPE_VENDOR ||| USB_DIR_IN) ∧
     req.bmRequestType ≠ (USB_RECIP_DEVICE ||| USB_TYPE_VENDOR ||| USB_DIR_OUT) then
    stall_ep0_return s
  else if !req_dir_in req ∧ req.bRequest = USB_REQ_LIBFX2_PAGE_SIZE then
    req_page_size s
  else if req.bRequest = USB_REQ_CYPRESS_EEPROM_DB ∨ req.bRequest = USB_REQ_EEPROM then
    req_eeprom env k req s
  else if req.bRequest = USB_REQ_REGISTER then
    req_register env req s
  else if req_dir_in req ∧ req.bRequest = USB_REQ_STATUS ∧ req.wLength = 1 then
    req_status env k s
  else if !req_dir_in req ∧ req.bRequest = USB_REQ_FPGA_CFG ∧ fpga_cfg_index_ok req s then
    req_fpga_cfg env k req s
  else if req.bRequest = USB_REQ_BITSTREAM_ID ∧ req.wLength = k.CONFIG_SIZE_BITSTREAM_ID then
    req_bitstream_id env k req s
  else if req.bRequest = USB_REQ_IO_VOLT ∧ req.wLength = 2 then
    req_io_volt env k req s
  else if req_dir_in req ∧ req.bRequest = USB_REQ_SENSE_VOLT ∧ req.wLength = 2 then
    req_sense_volt env k req s
  else if req.bRequest = USB_REQ_ALERT_VOLT ∧ req.wLength = 4 then
    req_alert_volt env k req s
  else if req_dir_in req ∧ req.bRequest = USB_REQ_POLL_ALERT ∧ req.wLength = 1 then
    req_poll_alert env k s
  else if !req_dir_in req ∧ req.bRequest = USB_REQ_IOBUF_ENABLE ∧ req.wLength = 0 then
    req_iobuf_enable req s
  else if req.bRequest = USB_REQ_LIMIT_VOLT ∧ req.wLength = 2 then
    req_limit_volt env k req s
  else if req.bRequest = USB_REQ_PULL ∧ req.wLength = 2 then
    req_pull env k req s
  else if !req_dir_in req ∧ req.bRequest = USB_REQ_TEST_LEDS ∧ req.wLength = 0 then
    req_test_leds k req s
  else if req_dir_in req ∧ req.bRequest = USB_REQ_API_LEVEL ∧ req.wLength = 1 then
    req_api_level k s
  else if req_dir_in req ∧ req.bRequest = USB_REQ_GET_MS_DESCRIPTOR ∧
      req.wIndex = USB_DESC_MS_EXTENDED_COMPAT_ID then
    req_ms_descriptor USB_DESC_MS_EXTENDED_COMPAT_ID s
  else if req_dir_in req ∧ req.bRequest = USB_REQ_GET_MS_DESCRIPTOR ∧
      req.wIndex = USB_DESC_MS_EXTENDED_PROPERTIES then
    req_ms_descriptor USB_DESC_MS_EXTENDED_PROPERTIES s
  else
    stall_ep0_return s

/-! ## Alert interrupt and alert handler -/

/-- The statement `armed_alert = b` (the interrupt-enable bit `EX0`). -/
def set_armed_alert (b : Bool) (s : State) : State :=
  emit (.armed_alert b) { s with armed_alert := b }

def isr_IE0 (s : State) : State :=
  set_armed_alert false s

def handle_pending_alert (env : Env) (k : Consts) (s : State) : State :=
  let millivolts := 0
  let s := latch_status_bit k ST_ALERT s
  let e := if s.glasgow_config.revision ≥ k.GLASGOW_REV_C2 then Effect.iobuf_poll_alert_ina233
           else Effect.iobuf_poll_alert_adc081c false
  let mask := (env.data s.trace e).getD 0 0 % 256
  let s := emit e s
  let s := emit (.iobuf_set_voltage mask millivolts) s
  let s := if s.glasgow_config.revision ≥ k.GLASGOW_REV_C2 then
             emit (.iobuf_clear_alert_ina233 mask) s
           else s
  set_armed_alert true s

/-! ## Interrupt handlers for the activity LED, descriptor requests -/

/-- Timer-2 overflow: switch the activity LED off (the timer bits `TR2`, `TF2` are not
modelled). -/
def isr_TF2 (k : Consts) (s : State) : State :=
  if !s.test_leds then write_IO_LED_ACT k false s else s

/-- Endpoint activity: switch the activity LED on. -/
def isr_EPn (k : Consts) (s : State) : State :=
  if !s.test_leds then write_IO_LED_ACT k true s else s

def handle_usb_get_descriptor (type index : Nat) (s : State) : State :=
  if type = USB_DESC_STRING ∧ index = 0xEE then emit (.SETUP_EP0_IN_DESC 0xEE) s
  else emit (.usb_serve_descriptor type index) s

/-! ## Boot: `config_init`, `descriptors_init`, `main` -/

/-- The bytes of a C string literal, with its terminating NUL. -/
def c_string (str : String) : List Nat :=
  str.toList.map Char.toNat ++ [0]

/-- The label `fail:` of `config_init`: load the default configuration. -/
def config_init_fail (k : Consts) (s : State) : State :=
  { s with glasgow_config :=
      { s.glasgow_config with
        revision := k.GLASGOW_REV_NA
        serial := (c_string "9999999999999999").take k.sizeof_serial
        bitstream_size := 0 } }

def config_init (env : Env) (k : Consts) (s : State) : State :=
  let e := Effect.eeprom_read k.I2C_ADDR_FX2_MEM 0 1 true
  let load_cmd := (env.data s.trace e).getD 0 0 % 256
  let r := call env e s
  if !r.1 then config_init_fail k r.2
  else if load_cmd = 0xff then config_init_fail k r.2
  else if load_cmd = 0xc2 then r.2
  else if load_cmd = 0xc0 then
    let e := Effect.eeprom_read k.I2C_ADDR_FX2_MEM (8 + 4) k.sizeof_glasgow_config true
    let bytes := env.data r.2.trace e
    let r := call env e r.2
    let s := { r.2 with glasgow_config := k.decode_config bytes }
    if !r.1 then config_init_fail k s
    else s
  else config_init_fail k r.2

/-- Copy `src` over `dst` starting at offset `off` (an `xmemcpy` into a string table entry). -/
def blit (dst : List Nat) (off : Nat) (src : List Nat) : List Nat :=
  dst.take off ++ src ++ dst.drop (off + src.length)

/-- The string table entry `usb_string_at_index(index)`, rewritten by `f`. -/
def modify_usb_string (index : Nat) (f : List Nat → List Nat) (s : State) : State :=
  { s with usb_strings := s.usb_strings.modify f (index - 1) }

def descriptors_init (k : Consts) (s : State) : State :=
  let cfg := s.glasgow_config
  let s :=
    if cfg.revision ≠ k.GLASGOW_REV_NA then
      { s with bcdDevice := ((k.CUR_API_LEVEL <<< 8) ||| cfg.revision) % 65536 }
    else
      { s with idVendor := k.VID_CYPRESS, idProduct := k.PID_FX2 }
  let s :=
    if cfg.manufacturer.getD 0 0 ≠ 0 then
      modify_usb_string 1 (fun d => blit d 0 cfg.manufacturer) s
    else s
  let s :=
    if cfg.flags &&& k.CONFIG_FLAG_MODIFIED_DESIGN ≠ 0 then
      modify_usb_string 2 (fun d => blit d 0 ("Another".toList.map Char.toNat)) s
    else s
  let s := modify_usb_string 3 (fun d => d.set 0 (('A'.toNat + (cfg.revision >>> 4) - 1) % 256)) s
  let s := modify_usb_string 3 (fun d => d.set 1 (('0'.toNat + (cfg.revision &&& 0xF)) % 256)) s
  modify_usb_string 3 (fun d => blit d 3 cfg.serial) s

/-- The loop `while(length > 0)` of the boot-time bitstream load; it returns the remaining
`length` with the state.  The first argument bounds the number of iterations as in
`eeprom_loop`. -/
def bootstrap_loop (env : Env) (k : Consts) : Nat → Nat → Nat → Nat → State → Nat × State
  | 0, length, _, _, s => (length, s)
  | fuel + 1, length, chip, addr, s =>
    if length > 0 then
      let chunk_len := if length < 0x80 then length else 0x80
      let r := call env (.eeprom_read chip addr chunk_len true) s
      if !r.1 then (length, latch_status_bit k ST_ERROR r.2)
      else
        let s := emit (.fpga_load chunk_len) r.2
        let length := length - chunk_len
        let addr := (addr + chunk_len) % 65536
        if addr = 0 then
          let chip := (chip + 1) % 256
          if chip = k.I2C_ADDR_ICE_MEM + 2 then
            bootstrap_loop env k fuel length k.I2C_ADDR_FX2_MEM ((addr + 0x7000) % 65536) s
          else
            bootstrap_loop env k fuel length chip addr s
        else
          bootstrap_loop env k fuel length chip addr s
    else (length, s)

/-- The block `if(glasgow_config.bitstream_size > 0)` of `main`. -/
def bootstrap (env : Env) (k : Consts) (s : State) : State :=
  if s.glasgow_config.bitstream_size > 0 then
    let length := s.glasgow_config.bitstream_size
    let s := write_IO_LED_ACT k true s
    let s := emit .fpga_reset s
    let r := bootstrap_loop env k length length k.I2C_ADDR_ICE_MEM 0 s
    let s :=
      if r.1 = 0 then
        let q := call env .fpga_start r.2
        if !q.1 then latch_status_bit k ST_ERROR q.2 else q.2
      else r.2
    write_IO_LED_ACT k false s
  else s

/-- The part of `main` before its endless loop.  Writes to registers that no function of
`main.c` reads back (`CPUCS`, `I2CTL`, `EP1INCFG`, `EP1OUTCFG`, `OED`, `T2CON`, `ET2`, `EPIE`)
are left out. -/
def main_init (env : Env) (k : Consts) (s : State) : State :=
  let s := config_init env k s
  let s := descriptors_init k s
  let s := emit .iobuf_init_dac_ldo s
  let s :=
    if s.glasgow_config.revision ≥ k.GLASGOW_REV_C2 then
      let r := call env .iobuf_init_adc_ina233 s
      if !r.1 then latch_status_bit k ST_ERROR r.2 else r.2
    else emit .iobuf_init_adc_adc081c s
  let s := emit .fpga_init s
  let s := emit .fifo_init s
  let s := write_IO_LED_FX2 k true s
  let v := s.IOD &&& (0xFF ^^^ (((1 <<< k.PIND_LED_ACT) ||| (1 <<< k.PIND_LED_ERR)) % 256))
  let s := emit (.IOD v) { s with IOD := v }
  let s := set_armed_alert true s
  let s := bootstrap env k s
  emit (.usb_init true) s

/-- The block `if(!test_leds)` at the end of the endless loop of `main`: the FX2 LED is lit
when the device has an address and breathes with the frame counter otherwise. -/
def update_fx2_led (k : Consts) (FNADDR USBFRAMEH : Nat) (s : State) : State :=
  if !s.test_leds then
    if FNADDR = 0 then
      if USBFRAMEH >>> 1 = 0 then write_IO_LED_FX2 k true s
      else if USBFRAMEH >>> 1 = 2 then write_IO_LED_FX2 k false s
      else if USBFRAMEH >>> 1 = 1 ∨ USBFRAMEH >>> 1 = 3 then
        write_IO_LED_FX2 k (!(s.IOD.testBit k.PIND_LED_FX2)) s
      else s
    else write_IO_LED_FX2 k true s
  else s

/-- One iteration of the endless loop of `main`; `req` is the content of `SETUPDAT`, and
`FNADDR`, `USBFRAMEH` are the values of the registers of those names when they are read. -/
def main_loop_iteration (env : Env) (k : Consts) (req : Setup) (FNADDR USBFRAMEH : Nat)
    (s : State) : State :=
  let s := if s.pending_setup then handle_pending_usb_setup env k req s else s
  let s := if !s.armed_alert then handle_pending_alert env k s else s
  update_fx2_led k FNADDR USBFRAMEH s

/-- The state at reset: the variables of `main.c` hold their C initial values, the
configuration record and the hardware registers hold whatever they are given. -/
def power_on (k : Consts) (cfg : Config) (IOD : Nat) (EP0BUF : Nat → Nat) : State :=
  { status := 0
    test_leds := false
    pending_setup := false
    armed_alert := false
    usb_config_value := 0
    usb_alt_setting := fun _ => 0
    bitstream_idx := 0
    glasgow_config := cfg
    EP0BUF := EP0BUF
    IOD := IOD
    idVendor := k.VID_QIHW
    idProduct := k.PID_GLASGOW
    bcdDevice := 0
    usb_strings :=
      [ c_string "whitequark research\x00\x00\x00",
        c_string ("Glasgow Interface Explorer (git " ++ k.GIT_REVISION ++ ")"),
        c_string "XX-XXXXXXXXXXXXXXXX" ]
    trace := [] }

/-- The states the firmware can be in between two steps: after boot, any interleaving of
main-loop iterations with the callbacks and interrupt handlers of `main.c`. -/
inductive Reachable (env : Env) (k : Consts) : State → Prop
  | boot (cfg : Config) (IOD : Nat) (EP0BUF : Nat → Nat) :
      Reachable env k (main_init env k (power_on k cfg IOD EP0BUF))
  | main_loop {s : State} (req : Setup) (FNADDR USBFRAMEH : Nat) :
      Reachable env k s → Reachable env k (main_loop_iteration env k req FNADDR USBFRAMEH s)
  | usb_setup {s : State} :
      Reachable env k s → Reachable env k (handle_usb_setup s)
  | usb_get_descriptor {s : State} (type index : Nat) :
      Reachable env k s → Reachable env k (handle_usb_get_descriptor type index s)
  | usb_set_configuration {s : State} (config_value : Nat) :
      Reachable env k s → Reachable env k (handle_usb_set_configuration config_value s).2
  | usb_set_interface {s : State} (interface alt_setting : Nat) :
      Reachable env k s → Reachable env k (handle_usb_set_interface env interface alt_setting s).2
  | usb_get_interface {s : State} (interface : Nat) :
      Reachable env k s → Reachable env k (handle_usb_get_interface interface s)
  | IE0 {s : State} : Reachable env k s → Reachable env k (isr_IE0 s)
  | TF2 {s : State} : Reachable env k s → Reachable env k (isr_TF2 k s)
  | EPn {s : State} : Reachable env k s → Reachable env k (isr_EPn k s)


/-! ## Sample inputs -/

/-- One assignment of the constants of `glasgow.h`, used to instantiate the theorems. -/
def sample_consts : Consts :=
  { I2C_ADDR_FX2_MEM := 0x51
    I2C_ADDR_ICE_MEM := 0x52
    GLASGOW_REV_NA := 0x00
    GLASGOW_REV_C0 := 0x30
    GLASGOW_REV_C2 := 0x32
    CONFIG_SIZE_BITSTREAM_ID := 16
    CONFIG_FLAG_MODIFIED_DESIGN := 1
    CUR_API_LEVEL := 4
    VID_CYPRESS := 0x04b4
    PID_FX2 := 0x8613
    VID_QIHW := 0x20b7
    PID_GLASGOW := 0x9db1
    PIND_LED_FX2 := 0
    PIND_LED_ACT := 2
    PIND_LED_ERR := 3
    offsetof_voltage_limit := 37
    sizeof_voltage_limit := 4
    sizeof_glasgow_config := 64
    sizeof_serial := 16
    decode_config := fun bytes =>
      { revision := bytes.getD 0 0
        serial := (bytes.drop 1).take 16
        bitstream_size := 0
        bitstream_id := (bytes.drop 21).take 16
        voltage_limit := (bytes.drop 37).take 4
        manufacturer := (bytes.drop 41).take 22
        flags := bytes.getD 63 0 }
    GIT_REVISION := "0000000" }

/-- An environment in which every call succeeds and returns zero bytes. -/
def sample_env : Env :=
  { ok := fun _ _ => true
    data := fun _ _ => [] }

/-- An environment in which every call succeeds and every read returns bytes 0xFF, as an
erased memory does. -/
def erased_env : Env :=
  { ok := fun _ _ => true
    data := fun _ _ => List.replicate 64 0xFF }

/-- An environment in which every call fails. -/
def failing_env : Env :=
  { ok := fun _ _ => false
    data := fun _ _ => [] }

/-- A configuration record of a revision C2 device without a stored bitstream. -/
def sample_config : Config :=
  { revision := 0x32
    serial := List.replicate 16 0x30
    bitstream_size := 0
    bitstream_id := List.replicate 16 0xAA
    voltage_limit := [0, 0, 0, 0]
    manufacturer := List.replicate 22 0
    flags := 0 }

/-- A state with a SETUP packet pending, the error bit latched and bitstream chunk 7
accepted last. -/
def sample_state : State :=
  { power_on sample_consts sample_config 0 (fun _ => 0) with
    status := 1
    pending_setup := true
    armed_alert := true
    usb_config_value := 1
    usb_alt_setting := fun i => if i = 0 then 1 else 0
    bitstream_idx := 7 }

/-- The fields of the state that the data-stage loops never write: everything except
`EP0BUF`, the pending-SETUP flag and the trace. -/
def same_core (s t : State) : Prop :=
  t.status = s.status ∧ t.test_leds = s.test_leds ∧ t.armed_alert = s.armed_alert ∧
  t.usb_config_value = s.usb_config_value ∧ t.usb_alt_setting = s.usb_alt_setting ∧
  t.bitstream_idx = s.bitstream_idx ∧ t.glasgow_config = s.glasgow_config ∧
  t.IOD = s.IOD ∧ t.idVendor = s.idVendor ∧ t.idProduct = s.idProduct ∧
  t.bcdDevice = s.bcdDevice ∧ t.usb_strings = s.usb_strings

/-- The dispatcher takes the bitstream download arm for `req` in state `s`. -/
def fpga_cfg_accepted (req : Setup) (s : State) : Bool :=
  req.bmRequestType = (USB_RECIP_DEVICE ||| USB_TYPE_VENDOR ||| USB_DIR_OUT) ∧
  req.bRequest = USB_REQ_FPGA_CFG ∧ fpga_cfg_index_ok req s

/-- The chunk indices of the bitstream download requests that the dispatcher accepts when
it handles the SETUP packets `reqs` one after the other from state `s`, in order. -/
def accepted_indices (env : Env) (k : Consts) : List Setup → State → List Nat
  | [], _ => []
  | req :: reqs, s =>
    (if fpga_cfg_accepted req s then [req.wIndex] else []) ++
      accepted_indices env k reqs (handle_pending_usb_setup env k req s)

/-- A status byte that holds no bit other than the two latched ones, error and alert. -/
def status_only_latched (n : Nat) : Prop :=
  n = 0 ∨ n = ST_ERROR ∨ n = ST_ALERT ∨ n = ST_ERROR ||| ST_ALERT

instance (n : Nat) : Decidable (status_only_latched n) := by
  unfold status_only_latched; infer_instance

/-- An effect that, if it is an I2C memory transaction, addresses `chip` and stays within
the byte range from `lo` (inclusive) to `hi` (exclusive). -/
def i2c_within (chip lo hi : Nat) : Effect → Prop
  | .eeprom_read c a n _ => c = chip ∧ lo ≤ a ∧ a + n ≤ hi
  | .eeprom_write c a n _ _ _ => c = chip ∧ lo ≤ a ∧ a + n ≤ hi
  | _ => True

/-- An effect that is an I2C memory transaction. -/
def is_i2c : Effect → Bool
  | .eeprom_read _ _ _ _ => true
  | .eeprom_write _ _ _ _ _ _ => true
  | _ => false

/-- The first read of `config_init`: one byte, the load-command marker, at address 0 of
the on-board memory. -/
def marker_read (k : Consts) : Effect :=
  .eeprom_read k.I2C_ADDR_FX2_MEM 0 1 true

/-- The second read of `config_init`: the configuration record at offset `8 + 4`. -/
def record_read (k : Consts) : Effect :=
  .eeprom_read k.I2C_ADDR_FX2_MEM (8 + 4) k.sizeof_glasgow_config true

/-- The load-command marker that `config_init` reads in state `s`. -/
def load_cmd (env : Env) (k : Consts) (s : State) : Nat :=
  (env.data s.trace (marker_read k)).getD 0 0 % 256

/-- An FPGA configuration operation of the boot-time bitstream load. -/
def is_fpga_load_op : Effect → Bool
  | .fpga_reset => true
  | .fpga_load _ => true
  | .fpga_start => true
  | _ => false

/-- The block of `main` that initialises the voltage-sense backend selected by the
revision. -/
def init_adc (env : Env) (k : Consts) (s : State) : State :=
  if s.glasgow_config.revision ≥ k.GLASGOW_REV_C2 then
    let r := call env .iobuf_init_adc_ina233 s
    if !r.1 then latch_status_bit k ST_ERROR r.2 else r.2
  else emit .iobuf_init_adc_adc081c s

/-- The block `Set up LEDs` of `main`. -/
def setup_leds (k : Consts) (s : State) : State :=
  let s := write_IO_LED_FX2 k true s
  let v := s.IOD &&& (0xFF ^^^ (((1 <<< k.PIND_LED_ACT) ||| (1 <<< k.PIND_LED_ERR)) % 256))
  emit (.IOD v) { s with IOD := v }

/-- The part of `main_init` that follows `descriptors_init`, as a composition of its blocks. -/
def main_after_descriptors (env : Env) (k : Consts) (s : State) : State :=
  emit (.usb_init true)
    (bootstrap env k
      (set_armed_alert true
        (setup_leds k
          (emit .fifo_init (emit .fpga_init (init_adc env k (emit .iobuf_init_dac_ldo s)))))))

/-- The identity of the device: the fields that only `config_init`, `descriptors_init` and
the dispatcher write. -/
def same_identity (s t : State) : Prop :=
  t.glasgow_config = s.glasgow_config ∧ t.idVendor = s.idVendor ∧
  t.idProduct = s.idProduct ∧ t.bcdDevice = s.bcdDevice ∧ t.usb_strings = s.usb_strings ∧
  t.test_leds = s.test_leds

/-- A step that keeps the identity of the device and issues no FPGA configuration
operation. -/
def quiet_step (s t : State) : Prop :=
  same_identity s t ∧ ∃ l, t.trace = s.trace ++ l ∧ ∀ e ∈ l, is_fpga_load_op e = false

/-- The reference sequence of chunks of a transfer of `L` bytes from address `A`, in the
words of the specification: `ceil(L/64)` chunks, the `i`-th of which has address
`(A + 64 i) mod 2^16` and length `min(64, L - 64 i)`. -/
def ref_chunks (A L : Nat) : List (Nat × Nat) :=
  (List.range ((L + 63) / 64)).map fun i => ((A + 64 * i) % 65536, min 64 (L - 64 * i))

/-- The I2C transaction of the EEPROM request for one chunk `(address, length)`. -/
def chunk_effect (dir_in : Bool) (chip page_size timeout : Nat) (c : Nat × Nat) : Effect :=
  if dir_in then .eeprom_read chip c.1 c.2 true
  else .eeprom_write chip c.1 c.2 true page_size timeout

/-- The number of bytes that an I2C memory transaction moves. -/
def chunk_len : Effect → Nat
  | .eeprom_read _ _ n _ => n
  | .eeprom_write _ _ n _ _ _ => n
  | _ => 0

/-- The results of the I2C memory transactions among the effects `l`, in order, each one
evaluated after the history `hist` followed by the effects that precede it. -/
def i2c_results (env : Env) : List Effect → List Effect → List Bool
  | _, [] => []
  | hist, e :: l =>
    (if is_i2c e then [env.ok hist e] else []) ++ i2c_results env (hist ++ [e]) l

/-- The effects `l`, issued after the history `hist`, carry out a chunked transfer of `L`
bytes from address `A`: their I2C transactions are a prefix of the reference sequence, the
transfer is stalled exactly when a transaction fails, only the last transaction can fail,
and without a failure the whole reference sequence is issued. -/
def chunked_transfer (env : Env) (dir_in : Bool) (chip page_size timeout : Nat)
    (hist : List Effect) (A L : Nat) (l : List Effect) : Prop :=
  l.filter is_i2c =
    ((ref_chunks A L).take (l.filter is_i2c).length).map
      (chunk_effect dir_in chip page_size timeout) ∧
  (Effect.STALL_EP0 ∈ l ↔ false ∈ i2c_results env hist l) ∧
  (∀ b ∈ (i2c_results env hist l).dropLast, b = true) ∧
  (false ∉ i2c_results env hist l → (l.filter is_i2c).length = (ref_chunks A L).length)

/-- The state after the dispatcher has handled the SETUP packets `reqs` one after the
other. -/
def run (env : Env) (k : Consts) : List Setup → State → State
  | [], s => s
  | req :: reqs, s => run env k reqs (handle_pending_usb_setup env k req s)

/-- A request that can change the stored bitstream id: a bitstream-id set request or a
bitstream chunk with index 0. -/
def changes_bitstream_id (req : Setup) : Bool :=
  (req.bRequest = USB_REQ_BITSTREAM_ID ∧ req_dir_in req = false) ∨
  (req.bRequest = USB_REQ_FPGA_CFG ∧ req.wIndex = 0)

/-- The effects appended to the trace between the states `s` and `t`. -/
def new_effects (s t : State) : List Effect :=
  t.trace.drop s.trace.length

/-- The state in which the backend of a get request is called: after `pending_setup = false;`
and the busy-wait `while(EP0CS & _BUSY);`. -/
def get_stage (s : State) : State :=
  wait_EP0 (clear_pending_setup s)

/-- The state in which the backend of a set request is called: after `pending_setup = false;`,
`SETUP_EP0_BUF(n);` and the busy-wait that ends when the host data is in `EP0BUF`. -/
def set_stage (env : Env) (n : Nat) (s : State) : State :=
  wait_EP0_data env (emit (.SETUP_EP0_BUF n) (clear_pending_setup s))

/-- The conditions of the arms of `handle_pending_usb_setup` that follow the check of
`bmRequestType`: a request is recognized when one of them holds. -/
def recognized (k : Consts) (req : Setup) (s : State) : Prop :=
  (!req_dir_in req ∧ req.bRequest = USB_REQ_LIBFX2_PAGE_SIZE) ∨
  (req.bRequest = USB_REQ_CYPRESS_EEPROM_DB ∨ req.bRequest = USB_REQ_EEPROM) ∨
  req.bRequest = USB_REQ_REGISTER ∨
  (req_dir_in req ∧ req.bRequest = USB_REQ_STATUS ∧ req.wLength = 1) ∨
  (!req_dir_in req ∧ req.bRequest = USB_REQ_FPGA_CFG ∧ fpga_cfg_index_ok req s) ∨
  (req.bRequest = USB_REQ_BITSTREAM_ID ∧ req.wLength = k.CONFIG_SIZE_BITSTREAM_ID) ∨
  (req.bRequest = USB_REQ_IO_VOLT ∧ req.wLength = 2) ∨
  (req_dir_in req ∧ req.bRequest = USB_REQ_SENSE_VOLT ∧ req.wLength = 2) ∨
  (req.bRequest = USB_REQ_ALERT_VOLT ∧ req.wLength = 4) ∨
  (req_dir_in req ∧ req.bRequest = USB_REQ_POLL_ALERT ∧ req.wLength = 1) ∨
  (!req_dir_in req ∧ req.bRequest = USB_REQ_IOBUF_ENABLE ∧ req.wLength = 0) ∨
  (req.bRequest = USB_REQ_LIMIT_VOLT ∧ req.wLength = 2) ∨
  (req.bRequest = USB_REQ_PULL ∧ req.wLength = 2) ∨
  (!req_dir_in req ∧ req.bRequest = USB_REQ_TEST_LEDS ∧ req.wLength = 0) ∨
  (req_dir_in req ∧ req.bRequest = USB_REQ_API_LEVEL ∧ req.wLength = 1) ∨
  (req_dir_in req ∧ req.bRequest = USB_REQ_GET_MS_DESCRIPTOR ∧
    req.wIndex = USB_DESC_MS_EXTENDED_COMPAT_ID) ∨
  (req_dir_in req ∧ req.bRequest = USB_REQ_GET_MS_DESCRIPTOR ∧
    req.wIndex = USB_DESC_MS_EXTENDED_PROPERTIES)

/-- The request codes that occur in the conditions of `handle_pending_usb_setup`. -/
def request_codes : List Nat :=
  [USB_REQ_LIBFX2_PAGE_SIZE, USB_REQ_CYPRESS_EEPROM_DB, USB_REQ_EEPROM, USB_REQ_REGISTER,
    USB_REQ_STATUS, USB_REQ_FPGA_CFG, USB_REQ_BITSTREAM_ID, USB_REQ_IO_VOLT,
    USB_REQ_SENSE_VOLT, USB_REQ_ALERT_VOLT, USB_REQ_POLL_ALERT, USB_REQ_IOBUF_ENABLE,
    USB_REQ_LIMIT_VOLT, USB_REQ_PULL, USB_REQ_TEST_LEDS, USB_REQ_API_LEVEL,
    USB_REQ_GET_MS_DESCRIPTOR]

/-- An environment in which `iobuf_init_adc_ina233` fails and every other call succeeds; the
EEPROM marker byte read by `config_init` is 0xC2. -/
def adc_failing_env : Env :=
  { ok := fun _ e => decide (e ≠ Effect.iobuf_init_adc_ina233)
    data := fun _ _ => [0xC2] }

/-- A call of one of the two handlers that write the alt-setting table. -/
inductive UsbCall
  | set_configuration (config_value : Nat)
  | set_interface (interface alt_setting : Nat)

/-- The arguments are bytes and the interface index is one of the four table entries. -/
def UsbCall.wf : UsbCall → Prop
  | .set_configuration config_value => config_value < 256
  | .set_interface interface alt_setting => interface < 4 ∧ alt_setting < 256

def apply_call (env : Env) : UsbCall → State → State
  | .set_configuration config_value, s => (handle_usb_set_configuration config_value s).2
  | .set_interface interface alt_setting, s =>
    (handle_usb_set_interface env interface alt_setting s).2

def apply_calls (env : Env) : List UsbCall → State → State
  | [], s => s
  | c :: cs, s => apply_calls env cs (apply_call env c s)

/-- The alt-setting argument of a `handle_usb_set_interface` call is 0 or 1. -/
def UsbCall.alt_setting_ok : UsbCall → Prop
  | .set_configuration _ => True
  | .set_interface _ alt_setting => alt_setting = 0 ∨ alt_setting = 1

/-- The flag `pending_setup` is clear in `t`, and the trace of `t` is the trace of `s`
followed by `pending_setup = false` and further effects. -/
def cleared_first (s t : State) : Prop :=
  t.pending_setup = false ∧ ∃ l, t.trace = s.trace ++ Effect.pending_setup false :: l

/-- The update of `(chip, addr)` at the end of one iteration of the boot-time bitstream
loop: `addr += chunk_len` and the chip change on address wraparound. -/
def bootstrap_advance (k : Consts) (chip addr chunk_len : Nat) : Nat × Nat :=
  let addr := (addr + chunk_len) % 65536
  if addr = 0 then
    let chip := (chip + 1) % 256
    if chip = k.I2C_ADDR_ICE_MEM + 2 then (k.I2C_ADDR_FX2_MEM, (addr + 0x7000) % 65536)
    else (chip, addr)
  else (chip, addr)

/-- The chunks `(chip, addr, chunk_len)` that the boot-time bitstream loop reads and loads
as long as no read fails, for the remaining `length` and the current `(chip, addr)`; the
first argument bounds the number of iterations as in `bootstrap_loop`. -/
def bootstrap_chunks (k : Consts) : Nat → Nat → Nat → Nat → List (Nat × Nat × Nat)
  | 0, _, _, _ => []
  | fuel + 1, length, chip, addr =>
    if length > 0 then
      let chunk_len := if length < 0x80 then length else 0x80
      (chip, addr, chunk_len) ::
        bootstrap_chunks k fuel (length - chunk_len)
          (bootstrap_advance k chip addr chunk_len).1 (bootstrap_advance k chip addr chunk_len).2
    else []

/-- The read of one chunk by the boot-time loop. -/
def boot_read (c : Nat × Nat × Nat) : Effect :=
  .eeprom_read c.1 c.2.1 c.2.2 true

/-- The effects of one iteration of the boot-time loop whose read succeeds. -/
def boot_chunk_effects (c : Nat × Nat × Nat) : List Effect :=
  [boot_read c, .fpga_load c.2.2]

/-- The index of the first chunk whose read fails when the chunks are read and loaded one
after the other after the history `hist`; `none` when every read succeeds. -/
def first_failure (env : Env) : List Effect → List (Nat × Nat × Nat) → Option Nat
  | _, [] => none
  | hist, c :: cs =>
    if env.ok hist (boot_read c) then
      (first_failure env (hist ++ boot_chunk_effects c) cs).map (· + 1)
    else some 0

/-- The position `(chip, address)` of the linear bitstream offset `n`, in the words of the
specification: the low half of the configuration memory up to 0x10000, its high half (next
I2C address) up to 0x20000, and the on-board memory from 0x7000 on thereafter. -/
def linear_position (k : Consts) (n : Nat) : Nat × Nat :=
  if n < 0x10000 then (k.I2C_ADDR_ICE_MEM, n)
  else if n < 0x20000 then (k.I2C_ADDR_ICE_MEM + 1, n - 0x10000)
  else (k.I2C_ADDR_FX2_MEM, 0x7000 + (n - 0x20000))

/-- The EEPROM request with which the host reads `len` bytes at the linear bitstream offset
`n`: logical selector `1 + n div 65536`, address `n mod 65536`. -/
def eeprom_request_at (n len : Nat) : Setup :=
  { bmRequestType := USB_RECIP_DEVICE ||| USB_TYPE_VENDOR ||| USB_DIR_IN
    bRequest := USB_REQ_EEPROM
    wValue := n % 65536
    wIndex := 1 + n / 65536
    wLength := len }

/-- The effects of `latch_status_bit(bit)` in state `s`: the write of `status` and, unless
test mode is active, the write of the error LED. -/
def latch_effects (s : State) (bit : Nat) : List Effect :=
  Effect.status (s.status ||| bit) ::
    (if s.test_leds then []
     else [Effect.IO_LED_ERR (decide ((s.status ||| bit) &&& (ST_ERROR ||| ST_ALERT) ≠ 0))])

/-- The chunks that `bootstrap` reads and loads in state `s` as long as no read fails. -/
def boot_chunks (k : Consts) (s : State) : List (Nat × Nat × Nat) :=
  bootstrap_chunks k s.glasgow_config.bitstream_size s.glasgow_config.bitstream_size
    k.I2C_ADDR_ICE_MEM 0

/-- The trace at the start of the boot-time loop: the activity LED is on and the FPGA has
been reset. -/
def boot_history (s : State) : List Effect :=
  s.trace ++ [Effect.IO_LED_ACT true, Effect.fpga_reset]

/-- A reset state whose configuration record announces a bitstream of 300 bytes. -/
def sample_boot_state : State :=
  power_on sample_consts { sample_config with bitstream_size := 300 } 0 (fun _ => 0)

/-- A reset state whose configuration record announces a bitstream of 0x21080 bytes, 128
bytes more than the two halves of the configuration memory and the tail window hold. -/
def oversized_boot_state : State :=
  power_on sample_consts { sample_config with bitstream_size := 0x21080 } 0 (fun _ => 0)

/-- The backend call with which `handle_pending_alert` polls the port mask. -/
def alert_poll (k : Consts) (s : State) : Effect :=
  if s.glasgow_config.revision ≥ k.GLASGOW_REV_C2 then Effect.iobuf_poll_alert_ina233
  else Effect.iobuf_poll_alert_adc081c false

/-- The port mask that the poll of `handle_pending_alert` returns in state `s`. -/
def alert_mask (env : Env) (k : Consts) (s : State) : Nat :=
  (env.data (s.trace ++ latch_effects s ST_ALERT) (alert_poll k s)).getD 0 0 % 256

/-- The arms of `handle_pending_usb_setup` that follow the check of `bmRequestType`, in the
order of the source: the condition of each `if` and the state its body leaves. -/
def arms (env : Env) (k : Consts) (req : Setup) (s : State) : List (Bool × State) :=
  [ (decide (!req_dir_in req ∧ req.bRequest = USB_REQ_LIBFX2_PAGE_SIZE), req_page_size s),
    (decide (req.bRequest = USB_REQ_CYPRESS_EEPROM_DB ∨ req.bRequest = USB_REQ_EEPROM),
      req_eeprom env k req s),
    (decide (req.bRequest = USB_REQ_REGISTER), req_register env req s),
    (decide (req_dir_in req ∧ req.bRequest = USB_REQ_STATUS ∧ req.wLength = 1),
      req_status env k s),
    (decide (!req_dir_in req ∧ req.bRequest = USB_REQ_FPGA_CFG ∧ fpga_cfg_index_ok req s),
      req_fpga_cfg env k req s),
    (decide (req.bRequest = USB_REQ_BITSTREAM_ID ∧ req.wLength = k.CONFIG_SIZE_BITSTREAM_ID),
      req_bitstream_id env k req s),
    (decide (req.bRequest = USB_REQ_IO_VOLT ∧ req.wLength = 2), req_io_volt env k req s),
    (decide (req_dir_in req ∧ req.bRequest = USB_REQ_SENSE_VOLT ∧ req.wLength = 2),
      req_sense_volt env k req s),
    (decide (req.bRequest = USB_REQ_ALERT_VOLT ∧ req.wLength = 4),
      req_alert_volt env k req s),
    (decide (req_dir_in req ∧ req.bRequest = USB_REQ_POLL_ALERT ∧ req.wLength = 1),
      req_poll_alert env k s),
    (decide (!req_dir_in req ∧ req.bRequest = USB_REQ_IOBUF_ENABLE ∧ req.wLength = 0),
      req_iobuf_enable req s),
    (decide (req.bRequest = USB_REQ_LIMIT_VOLT ∧ req.wLength = 2),
      req_limit_volt env k req s),
    (decide (req.bRequest = USB_REQ_PULL ∧ req.wLength = 2), req_pull env k req s),
    (decide (!req_dir_in req ∧ req.bRequest = USB_REQ_TEST_LEDS ∧ req.wLength = 0),
      req_test_leds k req s),
    (decide (req_dir_in req ∧ req.bRequest = USB_REQ_API_LEVEL ∧ req.wLength = 1),
      req_api_level k s),
    (decide (req_dir_in req ∧ req.bRequest = USB_REQ_GET_MS_DESCRIPTOR ∧
        req.wIndex = USB_DESC_MS_EXTENDED_COMPAT_ID),
      req_ms_descriptor USB_DESC_MS_EXTENDED_COMPAT_ID s),
    (decide (req_dir_in req ∧ req.bRequest = USB_REQ_GET_MS_DESCRIPTOR ∧
        req.wIndex = USB_DESC_MS_EXTENDED_PROPERTIES),
      req_ms_descriptor USB_DESC_MS_EXTENDED_PROPERTIES s) ]

/-- The outcome of an if-chain over the arms `l`: the state of the first arm whose condition
holds, and `d` when none holds. -/
def first_match : List (Bool × State) → State → State
  | [], d => d
  | (g, t) :: l, d => if g then t else first_match l d

/-- The flat lookup of the specification: the one arm (by its position in `arms`) that can
accept a request code; the two Microsoft descriptor arms share their code and are told apart
by `wIndex`. -/
def lookup_arm (bRequest wIndex : Nat) : Option Nat :=
  if bRequest = USB_REQ_LIBFX2_PAGE_SIZE then some 0
  else if bRequest = USB_REQ_CYPRESS_EEPROM_DB ∨ bRequest = USB_REQ_EEPROM then some 1
  else if bRequest = USB_REQ_REGISTER then some 2
  else if bRequest = USB_REQ_STATUS then some 3
  else if bRequest = USB_REQ_FPGA_CFG then some 4
  else if bRequest = USB_REQ_BITSTREAM_ID then some 5
  else if bRequest = USB_REQ_IO_VOLT then some 6
  else if bRequest = USB_REQ_SENSE_VOLT then some 7
  else if bRequest = USB_REQ_ALERT_VOLT then some 8
  else if bRequest = USB_REQ_POLL_ALERT then some 9
  else if bRequest = USB_REQ_IOBUF_ENABLE then some 10
  else if bRequest = USB_REQ_LIMIT_VOLT then some 11
  else if bRequest = USB_REQ_PULL then some 12
  else if bRequest = USB_REQ_TEST_LEDS then some 13
  else if bRequest = USB_REQ_API_LEVEL then some 14
  else if bRequest = USB_REQ_GET_MS_DESCRIPTOR then
    if wIndex = USB_DESC_MS_EXTENDED_COMPAT_ID then some 15
    else if wIndex = USB_DESC_MS_EXTENDED_PROPERTIES then some 16
    else none
  else none

/-- The flat lookup on the request code alone, as the claim states it: a map from request
codes to arms. -/
def code_determines_arm (env : Env) (k : Consts) : Prop :=
  ∀ (r1 r2 : Setup) (s : State) (i j : Nat),
    r1.bRequest = r2.bRequest →
    ((arms env k r1 s).map Prod.fst)[i]? = some true →
    ((arms env k r2 s).map Prod.fst)[j]? = some true → i = j

/-- The arm at position `i` of `l` as a lookup result: its state when its condition holds,
and `d` when it does not or when there is no such arm. -/
def arm_at (l : List (Bool × State)) (i : Nat) (d : State) : State :=
  match l[i]? with
  | some (g, t) => if g then t else d
  | none => d

/-- The dispatcher as a flat lookup, in the words of the specification: the request code
(with `wIndex` for the Microsoft descriptor code) names one arm, the condition of that arm is
the validity assertion, and everything else is stalled. -/
def flat_dispatch (env : Env) (k : Consts) (req : Setup) (s : State) : State :=
  if req.bmRequestType ≠ (USB_RECIP_DEVICE ||| USB_TYPE_VENDOR ||| USB_DIR_IN) ∧
     req.bmRequestType ≠ (USB_RECIP_DEVICE ||| USB_TYPE_VENDOR ||| USB_DIR_OUT) then
    stall_ep0_return s
  else
    match lookup_arm req.bRequest req.wIndex with
    | some i => arm_at (arms env k req s) i (stall_ep0_return s)
    | none => stall_ep0_return s

/-- No two of the arms `l` have conditions that hold together. -/
def disjoint_arms (l : List (Bool × State)) : Prop :=
  l.Pairwise fun a b => ¬ (a.1 = true ∧ b.1 = true)

/-- An effect that resolves the control transfer: arming the data or status stage of
endpoint 0, an acknowledge, or a stall. -/
def resolves : Effect → Bool
  | .SETUP_EP0_BUF _ => true
  | .SETUP_EP0_IN_DESC _ => true
  | .ACK_EP0 => true
  | .STALL_EP0 => true
  | _ => false

/-- The effects between the states `s` and `t` contain no write of `true` to the flag
`pending_setup`. -/
def never_sets_flag (s t : State) : Prop :=
  ∃ l, t.trace = s.trace ++ l ∧ Effect.pending_setup true ∉ l

/-- A run of the statements `steps`, one after the other. -/
def run_steps (steps : List (State → State)) (s : State) : State :=
  steps.foldl (fun t step => step t) s

/-- The statements `steps` with the interrupt handler `isr` taken before the statement at
position `n` (after the last statement when `n` is the number of statements). -/
def interrupt_at (n : Nat) (isr : State → State) (steps : List (State → State)) :
    List (State → State) :=
  steps.take n ++ isr :: steps.drop n

/-- The statements of the page-size arm of `handle_pending_usb_setup` (lines 431-435 of
`main.c`): `pending_setup = false; ACK_EP0();`. -/
def req_page_size_steps : List (State → State) :=
  [clear_pending_setup, emit .ACK_EP0]

/-- The statements that the EEPROM arm of `handle_pending_usb_setup` executes for a write of
`len` bytes (at most 64, one chunk) to address `addr` of the on-board memory (selector 0) when
the write succeeds: `pending_setup = false; SETUP_EP0_BUF(0); while(EP0CS & _BUSY);
eeprom_write(...)`. -/
def eeprom_write_steps (env : Env) (k : Consts) (addr len : Nat) : List (State → State) :=
  [clear_pending_setup, emit (.SETUP_EP0_BUF 0), wait_EP0_data env,
    fun s => (call env (.eeprom_write k.I2C_ADDR_FX2_MEM addr len true 6 255) s).2]

/-! # Auxiliary lemmas -/

theorem same_core_refl (s : State) : same_core s s := by
  simp [same_core]

theorem same_core_trans {s t u : State} (h1 : same_core s t) (h2 : same_core t u) :
    same_core s u := by
  simp only [same_core] at *
  obtain ⟨a1, a2, a3, a4, a5, a6, a7, a8, a9, a10, a11, a12⟩ := h1
  obtain ⟨b1, b2, b3, b4, b5, b6, b7, b8, b9, b10, b11, b12⟩ := h2
  exact ⟨b1.trans a1, b2.trans a2, b3.trans a3, b4.trans a4, b5.trans a5, b6.trans a6,
    b7.trans a7, b8.trans a8, b9.trans a9, b10.trans a10, b11.trans a11, b12.trans a12⟩

theorem fpga_cfg_loop_frame (env : Env) (fuel arg_len : Nat) (s : State) :
    same_core s (fpga_cfg_loop env fuel arg_len s) := by
  induction fuel generalizing arg_len s with
  | zero => exact same_core_refl s
  | succ n ih =>
    unfold fpga_cfg_loop
    by_cases h : arg_len > 0
    · simp only [h, if_true]
      refine same_core_trans ?_ (ih _ _)
      simp [same_core, emit, wait_EP0_data]
    · simp only [h, if_false]
      exact same_core_refl s

theorem eeprom_loop_frame (env : Env) (dir_in : Bool) (chip page_size timeout : Nat)
    (fuel arg_addr arg_len : Nat) (s : State) :
    same_core s (eeprom_loop env dir_in chip page_size timeout fuel arg_addr arg_len s) := by
  induction fuel generalizing arg_addr arg_len s with
  | zero => exact same_core_refl s
  | succ n ih =>
    unfold eeprom_loop
    by_cases h : arg_len > 0
    · simp only [h, if_true]
      generalize (if arg_len < 64 then arg_len else 64) = c
      cases dir_in
      · simp only [Bool.false_eq_true, if_false]
        split
        · simp [same_core, stall_ep0_return, clear_pending_setup, emit, call, wait_EP0_data]
        · refine same_core_trans ?_ (ih _ _ _)
          simp [same_core, emit, call, wait_EP0_data]
      · simp only [if_true]
        split
        · simp [same_core, stall_ep0_return, clear_pending_setup, emit, call_into_EP0,
            wait_EP0]
        · refine same_core_trans ?_ (ih _ _ _)
          simp [same_core, emit, call_into_EP0, wait_EP0]
    · simp only [h, if_false]
      exact same_core_refl s

@[simp] theorem fpga_cfg_loop_bitstream_idx (env : Env) (fuel arg_len : Nat) (s : State) :
    (fpga_cfg_loop env fuel arg_len s).bitstream_idx = s.bitstream_idx :=
  (fpga_cfg_loop_frame env fuel arg_len s).2.2.2.2.2.1

@[simp] theorem fpga_cfg_loop_status (env : Env) (fuel arg_len : Nat) (s : State) :
    (fpga_cfg_loop env fuel arg_len s).status = s.status :=
  (fpga_cfg_loop_frame env fuel arg_len s).1

@[simp] theorem fpga_cfg_loop_glasgow_config (env : Env) (fuel arg_len : Nat) (s : State) :
    (fpga_cfg_loop env fuel arg_len s).glasgow_config = s.glasgow_config :=
  (fpga_cfg_loop_frame env fuel arg_len s).2.2.2.2.2.2.1

@[simp] theorem eeprom_loop_bitstream_idx (env : Env) (dir_in : Bool)
    (chip page_size timeout fuel arg_addr arg_len : Nat) (s : State) :
    (eeprom_loop env dir_in chip page_size timeout fuel arg_addr arg_len s).bitstream_idx =
      s.bitstream_idx :=
  (eeprom_loop_frame env dir_in chip page_size timeout fuel arg_addr arg_len s).2.2.2.2.2.1

@[simp] theorem eeprom_loop_status (env : Env) (dir_in : Bool)
    (chip page_size timeout fuel arg_addr arg_len : Nat) (s : State) :
    (eeprom_loop env dir_in chip page_size timeout fuel arg_addr arg_len s).status =
      s.status :=
  (eeprom_loop_frame env dir_in chip page_size timeout fuel arg_addr arg_len s).1

@[simp] theorem update_err_led_bitstream_idx (k : Consts) (s : State) :
    (update_err_led k s).bitstream_idx = s.bitstream_idx := by
  unfold update_err_led
  split_ifs <;> rfl

@[simp] theorem update_err_led_status (k : Consts) (s : State) :
    (update_err_led k s).status = s.status := by
  unfold update_err_led
  split_ifs <;> rfl

@[simp] theorem latch_status_bit_bitstream_idx (k : Consts) (bit : Nat) (s : State) :
    (latch_status_bit k bit s).bitstream_idx = s.bitstream_idx := by
  simp [latch_status_bit, emit]

@[simp] theorem latch_status_bit_status (k : Consts) (bit : Nat) (s : State) :
    (latch_status_bit k bit s).status = s.status ||| bit := by
  simp [latch_status_bit, emit]

@[simp] theorem reset_status_bit_bitstream_idx (k : Consts) (bit : Nat) (s : State) :
    (reset_status_bit k bit s).2.bitstream_idx = s.bitstream_idx := by
  unfold reset_status_bit
  split_ifs <;> simp [emit]

theorem reset_status_bit_status (k : Consts) (bit : Nat) (s : State) :
    (reset_status_bit k bit s).2.status =
      if s.status &&& bit ≠ 0 then s.status &&& (0xFF ^^^ bit) else s.status := by
  unfold reset_status_bit
  split_ifs <;> simp [emit]

theorem ite_cases {α : Type} (P : α → Prop) (c : Prop) [Decidable c] (a b : α)
    (ha : c → P a) (hb : ¬ c → P b) : P (if c then a else b) := by
  by_cases h : c
  · rw [if_pos h]; exact ha h
  · rw [if_neg h]; exact hb h

theorem req_dir_in_out (req : Setup)
    (h : ¬ (req.bmRequestType ≠ (USB_RECIP_DEVICE ||| USB_TYPE_VENDOR ||| USB_DIR_IN) ∧
            req.bmRequestType ≠ (USB_RECIP_DEVICE ||| USB_TYPE_VENDOR ||| USB_DIR_OUT)))
    (hd : req_dir_in req = false) :
    req.bmRequestType = (USB_RECIP_DEVICE ||| USB_TYPE_VENDOR ||| USB_DIR_OUT) := by
  by_cases h1 : req.bmRequestType = (USB_RECIP_DEVICE ||| USB_TYPE_VENDOR ||| USB_DIR_IN)
  · simp [req_dir_in, h1, USB_RECIP_DEVICE, USB_TYPE_VENDOR, USB_DIR_IN] at hd
  · by_contra h2
    exact h ⟨h1, h2⟩

/-- Case analysis on the arm of the dispatcher that handles a request. -/
theorem handle_pending_usb_setup_cases (P : State → Prop) (env : Env) (k : Consts)
    (req : Setup) (s : State)
    (h_stall : P (stall_ep0_return s))
    (h_page_size : P (req_page_size s))
    (h_eeprom : P (req_eeprom env k req s))
    (h_register : P (req_register env req s))
    (h_status : P (req_status env k s))
    (h_fpga_cfg : fpga_cfg_accepted req s = true → P (req_fpga_cfg env k req s))
    (h_bitstream_id : P (req_bitstream_id env k req s))
    (h_io_volt : P (req_io_volt env k req s))
    (h_sense_volt : P (req_sense_volt env k req s))
    (h_alert_volt : P (req_alert_volt env k req s))
    (h_poll_alert : P (req_poll_alert env k s))
    (h_iobuf_enable : P (req_iobuf_enable req s))
    (h_limit_volt : P (req_limit_volt env k req s))
    (h_pull : P (req_pull env k req s))
    (h_test_leds : P (req_test_leds k req s))
    (h_api_level : P (req_api_level k s))
    (h_ms_compat : P (req_ms_descriptor USB_DESC_MS_EXTENDED_COMPAT_ID s))
    (h_ms_props : P (req_ms_descriptor USB_DESC_MS_EXTENDED_PROPERTIES s)) :
    P (handle_pending_usb_setup env k req s) := by
  unfold handle_pending_usb_setup
  refine ite_cases P _ _ _ (fun _ => h_stall) (fun htype => ?_)
  refine ite_cases P _ _ _ (fun _ => h_page_size) (fun _ => ?_)
  refine ite_cases P _ _ _ (fun _ => h_eeprom) (fun _ => ?_)
  refine ite_cases P _ _ _ (fun _ => h_register) (fun _ => ?_)
  refine ite_cases P _ _ _ (fun _ => h_status) (fun _ => ?_)
  refine ite_cases P _ _ _ (fun hc => h_fpga_cfg ?_) (fun _ => ?_)
  · have hd : req_dir_in req = false := by simpa using hc.1
    simp [fpga_cfg_accepted, req_dir_in_out req htype hd, hc.2.1, hc.2.2]
  refine ite_cases P _ _ _ (fun _ => h_bitstream_id) (fun _ => ?_)
  refine ite_cases P _ _ _ (fun _ => h_io_volt) (fun _ => ?_)
  refine ite_cases P _ _ _ (fun _ => h_sense_volt) (fun _ => ?_)
  refine ite_cases P _ _ _ (fun _ => h_alert_volt) (fun _ => ?_)
  refine ite_cases P _ _ _ (fun _ => h_poll_alert) (fun _ => ?_)
  refine ite_cases P _ _ _ (fun _ => h_iobuf_enable) (fun _ => ?_)
  refine ite_cases P _ _ _ (fun _ => h_limit_volt) (fun _ => ?_)
  refine ite_cases P _ _ _ (fun _ => h_pull) (fun _ => ?_)
  refine ite_cases P _ _ _ (fun _ => h_test_leds) (fun _ => ?_)
  refine ite_cases P _ _ _ (fun _ => h_api_level) (fun _ => ?_)
  refine ite_cases P _ _ _ (fun _ => h_ms_compat) (fun _ => ?_)
  exact ite_cases P _ _ _ (fun _ => h_ms_props) (fun _ => h_stall)

/-- The effects of the bitstream download loop: only the arming of the data stage, the wait
for the data and the load of the chunk into the FPGA. -/
theorem fpga_cfg_loop_trace (env : Env) (fuel arg_len : Nat) (s : State) :
    ∃ l, (fpga_cfg_loop env fuel arg_len s).trace = s.trace ++ l ∧
      ∀ e ∈ l, e = Effect.SETUP_EP0_BUF 0 ∨ e = Effect.EP0CS_BUSY ∨ ∃ n, e = Effect.fpga_load n := by
  induction fuel generalizing arg_len s with
  | zero => exact ⟨[], by simp [fpga_cfg_loop]⟩
  | succ n ih =>
    unfold fpga_cfg_loop
    by_cases h : arg_len > 0
    · simp only [h, if_true]
      generalize (if arg_len < 64 then arg_len else 64) = c
      obtain ⟨l, hl, hP⟩ := ih (arg_len - c)
        (emit (.fpga_load c) (wait_EP0_data env (emit (.SETUP_EP0_BUF 0) s)))
      refine ⟨[Effect.SETUP_EP0_BUF 0, Effect.EP0CS_BUSY, Effect.fpga_load c] ++ l, ?_, ?_⟩
      · rw [hl]
        simp [emit, wait_EP0_data]
      · intro e he
        simp only [List.mem_append, List.mem_cons, List.mem_singleton, List.not_mem_nil,
          or_false] at he
        rcases he with (he | he | he) | he
        · exact Or.inl he
        · exact Or.inr (Or.inl he)
        · exact Or.inr (Or.inr ⟨c, he⟩)
        · exact hP e he
    · simp only [h, if_false]
      exact ⟨[], by simp⟩

theorem req_dir_in_of_out (req : Setup)
    (h : req.bmRequestType = (USB_RECIP_DEVICE ||| USB_TYPE_VENDOR ||| USB_DIR_OUT)) :
    req_dir_in req = false := by
  rw [req_dir_in, h]
  decide

theorem req_dir_in_of_in (req : Setup)
    (h : req.bmRequestType = (USB_RECIP_DEVICE ||| USB_TYPE_VENDOR ||| USB_DIR_IN)) :
    req_dir_in req = true := by
  rw [req_dir_in, h]
  decide

theorem handle_pending_usb_setup_of_accepted (env : Env) (k : Consts) (req : Setup)
    (s : State) (h : fpga_cfg_accepted req s = true) :
    handle_pending_usb_setup env k req s = req_fpga_cfg env k req s := by
  simp only [fpga_cfg_accepted, decide_eq_true_eq] at h
  obtain ⟨htype, hreq, hidx⟩ := h
  unfold handle_pending_usb_setup
  have hd := req_dir_in_of_out req htype
  simp [hd, htype, hreq, hidx, USB_RECIP_DEVICE, USB_TYPE_VENDOR, USB_DIR_IN,
    USB_DIR_OUT, USB_REQ_FPGA_CFG, USB_REQ_LIBFX2_PAGE_SIZE, USB_REQ_CYPRESS_EEPROM_DB,
    USB_REQ_EEPROM, USB_REQ_REGISTER, USB_REQ_STATUS]

theorem handle_pending_usb_setup_bitstream_idx (env : Env) (k : Consts) (req : Setup)
    (s : State) (h : fpga_cfg_accepted req s = false) :
    (handle_pending_usb_setup env k req s).bitstream_idx = s.bitstream_idx := by
  apply handle_pending_usb_setup_cases (fun t => t.bitstream_idx = s.bitstream_idx)
  all_goals
    simp [h, stall_ep0_return, clear_pending_setup, emit, req_page_size, req_eeprom,
      req_register, req_status, req_bitstream_id, req_io_volt, req_sense_volt,
      req_alert_volt, req_poll_alert, req_iobuf_enable, req_limit_volt, req_pull,
      req_test_leds, req_api_level, req_ms_descriptor, call, call_into_EP0, wait_EP0,
      wait_EP0_data, apply_ite State.bitstream_idx, apply_ite Prod.fst, apply_ite Prod.snd]

theorem handle_pending_usb_setup_of_rejected (env : Env) (k : Consts) (req : Setup)
    (s : State)
    (htype : req.bmRequestType = (USB_RECIP_DEVICE ||| USB_TYPE_VENDOR ||| USB_DIR_OUT))
    (hreq : req.bRequest = USB_REQ_FPGA_CFG) (hidx : fpga_cfg_index_ok req s = false) :
    handle_pending_usb_setup env k req s = stall_ep0_return s := by
  unfold handle_pending_usb_setup
  have hd := req_dir_in_of_out req htype
  simp [hd, htype, hreq, hidx, USB_RECIP_DEVICE, USB_TYPE_VENDOR, USB_DIR_IN, USB_DIR_OUT,
    USB_REQ_FPGA_CFG, USB_REQ_LIBFX2_PAGE_SIZE, USB_REQ_CYPRESS_EEPROM_DB, USB_REQ_EEPROM,
    USB_REQ_REGISTER, USB_REQ_BITSTREAM_ID, USB_REQ_IO_VOLT, USB_REQ_ALERT_VOLT,
    USB_REQ_LIMIT_VOLT, USB_REQ_PULL, USB_REQ_IOBUF_ENABLE, USB_REQ_TEST_LEDS,
    USB_REQ_STATUS, USB_REQ_SENSE_VOLT, USB_REQ_POLL_ALERT, USB_REQ_API_LEVEL,
    USB_REQ_GET_MS_DESCRIPTOR]

theorem stall_ep0_return_new_effects (s : State) :
    new_effects s (stall_ep0_return s) = [Effect.pending_setup false, Effect.STALL_EP0] := by
  simp [stall_ep0_return, clear_pending_setup, emit, new_effects]

theorem new_effects_of_trace {s t : State} {l : List Effect} (h : t.trace = s.trace ++ l) :
    new_effects s t = l := by
  simp [new_effects, h]

theorem handle_pending_usb_setup_of_status (env : Env) (k : Consts) (req : Setup)
    (s : State)
    (htype : req.bmRequestType = (USB_RECIP_DEVICE ||| USB_TYPE_VENDOR ||| USB_DIR_IN))
    (hreq : req.bRequest = USB_REQ_STATUS) (hlen : req.wLength = 1) :
    handle_pending_usb_setup env k req s = req_status env k s := by
  unfold handle_pending_usb_setup
  have hd := req_dir_in_of_in req htype
  simp [hd, htype, hreq, hlen, USB_RECIP_DEVICE, USB_TYPE_VENDOR, USB_DIR_IN, USB_DIR_OUT,
    USB_REQ_LIBFX2_PAGE_SIZE, USB_REQ_CYPRESS_EEPROM_DB, USB_REQ_EEPROM, USB_REQ_REGISTER,
    USB_REQ_STATUS]

/-- Clearing the error bit of a byte keeps every other bit. -/
theorem clear_error_bit (n : Nat) (h : n < 256) :
    (if n &&& ST_ERROR ≠ 0 then n &&& (0xFF ^^^ ST_ERROR) else n) = n &&& 0xFE ∧
    (n &&& 0xFE).testBit 0 = false ∧
    ∀ i, i ≠ 0 → (n &&& 0xFE).testBit i = n.testBit i := by
  refine ⟨?_, ?_, ?_⟩
  · apply Nat.eq_of_testBit_eq
    intro i
    have h254 : (0xFF ^^^ ST_ERROR) = 0xFE := by decide
    have h1 : ST_ERROR = 1 := by decide
    rw [h254, h1]
    split_ifs with hb
    · rfl
    · rw [Nat.testBit_and]
      by_cases h0 : i = 0
      · subst h0
        have hz : n &&& 1 = 0 := by simpa using hb
        have : n.testBit 0 = false := by
          have h2 := congrArg (fun m => m.testBit 0) hz
          simpa using h2
        simp [this]
      · by_cases h8 : i < 8
        · have : Nat.testBit 0xFE i = true := by
            interval_cases i <;> first | exact absurd rfl h0 | rfl
          simp [this]
        · have hlt : n < 2 ^ i :=
            lt_of_lt_of_le h (by
              have : (2 : Nat) ^ 8 ≤ 2 ^ i := Nat.pow_le_pow_right (by decide) (by omega)
              simpa using this)
          simp [Nat.testBit_lt_two_pow hlt]
  · rw [Nat.testBit_and]
    have : Nat.testBit 0xFE 0 = false := by rfl
    simp [this]
  · intro i h0
    rw [Nat.testBit_and]
    by_cases h8 : i < 8
    · have : Nat.testBit 0xFE i = true := by
        interval_cases i <;> first | exact absurd rfl h0 | rfl
      simp [this]
    · have hlt : n < 2 ^ i :=
        lt_of_lt_of_le h (by
          have : (2 : Nat) ^ 8 ≤ 2 ^ i := Nat.pow_le_pow_right (by decide) (by omega)
          simpa using this)
      simp [Nat.testBit_lt_two_pow hlt]

theorem req_status_status (env : Env) (k : Consts) (s : State) :
    (req_status env k s).status =
      if s.status &&& ST_ERROR ≠ 0 then s.status &&& (0xFF ^^^ ST_ERROR) else s.status := by
  unfold req_status
  rw [reset_status_bit_status]
  simp [emit, call, wait_EP0, clear_pending_setup]

theorem status_only_latched_or_error {n : Nat} (h : status_only_latched n) :
    status_only_latched (n ||| ST_ERROR) := by
  rcases h with h | h | h | h <;> subst h <;> decide

theorem status_only_latched_or_alert {n : Nat} (h : status_only_latched n) :
    status_only_latched (n ||| ST_ALERT) := by
  rcases h with h | h | h | h <;> subst h <;> decide

theorem status_only_latched_reset_error {n : Nat} (h : status_only_latched n) :
    status_only_latched (if n &&& ST_ERROR ≠ 0 then n &&& (0xFF ^^^ ST_ERROR) else n) := by
  rcases h with h | h | h | h <;> subst h <;> decide

theorem status_only_latched_reset_alert {n : Nat} (h : status_only_latched n) :
    status_only_latched (if n &&& ST_ALERT ≠ 0 then n &&& (0xFF ^^^ ST_ALERT) else n) := by
  rcases h with h | h | h | h <;> subst h <;> decide

theorem status_only_latched_clear_error {n : Nat} (h : status_only_latched n) :
    status_only_latched (n &&& (0xFF ^^^ ST_ERROR)) := by
  rcases h with h | h | h | h <;> subst h <;> decide

theorem status_only_latched_clear_alert {n : Nat} (h : status_only_latched n) :
    status_only_latched (n &&& (0xFF ^^^ ST_ALERT)) := by
  rcases h with h | h | h | h <;> subst h <;> decide

theorem handle_pending_usb_setup_status_ok (env : Env) (k : Consts) (req : Setup)
    (s : State) (h : status_only_latched s.status) :
    status_only_latched (handle_pending_usb_setup env k req s).status := by
  have h1 := status_only_latched_or_error h
  have h2 := status_only_latched_reset_error h
  have h3 := status_only_latched_reset_alert h
  have h4 := status_only_latched_clear_error h
  have h5 := status_only_latched_clear_alert h
  apply handle_pending_usb_setup_cases (fun t => status_only_latched t.status)
  all_goals
    simp only [stall_ep0_return, clear_pending_setup, emit, req_page_size, req_eeprom,
      req_register, req_status, req_fpga_cfg, req_bitstream_id, req_io_volt, req_sense_volt,
      req_alert_volt, req_poll_alert, req_iobuf_enable, req_limit_volt, req_pull,
      req_test_leds, req_api_level, req_ms_descriptor, call, call_into_EP0, wait_EP0,
      wait_EP0_data, apply_ite State.status, apply_ite Prod.fst, apply_ite Prod.snd,
      reset_status_bit_status, latch_status_bit_status, eeprom_loop_status,
       fpga_cfg_loop_status, ite_self]
  all_goals try (first | exact h | exact h1 | exact h2 | exact h3 | exact h4 | exact h5)
  · intro _; exact h
  all_goals (split_ifs <;> first | exact h | exact h1 | exact h2 | exact h3 | exact h4 | exact h5)

@[simp] theorem config_init_status (env : Env) (k : Consts) (s : State) :
    (config_init env k s).status = s.status := by
  unfold config_init
  simp only [call, config_init_fail, emit]
  split_ifs <;> rfl

@[simp] theorem descriptors_init_status (k : Consts) (s : State) :
    (descriptors_init k s).status = s.status := by
  unfold descriptors_init
  simp only [modify_usb_string]
  split_ifs <;> rfl

theorem bootstrap_loop_status_ok (env : Env) (k : Consts) (fuel length chip addr : Nat)
    (s : State) (h : status_only_latched s.status) :
    status_only_latched (bootstrap_loop env k fuel length chip addr s).2.status := by
  induction fuel generalizing length chip addr s with
  | zero => exact h
  | succ n ih =>
    unfold bootstrap_loop
    by_cases hl : length > 0
    · simp only [hl, if_true]
      generalize (if length < 0x80 then length else 0x80) = c
      split
      · simpa [call, emit] using status_only_latched_or_error h
      · split
        · split
          · exact ih _ _ _ _ (by simpa [call, emit] using h)
          · exact ih _ _ _ _ (by simpa [call, emit] using h)
        · exact ih _ _ _ _ (by simpa [call, emit] using h)
    · simp only [hl, if_false]
      exact h

theorem bootstrap_status_ok (env : Env) (k : Consts) (s : State)
    (h : status_only_latched s.status) :
    status_only_latched (bootstrap env k s).status := by
  unfold bootstrap
  split
  · have h1 := bootstrap_loop_status_ok env k s.glasgow_config.bitstream_size
      s.glasgow_config.bitstream_size k.I2C_ADDR_ICE_MEM 0
      (emit .fpga_reset (write_IO_LED_ACT k true s)) (by simpa [emit, write_IO_LED_ACT] using h)
    simp only [write_IO_LED_ACT, emit, call] at h1 ⊢
    split_ifs
    · simpa using status_only_latched_or_error h1
    · exact h1
    · exact h1
  · exact h

theorem main_init_status_ok (env : Env) (k : Consts) (s : State)
    (h : status_only_latched s.status) :
    status_only_latched (main_init env k s).status := by
  unfold main_init
  simp only [emit]
  apply bootstrap_status_ok
  simp only [set_armed_alert, write_IO_LED_FX2, emit, call]
  split_ifs
  · simpa using status_only_latched_or_error h
  · simpa using h
  · simpa using h

@[simp] theorem handle_pending_alert_status (env : Env) (k : Consts) (s : State) :
    (handle_pending_alert env k s).status = s.status ||| ST_ALERT := by
  unfold handle_pending_alert
  simp only [set_armed_alert, emit]
  split_ifs <;> simp

@[simp] theorem update_fx2_led_status (k : Consts) (FNADDR USBFRAMEH : Nat) (s : State) :
    (update_fx2_led k FNADDR USBFRAMEH s).status = s.status := by
  unfold update_fx2_led
  simp only [write_IO_LED_FX2, emit]
  split_ifs <;> rfl

theorem main_loop_iteration_status_ok (env : Env) (k : Consts) (req : Setup)
    (FNADDR USBFRAMEH : Nat) (s : State) (h : status_only_latched s.status) :
    status_only_latched (main_loop_iteration env k req FNADDR USBFRAMEH s).status := by
  unfold main_loop_iteration
  simp only [update_fx2_led_status]
  have h1 : status_only_latched
      (if s.pending_setup then handle_pending_usb_setup env k req s else s).status := by
    split
    · exact handle_pending_usb_setup_status_ok env k req s h
    · exact h
  generalize (if s.pending_setup then handle_pending_usb_setup env k req s else s) = s1
    at h1 ⊢
  split
  · simpa using status_only_latched_or_alert h1
  · exact h1

/-- In every reachable state the status register holds no bit other than error and alert. -/
theorem reachable_status_ok {env : Env} {k : Consts} {s : State} (h : Reachable env k s) :
    status_only_latched s.status := by
  induction h with
  | boot cfg IOD EP0BUF =>
    apply main_init_status_ok
    simp [power_on, status_only_latched]
  | main_loop req FNADDR USBFRAMEH _ ih => exact main_loop_iteration_status_ok _ _ _ _ _ _ ih
  | usb_setup _ ih =>
    unfold handle_usb_setup
    split_ifs <;> simpa [emit] using ih
  | usb_get_descriptor type index _ ih =>
    unfold handle_usb_get_descriptor
    split_ifs <;> simpa [emit] using ih
  | usb_set_configuration config_value _ ih =>
    unfold handle_usb_set_configuration
    simp only [emit]
    split_ifs <;> simpa using ih
  | usb_set_interface interface alt_setting _ ih =>
    unfold handle_usb_set_interface
    simp only [emit, call]
    split_ifs <;> simpa using ih
  | usb_get_interface interface _ ih => simpa [handle_usb_get_interface, emit] using ih
  | IE0 _ ih => simpa [isr_IE0, set_armed_alert, emit] using ih
  | TF2 _ ih =>
    unfold isr_TF2
    split_ifs <;> simpa [write_IO_LED_ACT, emit] using ih
  | EPn _ ih =>
    unfold isr_EPn
    split_ifs <;> simpa [write_IO_LED_ACT, emit] using ih

@[simp] theorem update_err_led_EP0BUF (k : Consts) (s : State) :
    (update_err_led k s).EP0BUF = s.EP0BUF := by
  unfold update_err_led
  split_ifs <;> rfl

@[simp] theorem reset_status_bit_EP0BUF (k : Consts) (bit : Nat) (s : State) :
    (reset_status_bit k bit s).2.EP0BUF = s.EP0BUF := by
  unfold reset_status_bit
  split_ifs <;> simp [emit]

theorem req_status_EP0BUF (env : Env) (k : Consts) (s : State) :
    (req_status env k s).EP0BUF 0 =
      s.status |||
        (if env.ok (s.trace ++ [Effect.pending_setup false, Effect.EP0CS_BUSY])
            Effect.fpga_is_ready then ST_FPGA_RDY else 0) := by
  unfold req_status
  simp [emit, call, wait_EP0, clear_pending_setup]

theorem update_err_led_trace (k : Consts) (s : State) :
    (update_err_led k s).trace =
      s.trace ++ (if s.test_leds then []
        else [Effect.IO_LED_ERR (decide (s.status &&& (ST_ERROR ||| ST_ALERT) ≠ 0))]) := by
  unfold update_err_led
  cases ht : s.test_leds
  · by_cases hs : s.status &&& (ST_ERROR ||| ST_ALERT) ≠ 0
    · simp [hs, write_IO_LED_ERR, emit]
    · simp [hs, write_IO_LED_ERR, emit]
  · simp

theorem latch_status_bit_trace (k : Consts) (bit : Nat) (s : State) :
    (latch_status_bit k bit s).trace =
      s.trace ++ Effect.status (s.status ||| bit) ::
        (if s.test_leds then []
         else [Effect.IO_LED_ERR
                (decide ((s.status ||| bit) &&& (ST_ERROR ||| ST_ALERT) ≠ 0))]) := by
  unfold latch_status_bit
  rw [update_err_led_trace]
  simp [emit]

theorem reset_status_bit_trace (k : Consts) (bit : Nat) (s : State) :
    ∃ l, (reset_status_bit k bit s).2.trace = s.trace ++ l := by
  unfold reset_status_bit
  split_ifs
  · simp only [update_err_led_trace]
    exact ⟨_, by simp only [emit, List.append_assoc]; rfl⟩
  · exact ⟨[], by simp⟩

theorem req_status_trace (env : Env) (k : Consts) (s : State) :
    ∃ l, (req_status env k s).trace =
      s.trace ++ ([Effect.pending_setup false, Effect.EP0CS_BUSY, Effect.fpga_is_ready,
        Effect.SETUP_EP0_BUF 1] ++ l) := by
  unfold req_status
  obtain ⟨l, hl⟩ := reset_status_bit_trace k ST_ERROR
    (emit (Effect.SETUP_EP0_BUF 1)
      { (call env Effect.fpga_is_ready (wait_EP0 (clear_pending_setup s))).2 with
        EP0BUF := Function.update
          (call env Effect.fpga_is_ready (wait_EP0 (clear_pending_setup s))).2.EP0BUF 0
          ((wait_EP0 (clear_pending_setup s)).status |||
            if (call env Effect.fpga_is_ready (wait_EP0 (clear_pending_setup s))).1
            then ST_FPGA_RDY else 0) })
  refine ⟨l, ?_⟩
  simp only [] at hl ⊢
  rw [hl]
  simp [emit, call, wait_EP0, clear_pending_setup]

theorem status_only_latched_bits {n : Nat} (h : status_only_latched n) :
    ∀ i, i ≠ 0 → i ≠ 2 → n.testBit i = false := by
  intro i h0 h2
  by_cases h3 : i < 3
  · have h1 : i = 1 := by omega
    subst h1
    rcases h with h | h | h | h <;> subst h <;> decide
  · apply Nat.testBit_lt_two_pow
    have h8 : (2 : Nat) ^ 3 ≤ 2 ^ i := Nat.pow_le_pow_right (by decide) (by omega)
    have hn : n < 8 := by
      rcases h with h | h | h | h <;> subst h <;> decide
    omega


theorem handle_pending_usb_setup_of_eeprom (env : Env) (k : Consts) (req : Setup)
    (s : State)
    (htype : req.bmRequestType = (USB_RECIP_DEVICE ||| USB_TYPE_VENDOR ||| USB_DIR_IN) ∨
             req.bmRequestType = (USB_RECIP_DEVICE ||| USB_TYPE_VENDOR ||| USB_DIR_OUT))
    (hreq : req.bRequest = USB_REQ_EEPROM) :
    handle_pending_usb_setup env k req s = req_eeprom env k req s := by
  unfold handle_pending_usb_setup
  have h1 : ¬ (req.bmRequestType ≠ (USB_RECIP_DEVICE ||| USB_TYPE_VENDOR ||| USB_DIR_IN) ∧
      req.bmRequestType ≠ (USB_RECIP_DEVICE ||| USB_TYPE_VENDOR ||| USB_DIR_OUT)) := by
    rcases htype with h | h <;> simp [h]
  rw [if_neg h1]
  simp [hreq, USB_REQ_EEPROM, USB_REQ_LIBFX2_PAGE_SIZE]

/-- Fuel is irrelevant to the EEPROM chunk loop once it is at least `arg_len`: the bound
passed by `req_eeprom` is never exhausted. -/
theorem eeprom_loop_fuel (env : Env) (dir_in : Bool) (chip page_size timeout : Nat)
    (f1 f2 arg_addr arg_len : Nat) (s : State) (h1 : arg_len ≤ f1) (h2 : arg_len ≤ f2) :
    eeprom_loop env dir_in chip page_size timeout f1 arg_addr arg_len s =
      eeprom_loop env dir_in chip page_size timeout f2 arg_addr arg_len s := by
  induction f1 generalizing f2 arg_addr arg_len s with
  | zero =>
    have h0 : arg_len = 0 := by omega
    subst h0
    cases f2 <;> simp [eeprom_loop]
  | succ n ih =>
    cases f2 with
    | zero =>
      have h0 : arg_len = 0 := by omega
      subst h0
      simp [eeprom_loop]
    | succ m =>
      unfold eeprom_loop
      by_cases hl : arg_len > 0
      · simp only [hl, if_true]
        have hc : arg_len - (if arg_len < 64 then arg_len else 64) ≤ n := by
          split_ifs <;> omega
        have hc2 : arg_len - (if arg_len < 64 then arg_len else 64) ≤ m := by
          split_ifs <;> omega
        generalize (if arg_len < 64 then arg_len else 64) = c at hc hc2 ⊢
        cases dir_in
        · simp only [Bool.false_eq_true, if_false]
          split
          · rfl
          · exact ih _ _ _ _ hc hc2
        · simp only [if_true]
          split
          · rfl
          · exact ih _ _ _ _ hc hc2
      · simp only [hl, if_false]

/-- Fuel is irrelevant to the bitstream download loop once it is at least `arg_len`. -/
theorem fpga_cfg_loop_fuel (env : Env) (f1 f2 arg_len : Nat) (s : State)
    (h1 : arg_len ≤ f1) (h2 : arg_len ≤ f2) :
    fpga_cfg_loop env f1 arg_len s = fpga_cfg_loop env f2 arg_len s := by
  induction f1 generalizing f2 arg_len s with
  | zero =>
    have h0 : arg_len = 0 := by omega
    subst h0
    cases f2 <;> simp [fpga_cfg_loop]
  | succ n ih =>
    cases f2 with
    | zero =>
      have h0 : arg_len = 0 := by omega
      subst h0
      simp [fpga_cfg_loop]
    | succ m =>
      unfold fpga_cfg_loop
      by_cases hl : arg_len > 0
      · simp only [hl, if_true]
        have hc : arg_len - (if arg_len < 64 then arg_len else 64) ≤ n := by
          split_ifs <;> omega
        have hc2 : arg_len - (if arg_len < 64 then arg_len else 64) ≤ m := by
          split_ifs <;> omega
        generalize (if arg_len < 64 then arg_len else 64) = c at hc hc2 ⊢
        exact ih _ _ _ hc hc2
      · simp only [hl, if_false]

theorem eeprom_select_selector3 (k : Consts) (req : Setup)
    (hreq : req.bRequest = USB_REQ_EEPROM) (hsel : req.wIndex = 3)
    (haddr : req.wValue < 65536) (hlen : req.wLength < 65536) :
    eeprom_select k req =
      if req.wValue + req.wLength ≤ 0x1000 then (k.I2C_ADDR_FX2_MEM, req.wValue + 0x7000, 6)
      else (0, req.wValue, 0) := by
  unfold eeprom_select
  have h1 : req.bRequest ≠ USB_REQ_CYPRESS_EEPROM_DB := by rw [hreq]; decide
  simp only [h1, hsel, if_false]
  by_cases hw : req.wValue + req.wLength ≤ 0x1000
  · have hcond : req.wValue ≤ 0x1000 ∧ req.wLength ≤ 0x1000 ∧
        (req.wValue + req.wLength) % 65536 ≤ 0x1000 := by
      refine ⟨by omega, by omega, ?_⟩
      rw [Nat.mod_eq_of_lt (by omega)]
      exact hw
    have hmod : (req.wValue + 0x7000) % 65536 = req.wValue + 0x7000 :=
      Nat.mod_eq_of_lt (by omega)
    simp [hcond, hw, hmod]
  · have hcond : ¬ (req.wValue ≤ 0x1000 ∧ req.wLength ≤ 0x1000 ∧
        (req.wValue + req.wLength) % 65536 ≤ 0x1000) := by
      rintro ⟨ha, hl, hs⟩
      rw [Nat.mod_eq_of_lt (by omega)] at hs
      exact hw hs
    simp [hcond, hw]

/-- Every I2C transaction of the chunk loop stays inside a window that contains the whole
request. -/
theorem eeprom_loop_window (env : Env) (dir_in : Bool) (chip page_size timeout lo hi : Nat)
    (hhi : hi ≤ 65536) (fuel arg_addr arg_len : Nat) (s : State)
    (hlo : lo ≤ arg_addr) (hsum : arg_addr + arg_len ≤ hi) :
    ∃ l, (eeprom_loop env dir_in chip page_size timeout fuel arg_addr arg_len s).trace =
        s.trace ++ l ∧ ∀ e ∈ l, i2c_within chip lo hi e := by
  induction fuel generalizing arg_addr arg_len s with
  | zero => exact ⟨[], by simp [eeprom_loop]⟩
  | succ n ih =>
    unfold eeprom_loop
    by_cases hl : arg_len > 0
    · simp only [hl, if_true]
      have hc1 : (if arg_len < 64 then arg_len else 64) ≤ arg_len := by split_ifs <;> omega
      have hc0 : 0 < (if arg_len < 64 then arg_len else 64) := by split_ifs <;> omega
      generalize (if arg_len < 64 then arg_len else 64) = c at hc1 hc0 ⊢
      have hmod : (arg_addr + c) % 65536 = arg_addr + c ∨ arg_len - c = 0 := by
        by_cases hz : arg_len - c = 0
        · exact Or.inr hz
        · exact Or.inl (Nat.mod_eq_of_lt (by omega))
      have hnext : ∀ t : State, ∃ l,
          (eeprom_loop env dir_in chip page_size timeout n ((arg_addr + c) % 65536)
            (arg_len - c) t).trace = t.trace ++ l ∧ ∀ e ∈ l, i2c_within chip lo hi e := by
        intro t
        rcases hmod with hm | hz
        · rw [hm]
          exact ih (arg_addr + c) (arg_len - c) t (by omega) (by omega)
        · rw [hz]
          refine ⟨[], ?_, by simp⟩
          cases n <;> simp [eeprom_loop]
      cases dir_in
      · simp only [Bool.false_eq_true, if_false]
        split
        · refine ⟨[Effect.SETUP_EP0_BUF 0, Effect.EP0CS_BUSY,
            Effect.eeprom_write chip arg_addr c true page_size timeout,
            Effect.pending_setup false, Effect.STALL_EP0], ?_, ?_⟩
          · simp [stall_ep0_return, clear_pending_setup, emit, call, wait_EP0_data]
          · intro e he
            simp only [List.mem_cons, List.mem_singleton, List.not_mem_nil, or_false] at he
            rcases he with he | he | he | he | he <;> subst he <;> simp [i2c_within]
            omega
        · obtain ⟨l, hl2, hP⟩ := hnext
            (call env (Effect.eeprom_write chip arg_addr c true page_size timeout)
              (wait_EP0_data env (emit (Effect.SETUP_EP0_BUF 0) s))).2
          refine ⟨[Effect.SETUP_EP0_BUF 0, Effect.EP0CS_BUSY,
            Effect.eeprom_write chip arg_addr c true page_size timeout] ++ l, ?_, ?_⟩
          · rw [hl2]
            simp [emit, call, wait_EP0_data]
          · intro e he
            simp only [List.mem_append, List.mem_cons, List.mem_singleton, List.not_mem_nil,
              or_false] at he
            rcases he with (he | he | he) | he
            · subst he; simp [i2c_within]
            · subst he; simp [i2c_within]
            · subst he; simp [i2c_within]; omega
            · exact hP e he
      · simp only [if_true]
        split
        · refine ⟨[Effect.EP0CS_BUSY, Effect.eeprom_read chip arg_addr c true,
            Effect.pending_setup false, Effect.STALL_EP0], ?_, ?_⟩
          · simp [stall_ep0_return, clear_pending_setup, emit, call_into_EP0, wait_EP0]
          · intro e he
            simp only [List.mem_cons, List.mem_singleton, List.not_mem_nil, or_false] at he
            rcases he with he | he | he | he <;> subst he <;> simp [i2c_within]
            omega
        · obtain ⟨l, hl2, hP⟩ := hnext
            (emit (Effect.SETUP_EP0_BUF c)
              (call_into_EP0 env (Effect.eeprom_read chip arg_addr c true) c (wait_EP0 s)).2)
          refine ⟨[Effect.EP0CS_BUSY, Effect.eeprom_read chip arg_addr c true,
            Effect.SETUP_EP0_BUF c] ++ l, ?_, ?_⟩
          · rw [hl2]
            simp [emit, call_into_EP0, wait_EP0]
          · intro e he
            simp only [List.mem_append, List.mem_cons, List.mem_singleton, List.not_mem_nil,
              or_false] at he
            rcases he with (he | he | he) | he
            · subst he; simp [i2c_within]
            · subst he; simp [i2c_within]; omega
            · subst he; simp [i2c_within]
            · exact hP e he
    · simp only [hl, if_false]
      exact ⟨[], by simp⟩

theorem handle_pending_usb_setup_of_limit_volt (env : Env) (k : Consts) (req : Setup)
    (s : State)
    (htype : req.bmRequestType = (USB_RECIP_DEVICE ||| USB_TYPE_VENDOR ||| USB_DIR_OUT))
    (hreq : req.bRequest = USB_REQ_LIMIT_VOLT) (hlen : req.wLength = 2) :
    handle_pending_usb_setup env k req s = req_limit_volt env k req s := by
  unfold handle_pending_usb_setup
  have hd := req_dir_in_of_out req htype
  simp [hd, htype, hreq, hlen, USB_RECIP_DEVICE, USB_TYPE_VENDOR, USB_DIR_IN, USB_DIR_OUT,
    USB_REQ_FPGA_CFG, USB_REQ_LIBFX2_PAGE_SIZE, USB_REQ_CYPRESS_EEPROM_DB, USB_REQ_EEPROM,
    USB_REQ_REGISTER, USB_REQ_BITSTREAM_ID, USB_REQ_IO_VOLT, USB_REQ_ALERT_VOLT,
    USB_REQ_LIMIT_VOLT, USB_REQ_IOBUF_ENABLE]

/-- Fuel is irrelevant to the boot-time bitstream loop once it is at least `length`. -/
theorem bootstrap_loop_fuel (env : Env) (k : Consts) (f1 f2 length chip addr : Nat)
    (s : State) (h1 : length ≤ f1) (h2 : length ≤ f2) :
    bootstrap_loop env k f1 length chip addr s = bootstrap_loop env k f2 length chip addr s := by
  induction f1 generalizing f2 length chip addr s with
  | zero =>
    have h0 : length = 0 := by omega
    subst h0
    cases f2 <;> simp [bootstrap_loop]
  | succ n ih =>
    cases f2 with
    | zero =>
      have h0 : length = 0 := by omega
      subst h0
      simp [bootstrap_loop]
    | succ m =>
      unfold bootstrap_loop
      by_cases hl : length > 0
      · simp only [hl, if_true]
        have hc : length - (if length < 0x80 then length else 0x80) ≤ n := by
          split_ifs <;> omega
        have hc2 : length - (if length < 0x80 then length else 0x80) ≤ m := by
          split_ifs <;> omega
        generalize (if length < 0x80 then length else 0x80) = c at hc hc2 ⊢
        split
        · rfl
        · split
          · split
            · exact ih _ _ _ _ _ hc hc2
            · exact ih _ _ _ _ _ hc hc2
          · exact ih _ _ _ _ _ hc hc2
      · simp only [hl, if_false]

theorem config_init_fail_config (k : Consts) (s : State) (hserial : k.sizeof_serial = 16) :
    (config_init_fail k s).glasgow_config.revision = k.GLASGOW_REV_NA ∧
    (config_init_fail k s).glasgow_config.serial = List.replicate 16 ('9').toNat ∧
    (config_init_fail k s).glasgow_config.bitstream_size = 0 := by
  refine ⟨rfl, ?_, rfl⟩
  simp only [config_init_fail, hserial]
  decide

theorem config_init_eq (env : Env) (k : Consts) (s : State) :
    config_init env k s =
      if !env.ok s.trace (marker_read k) then config_init_fail k (emit (marker_read k) s)
      else if load_cmd env k s = 0xff then config_init_fail k (emit (marker_read k) s)
      else if load_cmd env k s = 0xc2 then emit (marker_read k) s
      else if load_cmd env k s = 0xc0 then
        if !env.ok (s.trace ++ [marker_read k]) (record_read k) then
          config_init_fail k
            { emit (record_read k) (emit (marker_read k) s) with
              glasgow_config :=
                k.decode_config (env.data (s.trace ++ [marker_read k]) (record_read k)) }
        else
          { emit (record_read k) (emit (marker_read k) s) with
            glasgow_config :=
              k.decode_config (env.data (s.trace ++ [marker_read k]) (record_read k)) }
      else config_init_fail k (emit (marker_read k) s) := rfl


/-- The status latch as a record update: `latch_status_bit` changes the status byte, the
error LED pin and the trace, and nothing else. -/
theorem latch_status_bit_eq (k : Consts) (bit : Nat) (s : State) :
    latch_status_bit k bit s =
      { s with
        status := s.status ||| bit
        IOD := if s.test_leds then s.IOD
               else set_bit s.IOD k.PIND_LED_ERR
                      (decide ((s.status ||| bit) &&& (ST_ERROR ||| ST_ALERT) ≠ 0))
        trace := s.trace ++ Effect.status (s.status ||| bit) ::
                  (if s.test_leds then []
                   else [Effect.IO_LED_ERR
                          (decide ((s.status ||| bit) &&& (ST_ERROR ||| ST_ALERT) ≠ 0))]) } := by
  unfold latch_status_bit update_err_led
  cases ht : s.test_leds
  · by_cases hs : (s.status ||| bit) &&& (ST_ERROR ||| ST_ALERT) ≠ 0
    · simp [ht, hs, write_IO_LED_ERR, emit]
    · simp [ht, hs, write_IO_LED_ERR, emit]
  · simp [ht, emit]

theorem config_init_of_erased (env : Env) (k : Consts) (s : State)
    (hmarker : load_cmd env k s = 0xFF) :
    config_init env k s = config_init_fail k (emit (marker_read k) s) := by
  rw [config_init_eq]
  simp [hmarker]

theorem main_init_eq (env : Env) (k : Consts) (s : State) :
    main_init env k s =
      main_after_descriptors env k (descriptors_init k (config_init env k s)) := rfl

theorem same_identity_refl (s : State) : same_identity s s := by
  simp [same_identity]

theorem same_identity_trans {s t u : State} (h1 : same_identity s t)
    (h2 : same_identity t u) : same_identity s u := by
  simp only [same_identity] at *
  obtain ⟨a1, a2, a3, a4, a5, a6⟩ := h1
  obtain ⟨b1, b2, b3, b4, b5, b6⟩ := h2
  exact ⟨b1.trans a1, b2.trans a2, b3.trans a3, b4.trans a4, b5.trans a5, b6.trans a6⟩

theorem bootstrap_loop_same_identity (env : Env) (k : Consts)
    (fuel length chip addr : Nat) (s : State) :
    same_identity s (bootstrap_loop env k fuel length chip addr s).2 := by
  induction fuel generalizing length chip addr s with
  | zero => exact same_identity_refl s
  | succ n ih =>
    unfold bootstrap_loop
    by_cases hl : length > 0
    · simp only [hl, if_true]
      generalize (if length < 0x80 then length else 0x80) = c
      split
      · simp [same_identity, latch_status_bit_eq, call, emit]
      · split
        · split
          · exact same_identity_trans (by simp [same_identity, call, emit]) (ih _ _ _ _)
          · exact same_identity_trans (by simp [same_identity, call, emit]) (ih _ _ _ _)
        · exact same_identity_trans (by simp [same_identity, call, emit]) (ih _ _ _ _)
    · simp only [hl, if_false]
      exact same_identity_refl s

theorem bootstrap_same_identity (env : Env) (k : Consts) (s : State) :
    same_identity s (bootstrap env k s) := by
  unfold bootstrap
  split
  · have h1 := bootstrap_loop_same_identity env k s.glasgow_config.bitstream_size
      s.glasgow_config.bitstream_size k.I2C_ADDR_ICE_MEM 0
      (emit .fpga_reset (write_IO_LED_ACT k true s))
    have h0 : same_identity s (emit .fpga_reset (write_IO_LED_ACT k true s)) := by
      simp [same_identity, emit, write_IO_LED_ACT]
    have h2 := same_identity_trans h0 h1
    simp only [same_identity, write_IO_LED_ACT, emit, call, latch_status_bit_eq] at h2 ⊢
    split_ifs <;> exact h2
  · exact same_identity_refl s

theorem bootstrap_of_no_bitstream (env : Env) (k : Consts) (s : State)
    (h : s.glasgow_config.bitstream_size = 0) : bootstrap env k s = s := by
  unfold bootstrap
  simp [h]

theorem quiet_step_refl (s : State) : quiet_step s s :=
  ⟨same_identity_refl s, [], by simp⟩

theorem quiet_step_trans {s t u : State} (h1 : quiet_step s t) (h2 : quiet_step t u) :
    quiet_step s u := by
  obtain ⟨a, l1, hl1, hp1⟩ := h1
  obtain ⟨b, l2, hl2, hp2⟩ := h2
  refine ⟨same_identity_trans a b, l1 ++ l2, by rw [hl2, hl1, List.append_assoc], ?_⟩
  intro e he
  rcases List.mem_append.mp he with h | h
  · exact hp1 e h
  · exact hp2 e h

theorem quiet_step_emit (e : Effect) (s : State) (h : is_fpga_load_op e = false) :
    quiet_step s (emit e s) :=
  ⟨by simp [same_identity, emit], [e], rfl, by simpa using h⟩

theorem quiet_step_latch (k : Consts) (bit : Nat) (s : State) :
    quiet_step s (latch_status_bit k bit s) := by
  rw [latch_status_bit_eq]
  refine ⟨by simp [same_identity], _, rfl, ?_⟩
  intro e he
  simp only [List.mem_cons] at he
  rcases he with he | he
  · subst he; rfl
  · split_ifs at he
    · simp at he
    · simp only [List.mem_singleton] at he
      subst he; rfl

theorem quiet_step_init_adc (env : Env) (k : Consts) (s : State) :
    quiet_step s (init_adc env k s) := by
  unfold init_adc
  split
  · simp only [call]
    split
    · exact quiet_step_trans (quiet_step_emit Effect.iobuf_init_adc_ina233 s rfl)
        (quiet_step_latch k _ _)
    · exact quiet_step_emit Effect.iobuf_init_adc_ina233 s rfl
  · exact quiet_step_emit Effect.iobuf_init_adc_adc081c s rfl

theorem quiet_step_setup_leds (k : Consts) (s : State) : quiet_step s (setup_leds k s) := by
  unfold setup_leds
  simp only [write_IO_LED_FX2]
  exact quiet_step_trans (quiet_step_emit (Effect.IO_LED_FX2 true) s rfl)
    (quiet_step_trans
      ⟨by simp [same_identity, emit], [], by simp [emit], by simp⟩
      (quiet_step_emit (Effect.IOD _) _ rfl))

theorem quiet_step_set_armed_alert (b : Bool) (s : State) :
    quiet_step s (set_armed_alert b s) :=
  ⟨by simp [same_identity, set_armed_alert, emit], [Effect.armed_alert b], rfl, by simp [is_fpga_load_op]⟩

theorem quiet_step_bootstrap (env : Env) (k : Consts) (s : State)
    (h : s.glasgow_config.bitstream_size = 0) : quiet_step s (bootstrap env k s) := by
  rw [bootstrap_of_no_bitstream env k s h]
  exact quiet_step_refl s

theorem quiet_step_main_after_descriptors (env : Env) (k : Consts) (s : State)
    (h : s.glasgow_config.bitstream_size = 0) :
    quiet_step s (main_after_descriptors env k s) := by
  unfold main_after_descriptors
  have h1 := quiet_step_emit Effect.iobuf_init_dac_ldo s rfl
  have h2 := quiet_step_trans h1 (quiet_step_init_adc env k _)
  have h3 := quiet_step_trans h2 (quiet_step_emit Effect.fpga_init _ rfl)
  have h4 := quiet_step_trans h3 (quiet_step_emit Effect.fifo_init _ rfl)
  have h5 := quiet_step_trans h4 (quiet_step_setup_leds k _)
  have h6 := quiet_step_trans h5 (quiet_step_set_armed_alert true _)
  have hb : (set_armed_alert true (setup_leds k (emit Effect.fifo_init (emit Effect.fpga_init
      (init_adc env k (emit Effect.iobuf_init_dac_ldo s)))))).glasgow_config.bitstream_size
      = 0 := by
    rw [h6.1.1]; exact h
  have h7 := quiet_step_trans h6 (quiet_step_bootstrap env k _ hb)
  exact quiet_step_trans h7 (quiet_step_emit (Effect.usb_init true) _ rfl)

theorem descriptors_init_glasgow_config (k : Consts) (s : State) :
    (descriptors_init k s).glasgow_config = s.glasgow_config := by
  unfold descriptors_init
  simp only [modify_usb_string]
  split_ifs <;> rfl

theorem descriptors_init_trace (k : Consts) (s : State) :
    (descriptors_init k s).trace = s.trace := by
  unfold descriptors_init
  simp only [modify_usb_string]
  split_ifs <;> rfl

theorem descriptors_init_identity_of_NA (k : Consts) (s : State)
    (h : s.glasgow_config.revision = k.GLASGOW_REV_NA) :
    (descriptors_init k s).idVendor = k.VID_CYPRESS ∧
    (descriptors_init k s).idProduct = k.PID_FX2 := by
  unfold descriptors_init
  simp only [modify_usb_string, h, ne_eq, not_true_eq_false, if_false]
  split_ifs <;> exact ⟨rfl, rfl⟩

/-- Case analysis on the arm of the dispatcher that handles a request, each arm with the
guard under which it is taken. -/
theorem handle_pending_usb_setup_cases_guarded (P : State → Prop) (env : Env) (k : Consts)
    (req : Setup) (s : State)
    (h_stall : P (stall_ep0_return s))
    (h_page_size : req_dir_in req = false → req.bRequest = USB_REQ_LIBFX2_PAGE_SIZE →
      P (req_page_size s))
    (h_eeprom : req.bRequest = USB_REQ_CYPRESS_EEPROM_DB ∨ req.bRequest = USB_REQ_EEPROM →
      P (req_eeprom env k req s))
    (h_register : req.bRequest = USB_REQ_REGISTER → P (req_register env req s))
    (h_status : req_dir_in req = true → req.bRequest = USB_REQ_STATUS → req.wLength = 1 →
      P (req_status env k s))
    (h_fpga_cfg : req_dir_in req = false → req.bRequest = USB_REQ_FPGA_CFG →
      fpga_cfg_index_ok req s = true → P (req_fpga_cfg env k req s))
    (h_bitstream_id : req.bRequest = USB_REQ_BITSTREAM_ID →
      req.wLength = k.CONFIG_SIZE_BITSTREAM_ID → P (req_bitstream_id env k req s))
    (h_io_volt : req.bRequest = USB_REQ_IO_VOLT → req.wLength = 2 →
      P (req_io_volt env k req s))
    (h_sense_volt : req_dir_in req = true → req.bRequest = USB_REQ_SENSE_VOLT →
      req.wLength = 2 → P (req_sense_volt env k req s))
    (h_alert_volt : req.bRequest = USB_REQ_ALERT_VOLT → req.wLength = 4 →
      P (req_alert_volt env k req s))
    (h_poll_alert : req_dir_in req = true → req.bRequest = USB_REQ_POLL_ALERT →
      req.wLength = 1 → P (req_poll_alert env k s))
    (h_iobuf_enable : req_dir_in req = false → req.bRequest = USB_REQ_IOBUF_ENABLE →
      req.wLength = 0 → P (req_iobuf_enable req s))
    (h_limit_volt : req.bRequest = USB_REQ_LIMIT_VOLT → req.wLength = 2 →
      P (req_limit_volt env k req s))
    (h_pull : req.bRequest = USB_REQ_PULL → req.wLength = 2 → P (req_pull env k req s))
    (h_test_leds : req_dir_in req = false → req.bRequest = USB_REQ_TEST_LEDS →
      req.wLength = 0 → P (req_test_leds k req s))
    (h_api_level : req_dir_in req = true → req.bRequest = USB_REQ_API_LEVEL →
      req.wLength = 1 → P (req_api_level k s))
    (h_ms_compat : req_dir_in req = true → req.bRequest = USB_REQ_GET_MS_DESCRIPTOR →
      req.wIndex = USB_DESC_MS_EXTENDED_COMPAT_ID →
      P (req_ms_descriptor USB_DESC_MS_EXTENDED_COMPAT_ID s))
    (h_ms_props : req_dir_in req = true → req.bRequest = USB_REQ_GET_MS_DESCRIPTOR →
      req.wIndex = USB_DESC_MS_EXTENDED_PROPERTIES →
      P (req_ms_descriptor USB_DESC_MS_EXTENDED_PROPERTIES s)) :
    P (handle_pending_usb_setup env k req s) := by
  unfold handle_pending_usb_setup
  refine ite_cases P _ _ _ (fun _ => h_stall) (fun _ => ?_)
  refine ite_cases P _ _ _ (fun hc => h_page_size (by simpa using hc.1) hc.2) (fun _ => ?_)
  refine ite_cases P _ _ _ (fun hc => h_eeprom hc) (fun _ => ?_)
  refine ite_cases P _ _ _ (fun hc => h_register hc) (fun _ => ?_)
  refine ite_cases P _ _ _ (fun hc => h_status hc.1 hc.2.1 hc.2.2) (fun _ => ?_)
  refine ite_cases P _ _ _ (fun hc => h_fpga_cfg (by simpa using hc.1) hc.2.1 hc.2.2)
    (fun _ => ?_)
  refine ite_cases P _ _ _ (fun hc => h_bitstream_id hc.1 hc.2) (fun _ => ?_)
  refine ite_cases P _ _ _ (fun hc => h_io_volt hc.1 hc.2) (fun _ => ?_)
  refine ite_cases P _ _ _ (fun hc => h_sense_volt hc.1 hc.2.1 hc.2.2) (fun _ => ?_)
  refine ite_cases P _ _ _ (fun hc => h_alert_volt hc.1 hc.2) (fun _ => ?_)
  refine ite_cases P _ _ _ (fun hc => h_poll_alert hc.1 hc.2.1 hc.2.2) (fun _ => ?_)
  refine ite_cases P _ _ _ (fun hc => h_iobuf_enable (by simpa using hc.1) hc.2.1 hc.2.2)
    (fun _ => ?_)
  refine ite_cases P _ _ _ (fun hc => h_limit_volt hc.1 hc.2) (fun _ => ?_)
  refine ite_cases P _ _ _ (fun hc => h_pull hc.1 hc.2) (fun _ => ?_)
  refine ite_cases P _ _ _ (fun hc => h_test_leds (by simpa using hc.1) hc.2.1 hc.2.2)
    (fun _ => ?_)
  refine ite_cases P _ _ _ (fun hc => h_api_level hc.1 hc.2.1 hc.2.2) (fun _ => ?_)
  refine ite_cases P _ _ _ (fun hc => h_ms_compat hc.1 hc.2.1 hc.2.2) (fun _ => ?_)
  exact ite_cases P _ _ _ (fun hc => h_ms_props hc.1 hc.2.1 hc.2.2) (fun _ => h_stall)

theorem type_ok_of_in_or_out (req : Setup)
    (htype : req.bmRequestType = (USB_RECIP_DEVICE ||| USB_TYPE_VENDOR ||| USB_DIR_IN) ∨
             req.bmRequestType = (USB_RECIP_DEVICE ||| USB_TYPE_VENDOR ||| USB_DIR_OUT)) :
    ¬ (req.bmRequestType ≠ (USB_RECIP_DEVICE ||| USB_TYPE_VENDOR ||| USB_DIR_IN) ∧
       req.bmRequestType ≠ (USB_RECIP_DEVICE ||| USB_TYPE_VENDOR ||| USB_DIR_OUT)) := by
  rcases htype with h | h <;> simp [h]

theorem handle_pending_usb_setup_of_eeprom_any (env : Env) (k : Consts) (req : Setup)
    (s : State)
    (htype : req.bmRequestType = (USB_RECIP_DEVICE ||| USB_TYPE_VENDOR ||| USB_DIR_IN) ∨
             req.bmRequestType = (USB_RECIP_DEVICE ||| USB_TYPE_VENDOR ||| USB_DIR_OUT))
    (hreq : req.bRequest = USB_REQ_CYPRESS_EEPROM_DB ∨ req.bRequest = USB_REQ_EEPROM) :
    handle_pending_usb_setup env k req s = req_eeprom env k req s := by
  unfold handle_pending_usb_setup
  rw [if_neg (type_ok_of_in_or_out req htype)]
  have h1 : ¬ ((!req_dir_in req) = true ∧ req.bRequest = USB_REQ_LIBFX2_PAGE_SIZE) := by
    rintro ⟨-, h⟩
    rcases hreq with h2 | h2 <;> rw [h2] at h <;> revert h <;> decide
  rw [if_neg h1, if_pos hreq]

theorem req_eeprom_of_chip (env : Env) (k : Consts) (req : Setup) (s : State)
    (chip addr page_size : Nat) (hsel : eeprom_select k req = (chip, addr, page_size))
    (hchip : chip ≠ 0) :
    req_eeprom env k req s =
      eeprom_loop env (req_dir_in req) chip page_size 255 req.wLength addr req.wLength
        (clear_pending_setup s) := by
  unfold req_eeprom
  rw [hsel]
  simp [hchip]

theorem req_eeprom_of_no_chip (env : Env) (k : Consts) (req : Setup) (s : State)
    (hsel : (eeprom_select k req).1 = 0) :
    req_eeprom env k req s =
      { s with pending_setup := false,
               trace := s.trace ++ [Effect.pending_setup false, Effect.pending_setup false,
                 Effect.STALL_EP0] } := by
  unfold req_eeprom
  simp [hsel, stall_ep0_return, clear_pending_setup, emit]

theorem ref_chunks_zero (A : Nat) : ref_chunks A 0 = [] := by
  simp [ref_chunks]

theorem ref_chunks_length (A L : Nat) : (ref_chunks A L).length = (L + 63) / 64 := by
  simp [ref_chunks]

/-- The reference sequence, one chunk at a time. -/
theorem ref_chunks_step (A L : Nat) (hL : 0 < L) :
    ref_chunks A L =
      (A % 65536, (if L < 64 then L else 64)) ::
        ref_chunks ((A + (if L < 64 then L else 64)) % 65536)
          (L - (if L < 64 then L else 64)) := by
  have hn : (L + 63) / 64 = (L - (if L < 64 then L else 64) + 63) / 64 + 1 := by
    split_ifs <;> omega
  unfold ref_chunks
  rw [hn, List.range_succ_eq_map, List.map_cons, List.map_map]
  congr 1
  · simp only [Nat.mul_zero, Nat.add_zero, Nat.sub_zero, Prod.mk.injEq, true_and]
    split_ifs <;> omega
  · apply List.map_congr_left
    intro i hi
    simp only [List.mem_range] at hi
    simp only [Function.comp, Prod.mk.injEq]
    split_ifs at hi ⊢ with h64
    · omega
    · constructor
      · omega
      · simp only [Nat.min_def]
        split_ifs <;> omega

theorem ref_chunks_sum (A L : Nat) : ((ref_chunks A L).map Prod.snd).sum = L := by
  induction L using Nat.strong_induction_on generalizing A with
  | _ L ih =>
    by_cases hL : L = 0
    · subst hL
      simp [ref_chunks_zero]
    · rw [ref_chunks_step A L (by omega), List.map_cons, List.sum_cons, ih]
      · simp only []
        split_ifs <;> omega
      · split_ifs <;> omega

theorem i2c_results_append (env : Env) (hist a b : List Effect) :
    i2c_results env hist (a ++ b) =
      i2c_results env hist a ++ i2c_results env (hist ++ a) b := by
  induction a generalizing hist with
  | nil => simp [i2c_results]
  | cons e a ih =>
    have h : hist ++ e :: a = (hist ++ [e]) ++ a := by simp
    rw [h, List.cons_append]
    show _ ++ i2c_results env (hist ++ [e]) (a ++ b) = (_ ++ _) ++ _
    rw [ih]
    simp [List.append_assoc]

theorem i2c_results_length (env : Env) (hist l : List Effect) :
    (i2c_results env hist l).length = (l.filter is_i2c).length := by
  induction l generalizing hist with
  | nil => simp [i2c_results]
  | cons e l ih =>
    simp only [i2c_results, List.length_append, ih, List.filter_cons]
    cases is_i2c e <;> simp
    omega

theorem is_i2c_chunk_effect (dir_in : Bool) (chip page_size timeout : Nat) (c : Nat × Nat) :
    is_i2c (chunk_effect dir_in chip page_size timeout c) = true := by
  unfold chunk_effect
  cases dir_in <;> rfl

theorem chunk_effect_ne_stall (dir_in : Bool) (chip page_size timeout : Nat) (c : Nat × Nat) :
    Effect.STALL_EP0 ≠ chunk_effect dir_in chip page_size timeout c := by
  unfold chunk_effect
  cases dir_in <;> simp

theorem i2c_results_of_none (env : Env) (hist l : List Effect)
    (h : ∀ e ∈ l, is_i2c e = false) : i2c_results env hist l = [] := by
  induction l generalizing hist with
  | nil => rfl
  | cons e l ih =>
    have he := h e (List.mem_cons_self e l)
    simp only [i2c_results, he, Bool.false_eq_true, if_false, List.nil_append]
    exact ih _ (fun x hx => h x (List.mem_cons_of_mem e hx))

theorem filter_i2c_of_none (l : List Effect) (h : ∀ e ∈ l, is_i2c e = false) :
    l.filter is_i2c = [] := by
  rw [List.filter_eq_nil_iff]
  intro e he
  simp [h e he]

theorem chunked_transfer_nil (env : Env) (dir_in : Bool) (chip page_size timeout : Nat)
    (hist : List Effect) (A : Nat) :
    chunked_transfer env dir_in chip page_size timeout hist A 0 [] := by
  simp [chunked_transfer, i2c_results, ref_chunks_zero]

/-- A chunk whose transaction fails ends the transfer with a stall. -/
theorem chunked_transfer_fail (env : Env) (dir_in : Bool) (chip page_size timeout : Nat)
    (hist pre : List Effect) (A L : Nat) (hA : A < 65536) (hL : 0 < L)
    (hpre : ∀ e ∈ pre, is_i2c e = false)
    (hfail : env.ok (hist ++ pre)
      (chunk_effect dir_in chip page_size timeout (A, if L < 64 then L else 64)) = false) :
    chunked_transfer env dir_in chip page_size timeout hist A L
      (pre ++ [chunk_effect dir_in chip page_size timeout (A, if L < 64 then L else 64),
        Effect.pending_setup false, Effect.STALL_EP0]) := by
  have hi := is_i2c_chunk_effect dir_in chip page_size timeout (A, if L < 64 then L else 64)
  have hf : (pre ++ [chunk_effect dir_in chip page_size timeout
        (A, if L < 64 then L else 64), Effect.pending_setup false,
        Effect.STALL_EP0]).filter is_i2c =
      [chunk_effect dir_in chip page_size timeout (A, if L < 64 then L else 64)] := by
    have hp : is_i2c (Effect.pending_setup false) = false := rfl
    have hs : is_i2c Effect.STALL_EP0 = false := rfl
    rw [List.filter_append, filter_i2c_of_none pre hpre]
    simp only [List.filter_cons, hi, hp, hs, if_true, List.filter_nil, List.nil_append,
      Bool.false_eq_true, if_false]
  have hr : i2c_results env hist (pre ++ [chunk_effect dir_in chip page_size timeout
        (A, if L < 64 then L else 64), Effect.pending_setup false, Effect.STALL_EP0]) =
      [false] := by
    have hp : is_i2c (Effect.pending_setup false) = false := rfl
    have hs : is_i2c Effect.STALL_EP0 = false := rfl
    rw [i2c_results_append, i2c_results_of_none env hist pre hpre]
    simp only [i2c_results, hi, hp, hs, hfail, if_true, List.nil_append, Bool.false_eq_true,
      if_false, List.append_nil]
  unfold chunked_transfer
  rw [hf, hr]
  refine ⟨?_, ?_, ?_, ?_⟩
  · rw [ref_chunks_step A L hL, Nat.mod_eq_of_lt hA]
    simp
  · simp
  · simp
  · simp

/-- A chunk whose transaction succeeds is followed by the transfer of the remaining bytes. -/
theorem chunked_transfer_ok (env : Env) (dir_in : Bool) (chip page_size timeout : Nat)
    (hist pre post l : List Effect) (A L : Nat) (hA : A < 65536) (hL : 0 < L)
    (hpre : ∀ e ∈ pre, is_i2c e = false) (hpre' : Effect.STALL_EP0 ∉ pre)
    (hpost : ∀ e ∈ post, is_i2c e = false) (hpost' : Effect.STALL_EP0 ∉ post)
    (hok : env.ok (hist ++ pre)
      (chunk_effect dir_in chip page_size timeout (A, if L < 64 then L else 64)) = true)
    (hrest : chunked_transfer env dir_in chip page_size timeout
      (hist ++ (pre ++ chunk_effect dir_in chip page_size timeout
        (A, if L < 64 then L else 64) :: post))
      ((A + (if L < 64 then L else 64)) % 65536) (L - (if L < 64 then L else 64)) l) :
    chunked_transfer env dir_in chip page_size timeout hist A L
      ((pre ++ chunk_effect dir_in chip page_size timeout
        (A, if L < 64 then L else 64) :: post) ++ l) := by
  have hi := is_i2c_chunk_effect dir_in chip page_size timeout (A, if L < 64 then L else 64)
  have hf : ((pre ++ chunk_effect dir_in chip page_size timeout
        (A, if L < 64 then L else 64) :: post) ++ l).filter is_i2c =
      chunk_effect dir_in chip page_size timeout (A, if L < 64 then L else 64) ::
        l.filter is_i2c := by
    rw [List.filter_append, List.filter_append, filter_i2c_of_none pre hpre,
      List.filter_cons, hi, filter_i2c_of_none post hpost]
    simp
  have hr : i2c_results env hist ((pre ++ chunk_effect dir_in chip page_size timeout
        (A, if L < 64 then L else 64) :: post) ++ l) =
      true :: i2c_results env (hist ++ (pre ++ chunk_effect dir_in chip page_size timeout
        (A, if L < 64 then L else 64) :: post)) l := by
    rw [i2c_results_append, i2c_results_append, i2c_results_of_none env hist pre hpre]
    simp only [i2c_results, hi, hok, if_true, List.nil_append, List.singleton_append,
      List.cons_append]
    rw [i2c_results_of_none env _ post hpost]
    simp
  obtain ⟨h1, h2, h3, h4⟩ := hrest
  unfold chunked_transfer
  rw [hf, hr]
  refine ⟨?_, ?_, ?_, ?_⟩
  · rw [ref_chunks_step A L hL, Nat.mod_eq_of_lt hA]
    simp only [List.length_cons, List.take_succ_cons, List.map_cons]
    rw [← h1]
  · have hstall : Effect.STALL_EP0 ∈ (pre ++ chunk_effect dir_in chip page_size timeout
        (A, if L < 64 then L else 64) :: post) ++ l ↔ Effect.STALL_EP0 ∈ l := by
      simp only [List.mem_append, List.mem_cons]
      constructor
      · rintro ((h | h | h) | h)
        · exact absurd h hpre'
        · exact absurd h (chunk_effect_ne_stall _ _ _ _ _)
        · exact absurd h hpost'
        · exact h
      · intro h; exact Or.inr h
    rw [hstall, h2]
    simp
  · intro b hb
    cases hrs : i2c_results env (hist ++ (pre ++ chunk_effect dir_in chip page_size timeout
        (A, if L < 64 then L else 64) :: post)) l with
    | nil => rw [hrs] at hb; simp at hb
    | cons r rs =>
      rw [hrs] at hb h3
      rw [List.dropLast_cons₂] at hb
      rcases List.mem_cons.mp hb with hb | hb
      · exact hb
      · exact h3 b hb
  · intro hno
    have hno' : false ∉ i2c_results env (hist ++ (pre ++ chunk_effect dir_in chip page_size
        timeout (A, if L < 64 then L else 64) :: post)) l := by
      intro h; exact hno (List.mem_cons_of_mem _ h)
    rw [ref_chunks_step A L hL, List.length_cons, List.length_cons, h4 hno']

/-- The EEPROM chunk loop carries out the chunked transfer of the reference sequence. -/
theorem eeprom_loop_chunked (env : Env) (dir_in : Bool) (chip page_size timeout : Nat)
    (fuel A L : Nat) (s : State) (hA : A < 65536) (hfuel : L ≤ fuel) :
    ∃ l, (eeprom_loop env dir_in chip page_size timeout fuel A L s).trace = s.trace ++ l ∧
      chunked_transfer env dir_in chip page_size timeout s.trace A L l := by
  induction fuel generalizing A L s with
  | zero =>
    have h0 : L = 0 := by omega
    subst h0
    exact ⟨[], by simp [eeprom_loop], chunked_transfer_nil _ _ _ _ _ _ _⟩
  | succ n ih =>
    unfold eeprom_loop
    by_cases hL : L > 0
    · simp only [hL, if_true]
      have hlt : (A + (if L < 64 then L else 64)) % 65536 < 65536 :=
        Nat.mod_lt _ (by decide)
      have hn : L - (if L < 64 then L else 64) ≤ n := by split_ifs <;> omega
      have hfail := fun pre hpre =>
        chunked_transfer_fail env dir_in chip page_size timeout s.trace pre A L hA hL hpre
      have hok := fun pre post l hpre hpre' hpost hpost' =>
        chunked_transfer_ok env dir_in chip page_size timeout s.trace pre post l A L hA hL
          hpre hpre' hpost hpost'
      generalize (if L < 64 then L else 64) = c at hlt hn hfail hok ⊢
      cases dir_in
      · simp only [Bool.false_eq_true, if_false]
        have hpre : ∀ e ∈ [Effect.SETUP_EP0_BUF 0, Effect.EP0CS_BUSY], is_i2c e = false := by
          intro e he
          simp only [List.mem_cons, List.mem_singleton, List.not_mem_nil, or_false] at he
          rcases he with he | he <;> subst he <;> rfl
        have htx : chunk_effect false chip page_size timeout (A, c) =
            Effect.eeprom_write chip A c true page_size timeout := by
          simp [chunk_effect]
        rw [htx] at hfail hok
        have htr : (wait_EP0_data env (emit (Effect.SETUP_EP0_BUF 0) s)).trace =
            s.trace ++ [Effect.SETUP_EP0_BUF 0, Effect.EP0CS_BUSY] := by
          simp [wait_EP0_data, emit]
        by_cases hres : env.ok (s.trace ++ [Effect.SETUP_EP0_BUF 0, Effect.EP0CS_BUSY])
            (Effect.eeprom_write chip A c true page_size timeout) = true
        · obtain ⟨l, hl, hc⟩ := ih ((A + c) % 65536) (L - c)
            (call env (Effect.eeprom_write chip A c true page_size timeout)
              (wait_EP0_data env (emit (Effect.SETUP_EP0_BUF 0) s))).2 hlt hn
          have hs' : (call env (Effect.eeprom_write chip A c true page_size timeout)
              (wait_EP0_data env (emit (Effect.SETUP_EP0_BUF 0) s))).2.trace
              = s.trace ++ ([Effect.SETUP_EP0_BUF 0, Effect.EP0CS_BUSY] ++
                Effect.eeprom_write chip A c true page_size timeout :: []) := by
            simp [call, emit, wait_EP0_data]
          refine ⟨([Effect.SETUP_EP0_BUF 0, Effect.EP0CS_BUSY] ++
            Effect.eeprom_write chip A c true page_size timeout :: []) ++ l, ?_, ?_⟩
          · simp only [call, htr, hres, Bool.not_true, Bool.false_eq_true, if_false]
            simp only [call] at hl
            rw [hl]
            simp [emit, wait_EP0_data]
          · apply hok _ [] l hpre (by simp) (by simp) (by simp) hres
            rw [← hs']
            exact hc
        · have hres' : env.ok (s.trace ++ [Effect.SETUP_EP0_BUF 0, Effect.EP0CS_BUSY])
              (Effect.eeprom_write chip A c true page_size timeout) = false := by
            simpa using hres
          refine ⟨[Effect.SETUP_EP0_BUF 0, Effect.EP0CS_BUSY] ++
            [Effect.eeprom_write chip A c true page_size timeout,
              Effect.pending_setup false, Effect.STALL_EP0], ?_, ?_⟩
          · simp only [call, htr, hres', Bool.not_false, if_true]
            simp [stall_ep0_return, clear_pending_setup, emit, wait_EP0_data]
          · exact hfail _ hpre hres'
      · simp only [if_true]
        have hpre : ∀ e ∈ [Effect.EP0CS_BUSY], is_i2c e = false := by
          intro e he
          simp only [List.mem_singleton] at he
          subst he; rfl
        have hpost : ∀ e ∈ [Effect.SETUP_EP0_BUF c], is_i2c e = false := by
          intro e he
          simp only [List.mem_singleton] at he
          subst he; rfl
        have htx : chunk_effect true chip page_size timeout (A, c) =
            Effect.eeprom_read chip A c true := by
          simp [chunk_effect]
        rw [htx] at hfail hok
        have htr : (wait_EP0 s).trace = s.trace ++ [Effect.EP0CS_BUSY] := by
          simp [wait_EP0, emit]
        by_cases hres : env.ok (s.trace ++ [Effect.EP0CS_BUSY])
            (Effect.eeprom_read chip A c true) = true
        · obtain ⟨l, hl, hc⟩ := ih ((A + c) % 65536) (L - c)
            (emit (Effect.SETUP_EP0_BUF c)
              (call_into_EP0 env (Effect.eeprom_read chip A c true) c (wait_EP0 s)).2) hlt hn
          have hs' : (emit (Effect.SETUP_EP0_BUF c)
              (call_into_EP0 env (Effect.eeprom_read chip A c true) c (wait_EP0 s)).2).trace
              = s.trace ++ ([Effect.EP0CS_BUSY] ++
                Effect.eeprom_read chip A c true :: [Effect.SETUP_EP0_BUF c]) := by
            simp [call_into_EP0, emit, wait_EP0]
          refine ⟨([Effect.EP0CS_BUSY] ++
            Effect.eeprom_read chip A c true :: [Effect.SETUP_EP0_BUF c]) ++ l, ?_, ?_⟩
          · simp only [call_into_EP0, htr, hres, Bool.not_true, Bool.false_eq_true, if_false]
            simp only [call_into_EP0, htr] at hl
            rw [hl]
            simp [emit, wait_EP0]
          · apply hok _ _ l hpre (by simp) hpost (by simp) hres
            rw [← hs']
            exact hc
        · have hres' : env.ok (s.trace ++ [Effect.EP0CS_BUSY])
              (Effect.eeprom_read chip A c true) = false := by
            simpa using hres
          refine ⟨[Effect.EP0CS_BUSY] ++
            [Effect.eeprom_read chip A c true,
              Effect.pending_setup false, Effect.STALL_EP0], ?_, ?_⟩
          · simp only [call_into_EP0, htr, hres', Bool.not_false, if_true]
            simp [stall_ep0_return, clear_pending_setup, emit, wait_EP0]
          · exact hfail _ hpre hres'
    · have h0 : L = 0 := by omega
      subst h0
      simp only [lt_irrefl, gt_iff_lt, if_false]
      exact ⟨[], by simp, chunked_transfer_nil _ _ _ _ _ _ _⟩

theorem eeprom_select_addr_lt (k : Consts) (req : Setup) (h : req.wValue < 65536) :
    (eeprom_select k req).2.1 < 65536 := by
  unfold eeprom_select
  simp only []
  split_ifs <;> first | exact Nat.mod_lt _ (by omega) | exact h

theorem chunk_len_chunk_effect (dir_in : Bool) (chip page_size timeout : Nat) :
    chunk_len ∘ chunk_effect dir_in chip page_size timeout = Prod.snd := by
  funext c
  cases dir_in <;> simp [chunk_effect, chunk_len]

@[simp] theorem eeprom_loop_glasgow_config (env : Env) (dir_in : Bool)
    (chip page_size timeout fuel arg_addr arg_len : Nat) (s : State) :
    (eeprom_loop env dir_in chip page_size timeout fuel arg_addr arg_len s).glasgow_config =
      s.glasgow_config :=
  (eeprom_loop_frame env dir_in chip page_size timeout fuel arg_addr arg_len s).2.2.2.2.2.2.1

/-- The test-and-clear of a status bit as a record update: it changes the status byte, the
error LED pin and the trace, and nothing else. -/
theorem reset_status_bit_same (k : Consts) (bit : Nat) (s : State) :
    ∃ status IOD trace,
      (reset_status_bit k bit s).2 = { s with status := status, IOD := IOD, trace := trace } := by
  unfold reset_status_bit update_err_led
  split_ifs <;> exact ⟨_, _, _, rfl⟩

@[simp] theorem reset_status_bit_glasgow_config (k : Consts) (bit : Nat) (s : State) :
    (reset_status_bit k bit s).2.glasgow_config = s.glasgow_config := by
  obtain ⟨a, b, c, h⟩ := reset_status_bit_same k bit s
  rw [h]

theorem handle_pending_usb_setup_of_bitstream_id (env : Env) (k : Consts) (req : Setup)
    (s : State)
    (htype : req.bmRequestType = (USB_RECIP_DEVICE ||| USB_TYPE_VENDOR ||| USB_DIR_IN) ∨
             req.bmRequestType = (USB_RECIP_DEVICE ||| USB_TYPE_VENDOR ||| USB_DIR_OUT))
    (hreq : req.bRequest = USB_REQ_BITSTREAM_ID)
    (hlen : req.wLength = k.CONFIG_SIZE_BITSTREAM_ID) :
    handle_pending_usb_setup env k req s = req_bitstream_id env k req s := by
  unfold handle_pending_usb_setup
  rw [if_neg (type_ok_of_in_or_out req htype)]
  simp [hreq, hlen, USB_REQ_BITSTREAM_ID, USB_REQ_LIBFX2_PAGE_SIZE,
    USB_REQ_CYPRESS_EEPROM_DB, USB_REQ_EEPROM, USB_REQ_REGISTER, USB_REQ_STATUS,
    USB_REQ_FPGA_CFG]

/-- Only a bitstream-id set request and a bitstream chunk with index 0 change the stored
bitstream id. -/
theorem handle_pending_usb_setup_bitstream_id_frame (env : Env) (k : Consts) (req : Setup)
    (s : State) (h : changes_bitstream_id req = false) :
    (handle_pending_usb_setup env k req s).glasgow_config.bitstream_id =
      s.glasgow_config.bitstream_id := by
  simp only [changes_bitstream_id, Bool.decide_or, Bool.or_eq_false_iff,
    decide_eq_false_iff_not, not_and] at h
  obtain ⟨hset, hzero⟩ := h
  apply handle_pending_usb_setup_cases_guarded
    (fun t => t.glasgow_config.bitstream_id = s.glasgow_config.bitstream_id)
  case h_fpga_cfg =>
    intro _ hreq _
    have h0 := hzero hreq
    simp [req_fpga_cfg, h0, clear_pending_setup, emit]
  case h_bitstream_id =>
    intro hreq _
    have hin : req_dir_in req = true := by simpa using hset hreq
    simp [req_bitstream_id, hin, clear_pending_setup, emit, wait_EP0]
  all_goals
    intros
    simp [stall_ep0_return, clear_pending_setup, emit, req_page_size, req_eeprom,
      req_register, req_status, req_io_volt, req_sense_volt,
      req_alert_volt, req_poll_alert, req_iobuf_enable, req_limit_volt, req_pull,
      req_test_leds, req_api_level, req_ms_descriptor, call, call_into_EP0, wait_EP0,
      wait_EP0_data, latch_status_bit_eq, apply_ite State.glasgow_config,
      apply_ite Config.bitstream_id, apply_ite Prod.fst, apply_ite Prod.snd]

theorem run_bitstream_id_frame (env : Env) (k : Consts) (reqs : List Setup) (s : State)
    (h : ∀ r ∈ reqs, changes_bitstream_id r = false) :
    (run env k reqs s).glasgow_config.bitstream_id = s.glasgow_config.bitstream_id := by
  induction reqs generalizing s with
  | nil => rfl
  | cons r reqs ih =>
    unfold run
    rw [ih _ (fun x hx => h x (List.mem_cons_of_mem r hx)),
      handle_pending_usb_setup_bitstream_id_frame env k r s (h r (List.mem_cons_self r reqs))]

/-- Reading back, byte by byte, a list of bytes of the right length gives the list. -/
theorem map_range_bytes (T : List Nat) (n : Nat) (f : Nat → Nat) (hlen : T.length = n)
    (hbytes : ∀ b ∈ T, b < 256) (hf : ∀ i, i < n → f i = T.getD i 0 % 256) :
    (List.range n).map f = T := by
  apply List.ext_getElem
  · simp [hlen]
  · intro i h1 h2
    simp only [List.getElem_map, List.getElem_range]
    rw [hf i (by rw [← hlen]; exact h2), List.getD_eq_getElem _ _ h2]
    exact Nat.mod_eq_of_lt (hbytes _ (List.getElem_mem h2))

/-! ## Get/set requests (C17) -/

theorem handle_pending_usb_setup_of_io_volt (env : Env) (k : Consts) (req : Setup)
    (s : State)
    (htype : req.bmRequestType = (USB_RECIP_DEVICE ||| USB_TYPE_VENDOR ||| USB_DIR_IN) ∨
             req.bmRequestType = (USB_RECIP_DEVICE ||| USB_TYPE_VENDOR ||| USB_DIR_OUT))
    (hreq : req.bRequest = USB_REQ_IO_VOLT) (hlen : req.wLength = 2) :
    handle_pending_usb_setup env k req s = req_io_volt env k req s := by
  unfold handle_pending_usb_setup
  rw [if_neg (type_ok_of_in_or_out req htype)]
  simp [hreq, hlen, USB_REQ_IO_VOLT, USB_REQ_LIBFX2_PAGE_SIZE,
    USB_REQ_CYPRESS_EEPROM_DB, USB_REQ_EEPROM, USB_REQ_REGISTER, USB_REQ_STATUS,
    USB_REQ_FPGA_CFG, USB_REQ_BITSTREAM_ID]

theorem handle_pending_usb_setup_of_alert_volt (env : Env) (k : Consts) (req : Setup)
    (s : State)
    (htype : req.bmRequestType = (USB_RECIP_DEVICE ||| USB_TYPE_VENDOR ||| USB_DIR_IN) ∨
             req.bmRequestType = (USB_RECIP_DEVICE ||| USB_TYPE_VENDOR ||| USB_DIR_OUT))
    (hreq : req.bRequest = USB_REQ_ALERT_VOLT) (hlen : req.wLength = 4) :
    handle_pending_usb_setup env k req s = req_alert_volt env k req s := by
  unfold handle_pending_usb_setup
  rw [if_neg (type_ok_of_in_or_out req htype)]
  simp [hreq, hlen, USB_REQ_IO_VOLT, USB_REQ_LIBFX2_PAGE_SIZE,
    USB_REQ_CYPRESS_EEPROM_DB, USB_REQ_EEPROM, USB_REQ_REGISTER, USB_REQ_STATUS,
    USB_REQ_FPGA_CFG, USB_REQ_BITSTREAM_ID, USB_REQ_ALERT_VOLT, USB_REQ_SENSE_VOLT]

theorem handle_pending_usb_setup_of_limit_volt_any (env : Env) (k : Consts) (req : Setup)
    (s : State)
    (htype : req.bmRequestType = (USB_RECIP_DEVICE ||| USB_TYPE_VENDOR ||| USB_DIR_IN) ∨
             req.bmRequestType = (USB_RECIP_DEVICE ||| USB_TYPE_VENDOR ||| USB_DIR_OUT))
    (hreq : req.bRequest = USB_REQ_LIMIT_VOLT) (hlen : req.wLength = 2) :
    handle_pending_usb_setup env k req s = req_limit_volt env k req s := by
  unfold handle_pending_usb_setup
  rw [if_neg (type_ok_of_in_or_out req htype)]
  simp [hreq, hlen, USB_REQ_IO_VOLT, USB_REQ_LIBFX2_PAGE_SIZE,
    USB_REQ_CYPRESS_EEPROM_DB, USB_REQ_EEPROM, USB_REQ_REGISTER, USB_REQ_STATUS,
    USB_REQ_FPGA_CFG, USB_REQ_BITSTREAM_ID, USB_REQ_ALERT_VOLT, USB_REQ_SENSE_VOLT,
    USB_REQ_POLL_ALERT, USB_REQ_IOBUF_ENABLE, USB_REQ_LIMIT_VOLT]

theorem handle_pending_usb_setup_of_pull (env : Env) (k : Consts) (req : Setup)
    (s : State)
    (htype : req.bmRequestType = (USB_RECIP_DEVICE ||| USB_TYPE_VENDOR ||| USB_DIR_IN) ∨
             req.bmRequestType = (USB_RECIP_DEVICE ||| USB_TYPE_VENDOR ||| USB_DIR_OUT))
    (hreq : req.bRequest = USB_REQ_PULL) (hlen : req.wLength = 2) :
    handle_pending_usb_setup env k req s = req_pull env k req s := by
  unfold handle_pending_usb_setup
  rw [if_neg (type_ok_of_in_or_out req htype)]
  simp [hreq, hlen, USB_REQ_IO_VOLT, USB_REQ_LIBFX2_PAGE_SIZE,
    USB_REQ_CYPRESS_EEPROM_DB, USB_REQ_EEPROM, USB_REQ_REGISTER, USB_REQ_STATUS,
    USB_REQ_FPGA_CFG, USB_REQ_BITSTREAM_ID, USB_REQ_ALERT_VOLT, USB_REQ_SENSE_VOLT,
    USB_REQ_POLL_ALERT, USB_REQ_IOBUF_ENABLE, USB_REQ_LIMIT_VOLT, USB_REQ_PULL]

/-- A failing get backend: the transfer is stalled and the status byte is as before. -/
theorem get_failure (env : Env) (e : Effect) (n m : Nat) (s : State)
    (hfail : env.ok (get_stage s).trace e = false) :
    (if (!(call_into_EP0 env e n (get_stage s)).1) = true then
        stall_ep0_return (call_into_EP0 env e n (get_stage s)).2
      else emit (.SETUP_EP0_BUF m) (call_into_EP0 env e n (get_stage s)).2).status =
      s.status ∧
    new_effects s
      (if (!(call_into_EP0 env e n (get_stage s)).1) = true then
        stall_ep0_return (call_into_EP0 env e n (get_stage s)).2
      else emit (.SETUP_EP0_BUF m) (call_into_EP0 env e n (get_stage s)).2) =
      [Effect.pending_setup false, Effect.EP0CS_BUSY, e, Effect.pending_setup false,
        Effect.STALL_EP0] := by
  simp only [call_into_EP0, hfail]
  simp [stall_ep0_return, get_stage, wait_EP0, clear_pending_setup, emit, new_effects]

/-- A failing set backend: the error bit is latched on the state after the call. -/
theorem set_failure (env : Env) (k : Consts) (e : Effect) (t : State)
    (hfail : env.ok t.trace e = false) :
    (if (!(call env e t).1) = true then latch_status_bit k ST_ERROR (call env e t).2
      else (call env e t).2) = latch_status_bit k ST_ERROR (emit e t) := by
  simp [call, hfail]

theorem set_stage_trace (env : Env) (n : Nat) (s : State) :
    (set_stage env n s).trace =
      s.trace ++ [Effect.pending_setup false, Effect.SETUP_EP0_BUF n, Effect.EP0CS_BUSY] := by
  simp [set_stage, wait_EP0_data, clear_pending_setup, emit]

theorem set_stage_status (env : Env) (n : Nat) (s : State) :
    (set_stage env n s).status = s.status := by
  simp [set_stage, wait_EP0_data, clear_pending_setup, emit]

/-- Latching after the data stage of a set request, possibly after further effects `l`:
the error bit is set, the data stage was armed, and nothing is stalled. -/
theorem latch_after_set_stage (env : Env) (k : Consts) (n : Nat) (s t : State)
    (l : List Effect) (hs : t.status = s.status)
    (ht : t.trace = (set_stage env n s).trace ++ l) (hl : Effect.STALL_EP0 ∉ l) :
    (latch_status_bit k ST_ERROR t).status = s.status ||| ST_ERROR ∧
    Effect.SETUP_EP0_BUF n ∈ new_effects s (latch_status_bit k ST_ERROR t) ∧
    Effect.STALL_EP0 ∉ new_effects s (latch_status_bit k ST_ERROR t) := by
  have htr := latch_status_bit_trace k ST_ERROR t
  rw [ht, set_stage_trace] at htr
  rw [latch_status_bit_eq]
  refine ⟨by simp [hs], ?_, ?_⟩
  · rw [latch_status_bit_eq] at htr
    rw [new_effects_of_trace (by rw [htr, List.append_assoc, List.append_assoc])]
    simp
  · rw [latch_status_bit_eq] at htr
    rw [new_effects_of_trace (by rw [htr, List.append_assoc, List.append_assoc])]
    cases t.test_leds <;> simp [hl]

/-! ## Unrecognized requests -/

/-- A device-directed vendor request that satisfies no arm condition reaches the stall
exit. -/
theorem handle_pending_usb_setup_of_unrecognized (env : Env) (k : Consts) (req : Setup)
    (s : State)
    (htype : req.bmRequestType = (USB_RECIP_DEVICE ||| USB_TYPE_VENDOR ||| USB_DIR_IN) ∨
             req.bmRequestType = (USB_RECIP_DEVICE ||| USB_TYPE_VENDOR ||| USB_DIR_OUT))
    (h : ¬ recognized k req s) :
    handle_pending_usb_setup env k req s = stall_ep0_return s := by
  unfold handle_pending_usb_setup
  rw [if_neg (type_ok_of_in_or_out req htype)]
  unfold recognized at h
  simp only [not_or] at h
  obtain ⟨h1, h2, h3, h4, h5, h6, h7, h8, h9, h10, h11, h12, h13, h14, h15, h16, h17⟩ := h
  rw [if_neg h1, if_neg (not_or.mpr h2), if_neg h3, if_neg h4, if_neg h5, if_neg h6, if_neg h7,
    if_neg h8, if_neg h9, if_neg h10, if_neg h11, if_neg h12, if_neg h13, if_neg h14,
    if_neg h15, if_neg h16, if_neg h17]


/-! ## Alt-setting table -/

/-- The entries 0..3 of the alt-setting table are 0 or 1. -/
theorem handle_usb_set_configuration_alt (config_value : Nat) (s : State)
    (h : ∀ i, i < 4 → s.usb_alt_setting i = 0 ∨ s.usb_alt_setting i = 1) :
    ∀ i, i < 4 → (handle_usb_set_configuration config_value s).2.usb_alt_setting i = 0 ∨
      (handle_usb_set_configuration config_value s).2.usb_alt_setting i = 1 := by
  intro i hi
  unfold handle_usb_set_configuration
  by_cases hc : config_value = 0 ∨ config_value = 1 ∨ config_value = 2
  · rw [if_pos hc]
    left
    have hcases : i = 0 ∨ i = 1 ∨ i = 2 ∨ i = 3 := by omega
    rcases hcases with rfl | rfl | rfl | rfl <;> simp [emit, Function.update]
  · rw [if_neg hc]
    exact h i hi

/-- A set-interface call stores its alt_setting argument or leaves the table alone. -/
theorem handle_usb_set_interface_table (env : Env) (interface alt_setting : Nat) (s : State) :
    (handle_usb_set_interface env interface alt_setting s).2.usb_alt_setting =
      s.usb_alt_setting ∨
    (handle_usb_set_interface env interface alt_setting s).2.usb_alt_setting =
      Function.update s.usb_alt_setting interface alt_setting := by
  unfold handle_usb_set_interface
  simp only [call, emit, apply_ite Prod.snd, apply_ite State.usb_alt_setting,
    apply_ite Prod.fst]
  split_ifs <;> simp

theorem handle_usb_set_interface_alt (env : Env) (interface alt_setting : Nat) (s : State)
    (halt : alt_setting = 0 ∨ alt_setting = 1)
    (h : ∀ i, i < 4 → s.usb_alt_setting i = 0 ∨ s.usb_alt_setting i = 1) :
    ∀ i, i < 4 →
      (handle_usb_set_interface env interface alt_setting s).2.usb_alt_setting i = 0 ∨
      (handle_usb_set_interface env interface alt_setting s).2.usb_alt_setting i = 1 := by
  intro i hi
  rcases handle_usb_set_interface_table env interface alt_setting s with ht | ht
  · rw [ht]
    exact h i hi
  · rw [ht, Function.update_apply]
    by_cases hi2 : i = interface
    · rw [if_pos hi2]
      exact halt
    · rw [if_neg hi2]
      exact h i hi

theorem apply_calls_alt (env : Env) (calls : List UsbCall) (s : State)
    (h0 : ∀ i, i < 4 → s.usb_alt_setting i = 0 ∨ s.usb_alt_setting i = 1)
    (halt : ∀ c ∈ calls, c.alt_setting_ok) :
    ∀ i, i < 4 → (apply_calls env calls s).usb_alt_setting i = 0 ∨
      (apply_calls env calls s).usb_alt_setting i = 1 := by
  induction calls generalizing s with
  | nil => exact h0
  | cons c cs ih =>
    have hc := halt c (List.mem_cons_self _ _)
    have hcs : ∀ d ∈ cs, d.alt_setting_ok := fun d hd => halt d (List.mem_cons_of_mem _ hd)
    show ∀ i, i < 4 → (apply_calls env cs (apply_call env c s)).usb_alt_setting i = 0 ∨
      (apply_calls env cs (apply_call env c s)).usb_alt_setting i = 1
    apply ih _ _ hcs
    cases c with
    | set_configuration v => exact handle_usb_set_configuration_alt v s h0
    | set_interface n a => exact handle_usb_set_interface_alt env n a s hc h0

/-! ## The pending-SETUP flag -/

theorem cleared_first_clear (s : State) : cleared_first s (clear_pending_setup s) :=
  ⟨rfl, [], rfl⟩

/-- A later state with the flag clear and a longer trace. -/
theorem cleared_first_of {s t u : State} (h : cleared_first s t) (hp : u.pending_setup = false)
    (ht : ∃ l, u.trace = t.trace ++ l) : cleared_first s u := by
  obtain ⟨_, l1, h1⟩ := h
  obtain ⟨l2, h2⟩ := ht
  exact ⟨hp, l1 ++ l2, by rw [h2, h1]; simp⟩

theorem cleared_first_emit {s t : State} (e : Effect) (h : cleared_first s t) :
    cleared_first s (emit e t) :=
  cleared_first_of h h.1 ⟨[e], rfl⟩

theorem cleared_first_stall {s t : State} (h : cleared_first s t) :
    cleared_first s (stall_ep0_return t) :=
  cleared_first_of h rfl ⟨[Effect.pending_setup false, Effect.STALL_EP0], by
    simp [stall_ep0_return, clear_pending_setup, emit]⟩

theorem cleared_first_latch {s t : State} (k : Consts) (bit : Nat) (h : cleared_first s t) :
    cleared_first s (latch_status_bit k bit t) := by
  refine cleared_first_of h ?_ ⟨_, latch_status_bit_trace k bit t⟩
  rw [latch_status_bit_eq]
  exact h.1

theorem cleared_first_eeprom_loop (env : Env) (dir_in : Bool) (chip page_size timeout : Nat)
    (fuel arg_addr arg_len : Nat) {s t : State} (h : cleared_first s t) :
    cleared_first s (eeprom_loop env dir_in chip page_size timeout fuel arg_addr arg_len t) := by
  induction fuel generalizing arg_addr arg_len t with
  | zero => exact h
  | succ n ih =>
    unfold eeprom_loop
    by_cases hl : arg_len > 0
    · simp only [hl, if_true]
      generalize (if arg_len < 64 then arg_len else 64) = c
      cases dir_in
      · simp only [Bool.false_eq_true, if_false]
        have h1 : cleared_first s
            (call env (.eeprom_write chip arg_addr c true page_size timeout)
              (wait_EP0_data env (emit (.SETUP_EP0_BUF 0) t))).2 :=
          cleared_first_of h h.1 ⟨_, by simp [call, wait_EP0_data, emit]; rfl⟩
        split
        · exact cleared_first_stall h1
        · exact ih _ _ h1
      · simp only [if_true]
        have h1 : cleared_first s
            (call_into_EP0 env (.eeprom_read chip arg_addr c true) c (wait_EP0 t)).2 :=
          cleared_first_of h h.1 ⟨_, by simp [call_into_EP0, wait_EP0, emit]; rfl⟩
        split
        · exact cleared_first_stall h1
        · exact ih _ _ (cleared_first_emit _ h1)
    · simp only [hl, if_false]
      exact h

theorem cleared_first_fpga_cfg_loop (env : Env) (fuel arg_len : Nat) {s t : State}
    (h : cleared_first s t) : cleared_first s (fpga_cfg_loop env fuel arg_len t) := by
  induction fuel generalizing arg_len t with
  | zero => exact h
  | succ n ih =>
    unfold fpga_cfg_loop
    by_cases hl : arg_len > 0
    · simp only [hl, if_true]
      exact ih _ (cleared_first_of h h.1 ⟨_, by simp [wait_EP0_data, emit]; rfl⟩)
    · simp only [hl, if_false]
      exact h

theorem cleared_first_reset {s t : State} (k : Consts) (bit : Nat) (h : cleared_first s t) :
    cleared_first s (reset_status_bit k bit t).2 := by
  refine cleared_first_of h ?_ (reset_status_bit_trace k bit t)
  obtain ⟨a, b, c, hr⟩ := reset_status_bit_same k bit t
  rw [hr]
  exact h.1

/-- Every arm of the dispatcher, and its stall exit, clears the flag before anything else. -/
theorem handle_pending_usb_setup_cleared_first (env : Env) (k : Consts) (req : Setup)
    (s : State) : cleared_first s (handle_pending_usb_setup env k req s) := by
  have h0 := cleared_first_clear s
  apply handle_pending_usb_setup_cases (cleared_first s)
  case h_stall => exact cleared_first_emit _ h0
  case h_page_size => exact cleared_first_emit _ h0
  case h_eeprom =>
    unfold req_eeprom
    simp only []
    split
    · exact cleared_first_stall h0
    · exact cleared_first_eeprom_loop _ _ _ _ _ _ _ _ h0
  case h_register =>
    unfold req_register
    simp only [call, call_into_EP0, wait_EP0, wait_EP0_data]
    split_ifs <;>
      first
      | exact cleared_first_stall (cleared_first_of h0 rfl ⟨_, by simp [emit]; rfl⟩)
      | exact cleared_first_of h0 rfl ⟨_, by simp [emit]; rfl⟩
  case h_status =>
    unfold req_status
    simp only [call, wait_EP0]
    exact cleared_first_reset k _ (cleared_first_of h0 rfl ⟨_, by simp [emit]; rfl⟩)
  case h_bitstream_id =>
    unfold req_bitstream_id
    simp only [call, call_into_EP0, wait_EP0, wait_EP0_data]
    split_ifs <;>
      first
      | exact cleared_first_stall (cleared_first_of h0 rfl ⟨_, by simp [emit]; rfl⟩)
      | exact cleared_first_of h0 rfl ⟨_, by simp [emit]; rfl⟩
  case h_io_volt =>
    unfold req_io_volt
    simp only [call, call_into_EP0, wait_EP0, wait_EP0_data]
    split_ifs <;>
      first
      | exact cleared_first_stall (cleared_first_of h0 rfl ⟨_, by simp [emit]; rfl⟩)
      | exact cleared_first_latch k _ (cleared_first_of h0 rfl ⟨_, by simp [emit]; rfl⟩)
      | exact cleared_first_of h0 rfl ⟨_, by simp [emit]; rfl⟩
  case h_sense_volt =>
    unfold req_sense_volt
    simp only [call, call_into_EP0, wait_EP0, wait_EP0_data]
    split_ifs <;>
      first
      | exact cleared_first_stall (cleared_first_of h0 rfl ⟨_, by simp [emit]; rfl⟩)
      | exact cleared_first_of h0 rfl ⟨_, by simp [emit]; rfl⟩
  case h_alert_volt =>
    unfold req_alert_volt
    simp only [call, call_into_EP0, wait_EP0, wait_EP0_data]
    split_ifs <;>
      first
      | exact cleared_first_stall (cleared_first_of h0 rfl ⟨_, by simp [emit]; rfl⟩)
      | exact cleared_first_latch k _ (cleared_first_of h0 rfl ⟨_, by simp [emit]; rfl⟩)
      | exact cleared_first_of h0 rfl ⟨_, by simp [emit]; rfl⟩
  case h_poll_alert =>
    unfold req_poll_alert
    simp only [call_into_EP0, wait_EP0]
    split_ifs <;>
      first
      | exact cleared_first_stall (cleared_first_of h0 rfl ⟨_, by simp [emit]; rfl⟩)
      | exact cleared_first_reset k _ (cleared_first_of h0 rfl ⟨_, by simp [emit]; rfl⟩)
  case h_iobuf_enable =>
    unfold req_iobuf_enable
    simp only [wait_EP0]
    exact cleared_first_of h0 rfl ⟨_, by simp [emit]; rfl⟩
  case h_limit_volt =>
    unfold req_limit_volt
    simp only [call, call_into_EP0, wait_EP0, wait_EP0_data]
    split_ifs <;>
      first
      | exact cleared_first_stall (cleared_first_of h0 rfl ⟨_, by simp [emit]; rfl⟩)
      | exact cleared_first_latch k _ (cleared_first_of h0 rfl ⟨_, by simp [emit]; rfl⟩)
      | exact cleared_first_of h0 rfl ⟨_, by simp [emit]; rfl⟩
  case h_pull =>
    unfold req_pull
    simp only [call, call_into_EP0, wait_EP0, wait_EP0_data]
    split_ifs <;>
      first
      | exact cleared_first_stall (cleared_first_of h0 rfl ⟨_, by simp [emit]; rfl⟩)
      | exact cleared_first_latch k _ (cleared_first_of h0 rfl ⟨_, by simp [emit]; rfl⟩)
      | exact cleared_first_of h0 rfl ⟨_, by simp [emit]; rfl⟩
  case h_test_leds =>
    unfold req_test_leds
    simp only [wait_EP0]
    exact cleared_first_of h0 rfl ⟨_, by simp [emit]; rfl⟩
  case h_api_level =>
    unfold req_api_level
    simp only [wait_EP0]
    exact cleared_first_of h0 rfl ⟨_, by simp [emit]; rfl⟩
  case h_ms_compat =>
    unfold req_ms_descriptor
    simp only [wait_EP0]
    exact cleared_first_of h0 rfl ⟨_, by simp [emit]; rfl⟩
  case h_ms_props =>
    unfold req_ms_descriptor
    simp only [wait_EP0]
    exact cleared_first_of h0 rfl ⟨_, by simp [emit]; rfl⟩
  case h_fpga_cfg =>
    intro _
    unfold req_fpga_cfg
    simp only []
    have h1 : cleared_first s
        (if req.wIndex = 0 then
          emit .fpga_reset
            { clear_pending_setup s with glasgow_config :=
                { (clear_pending_setup s).glasgow_config with
                  bitstream_id := List.replicate k.CONFIG_SIZE_BITSTREAM_ID 0 } }
        else clear_pending_setup s) := by
      split_ifs
      · exact cleared_first_of h0 rfl ⟨_, by simp [emit]; rfl⟩
      · exact h0
    have h2 := cleared_first_fpga_cfg_loop env req.wLength req.wLength h1
    exact cleared_first_of h2 h2.1 ⟨[], by simp⟩

/-! ## The boot-time bitstream load -/

/-- One iteration of the boot-time loop. -/
theorem bootstrap_loop_step (env : Env) (k : Consts) (fuel length chip addr : Nat) (s : State)
    (hl : length > 0) :
    bootstrap_loop env k (fuel + 1) length chip addr s =
      if env.ok s.trace (boot_read (chip, addr, if length < 0x80 then length else 0x80)) then
        bootstrap_loop env k fuel (length - (if length < 0x80 then length else 0x80))
          (bootstrap_advance k chip addr (if length < 0x80 then length else 0x80)).1
          (bootstrap_advance k chip addr (if length < 0x80 then length else 0x80)).2
          { s with trace := s.trace ++
              boot_chunk_effects (chip, addr, if length < 0x80 then length else 0x80) }
      else
        (length, latch_status_bit k ST_ERROR
          { s with trace := s.trace ++
              [boot_read (chip, addr, if length < 0x80 then length else 0x80)] }) := by
  rw [bootstrap_loop]
  simp only [hl, if_true]
  generalize (if length < 0x80 then length else 0x80) = c
  simp only [call, boot_read, boot_chunk_effects, bootstrap_advance, emit,
    List.append_assoc, List.singleton_append]
  by_cases hok : env.ok s.trace (Effect.eeprom_read chip addr c true) = true
  · simp only [hok, Bool.not_true, Bool.false_eq_true, if_false, if_true]
    split_ifs <;> rfl
  · simp only [hok, Bool.not_eq_true] at hok ⊢
    simp [hok]

theorem bootstrap_loop_zero (env : Env) (k : Consts) (fuel chip addr : Nat) (s : State) :
    bootstrap_loop env k fuel 0 chip addr s = (0, s) := by
  cases fuel <;> simp [bootstrap_loop]

theorem bootstrap_chunks_zero (k : Consts) (fuel chip addr : Nat) :
    bootstrap_chunks k fuel 0 chip addr = [] := by
  cases fuel <;> simp [bootstrap_chunks]

theorem bootstrap_chunks_step (k : Consts) (fuel length chip addr : Nat) (hl : length > 0) :
    bootstrap_chunks k (fuel + 1) length chip addr =
      (chip, addr, if length < 0x80 then length else 0x80) ::
        bootstrap_chunks k fuel (length - (if length < 0x80 then length else 0x80))
          (bootstrap_advance k chip addr (if length < 0x80 then length else 0x80)).1
          (bootstrap_advance k chip addr (if length < 0x80 then length else 0x80)).2 := by
  rw [bootstrap_chunks]
  simp only [hl, if_true]

/-- The boot-time loop when no read fails: every chunk is read and loaded and no byte
remains. -/
theorem bootstrap_loop_of_no_failure (env : Env) (k : Consts) (fuel length chip addr : Nat)
    (s : State) (hfuel : length ≤ fuel)
    (hff : first_failure env s.trace (bootstrap_chunks k fuel length chip addr) = none) :
    bootstrap_loop env k fuel length chip addr s =
      (0, { s with trace := s.trace ++
              (bootstrap_chunks k fuel length chip addr).flatMap boot_chunk_effects }) := by
  induction fuel generalizing length chip addr s with
  | zero =>
    have h0 : length = 0 := by omega
    subst h0
    simp [bootstrap_loop, bootstrap_chunks]
  | succ n ih =>
    by_cases hl : length > 0
    · rw [bootstrap_chunks_step k n length chip addr hl] at hff ⊢
      rw [bootstrap_loop_step env k n length chip addr s hl]
      have hn : length - (if length < 0x80 then length else 0x80) ≤ n := by
        split_ifs <;> omega
      generalize (if length < 0x80 then length else 0x80) = c at hff hn ⊢
      rw [first_failure] at hff
      by_cases hok : env.ok s.trace (boot_read (chip, addr, c)) = true
      · rw [if_pos hok] at hff ⊢
        have hff2 : first_failure env (s.trace ++ boot_chunk_effects (chip, addr, c))
            (bootstrap_chunks k n (length - c) (bootstrap_advance k chip addr c).1
              (bootstrap_advance k chip addr c).2) = none := by
          simpa using hff
        rw [ih (length - c) _ _
          { s with trace := s.trace ++ boot_chunk_effects (chip, addr, c) } hn hff2]
        simp [List.flatMap_cons]
      · rw [if_neg hok] at hff
        cases hff
    · have h0 : length = 0 := by omega
      subst h0
      rw [bootstrap_loop_zero, bootstrap_chunks_zero]
      simp

/-- The boot-time loop when the read of chunk `m` is the first to fail: the chunks before it
are read and loaded, the failing read is the last effect before the error bit is latched,
and bytes remain. -/
theorem bootstrap_loop_of_failure (env : Env) (k : Consts) (fuel length chip addr : Nat)
    (s : State) (m : Nat) (hfuel : length ≤ fuel)
    (hff : first_failure env s.trace (bootstrap_chunks k fuel length chip addr) = some m) :
    ∃ c, (bootstrap_chunks k fuel length chip addr)[m]? = some c ∧
      env.ok (s.trace ++ ((bootstrap_chunks k fuel length chip addr).take m).flatMap
        boot_chunk_effects) (boot_read c) = false ∧
      (bootstrap_loop env k fuel length chip addr s).1 > 0 ∧
      (bootstrap_loop env k fuel length chip addr s).2 =
        latch_status_bit k ST_ERROR
          { s with trace := s.trace ++
              (((bootstrap_chunks k fuel length chip addr).take m).flatMap boot_chunk_effects ++
                [boot_read c]) } := by
  induction fuel generalizing length chip addr s m with
  | zero =>
    simp [bootstrap_chunks, first_failure] at hff
  | succ n ih =>
    by_cases hl : length > 0
    · rw [bootstrap_chunks_step k n length chip addr hl] at hff ⊢
      rw [bootstrap_loop_step env k n length chip addr s hl]
      have hn : length - (if length < 0x80 then length else 0x80) ≤ n := by
        split_ifs <;> omega
      generalize (if length < 0x80 then length else 0x80) = c at hff hn ⊢
      rw [first_failure] at hff
      by_cases hok : env.ok s.trace (boot_read (chip, addr, c)) = true
      · rw [if_pos hok] at hff ⊢
        obtain ⟨m2, hm2, rfl⟩ := Option.map_eq_some'.mp hff
        obtain ⟨c2, hc2, hfail, hpos, hst⟩ := ih (length - c) _ _
          { s with trace := s.trace ++ boot_chunk_effects (chip, addr, c) } m2 hn hm2
        refine ⟨c2, by simpa using hc2, ?_, hpos, ?_⟩
        · simpa [List.flatMap_cons, List.append_assoc] using hfail
        · rw [hst]
          simp [List.flatMap_cons, List.append_assoc]
      · rw [if_neg hok] at hff ⊢
        cases hff
        exact ⟨(chip, addr, c), by simp, by simpa using hok, hl, by simp⟩
    · have h0 : length = 0 := by omega
      subst h0
      rw [bootstrap_chunks_zero] at hff
      simp [first_failure] at hff

theorem bootstrap_chunks_length (k : Consts) (fuel length chip addr : Nat)
    (hfuel : length ≤ fuel) :
    (bootstrap_chunks k fuel length chip addr).length = (length + 127) / 128 := by
  induction fuel generalizing length chip addr with
  | zero =>
    have h0 : length = 0 := by omega
    subst h0
    simp [bootstrap_chunks]
  | succ n ih =>
    by_cases hl : length > 0
    · rw [bootstrap_chunks_step k n length chip addr hl, List.length_cons, ih]
      · split_ifs <;> omega
      · split_ifs <;> omega
    · have h0 : length = 0 := by omega
      subst h0
      rw [bootstrap_chunks_zero]
      simp

theorem bootstrap_chunks_sum (k : Consts) (fuel length chip addr : Nat)
    (hfuel : length ≤ fuel) :
    ((bootstrap_chunks k fuel length chip addr).map fun c => c.2.2).sum = length := by
  induction fuel generalizing length chip addr with
  | zero =>
    have h0 : length = 0 := by omega
    subst h0
    simp [bootstrap_chunks]
  | succ n ih =>
    by_cases hl : length > 0
    · rw [bootstrap_chunks_step k n length chip addr hl, List.map_cons, List.sum_cons, ih]
      · simp only []
        split_ifs <;> omega
      · split_ifs <;> omega
    · have h0 : length = 0 := by omega
      subst h0
      rw [bootstrap_chunks_zero]
      simp

/-- The address update of the boot-time loop follows the linear position, up to the end of
the on-board memory's address space. -/
theorem bootstrap_advance_linear (k : Consts) (n : Nat) (hice : k.I2C_ADDR_ICE_MEM + 2 < 256)
    (hn : n % 128 = 0) (hb : n + 128 < 0x29000) :
    bootstrap_advance k (linear_position k n).1 (linear_position k n).2 128 =
      linear_position k (n + 128) := by
  unfold bootstrap_advance linear_position
  by_cases h1 : n < 0x10000
  · simp only [h1, if_true]
    by_cases h2 : n + 128 = 0x10000
    · have h3 : (n + 128) % 65536 = 0 := by omega
      have h4 : (k.I2C_ADDR_ICE_MEM + 1) % 256 = k.I2C_ADDR_ICE_MEM + 1 :=
        Nat.mod_eq_of_lt (by omega)
      have h5 : ¬ (n + 128 < 0x10000) := by omega
      have h6 : n + 128 < 0x20000 := by omega
      simp only [h3, h4, h5, h6, if_true, if_false]
      rw [if_neg (by omega)]
      simp only [Prod.mk.injEq, true_and]
      omega
    · have h3 : (n + 128) % 65536 = n + 128 := Nat.mod_eq_of_lt (by omega)
      have h5 : n + 128 < 0x10000 := by omega
      simp only [h3, h5, if_true]
      rw [if_neg (by omega)]
  · by_cases h2 : n < 0x20000
    · simp only [h1, h2, if_true, if_false]
      by_cases h3 : n + 128 = 0x20000
      · have h4 : (n - 0x10000 + 128) % 65536 = 0 := by omega
        have h5 : (k.I2C_ADDR_ICE_MEM + 1 + 1) % 256 = k.I2C_ADDR_ICE_MEM + 2 := by omega
        have h6 : ¬ (n + 128 < 0x10000) := by omega
        have h7 : ¬ (n + 128 < 0x20000) := by omega
        simp only [h4, h5, h6, h7, if_true, if_false]
        simp only [Prod.mk.injEq, true_and]
        omega
      · have h4 : (n - 0x10000 + 128) % 65536 = n - 0x10000 + 128 :=
          Nat.mod_eq_of_lt (by omega)
        have h6 : ¬ (n + 128 < 0x10000) := by omega
        have h7 : n + 128 < 0x20000 := by omega
        simp only [h4, h6, h7, if_true, if_false]
        rw [if_neg (by omega)]
        simp only [Prod.mk.injEq, true_and]
        omega
    · have h4 : (0x7000 + (n - 0x20000) + 128) % 65536 = 0x7000 + (n - 0x20000) + 128 :=
        Nat.mod_eq_of_lt (by omega)
      have h6 : ¬ (n + 128 < 0x10000) := by omega
      have h7 : ¬ (n + 128 < 0x20000) := by omega
      simp only [h1, h2, h4, h6, h7, if_false]
      rw [if_neg (by omega)]
      simp only [Prod.mk.injEq, true_and]
      omega

/-- The chunks of the boot-time loop, by index: chunk `j` lies at the linear position of
its offset and is 128 bytes long, except for a shorter last chunk. -/
theorem bootstrap_chunks_get (k : Consts) (fuel length n j : Nat)
    (hice : k.I2C_ADDR_ICE_MEM + 2 < 256) (hfuel : length ≤ fuel) (hn : n % 128 = 0)
    (hb : n + length ≤ 0x29000) (hj : 128 * j < length) :
    (bootstrap_chunks k fuel length (linear_position k n).1 (linear_position k n).2)[j]? =
      some ((linear_position k (n + 128 * j)).1, (linear_position k (n + 128 * j)).2,
        min 128 (length - 128 * j)) := by
  induction fuel generalizing length n j with
  | zero => omega
  | succ f ih =>
    have hl : length > 0 := by omega
    rw [bootstrap_chunks_step k f length _ _ hl]
    cases j with
    | zero =>
      simp only [List.getElem?_cons_zero, Nat.mul_zero, Nat.add_zero, Nat.sub_zero,
        Option.some.injEq, Prod.mk.injEq, true_and]
      simp only [Nat.min_def]
      split_ifs <;> omega
    | succ i =>
      have hlen : ¬ length < 0x80 := by omega
      simp only [List.getElem?_cons_succ, hlen, if_false]
      rw [bootstrap_advance_linear k n hice hn (by omega),
        ih (length - 128) (n + 128) i (by omega) (by omega) (by omega) (by omega)]
      have e1 : n + 128 + 128 * i = n + 128 * (i + 1) := by omega
      have e2 : length - 128 - 128 * i = length - 128 * (i + 1) := by omega
      rw [e1, e2]

theorem latch_status_bit_latch_effects (k : Consts) (bit : Nat) (s : State) :
    (latch_status_bit k bit s).trace = s.trace ++ latch_effects s bit :=
  latch_status_bit_trace k bit s

/-- The state in which the boot-time loop starts. -/
theorem bootstrap_start_trace (k : Consts) (s : State) :
    (emit .fpga_reset (write_IO_LED_ACT k true s)).trace =
      s.trace ++ [Effect.IO_LED_ACT true, Effect.fpga_reset] := by
  simp [emit, write_IO_LED_ACT]

/-- The boot-time bitstream load when no read fails. -/
theorem bootstrap_of_no_failure (env : Env) (k : Consts) (s : State)
    (hsize : 0 < s.glasgow_config.bitstream_size)
    (hff : first_failure env (s.trace ++ [Effect.IO_LED_ACT true, Effect.fpga_reset])
      (bootstrap_chunks k s.glasgow_config.bitstream_size s.glasgow_config.bitstream_size
        k.I2C_ADDR_ICE_MEM 0) = none) :
    (bootstrap env k s).trace =
      s.trace ++ ([Effect.IO_LED_ACT true, Effect.fpga_reset] ++
        (bootstrap_chunks k s.glasgow_config.bitstream_size s.glasgow_config.bitstream_size
          k.I2C_ADDR_ICE_MEM 0).flatMap boot_chunk_effects ++
        Effect.fpga_start ::
          ((if env.ok (s.trace ++ ([Effect.IO_LED_ACT true, Effect.fpga_reset] ++
              (bootstrap_chunks k s.glasgow_config.bitstream_size
                s.glasgow_config.bitstream_size k.I2C_ADDR_ICE_MEM 0).flatMap
                boot_chunk_effects)) Effect.fpga_start
            then [] else latch_effects s ST_ERROR) ++ [Effect.IO_LED_ACT false])) ∧
    (bootstrap env k s).status =
      (if env.ok (s.trace ++ ([Effect.IO_LED_ACT true, Effect.fpga_reset] ++
          (bootstrap_chunks k s.glasgow_config.bitstream_size
            s.glasgow_config.bitstream_size k.I2C_ADDR_ICE_MEM 0).flatMap
            boot_chunk_effects)) Effect.fpga_start
        then s.status else s.status ||| ST_ERROR) := by
  rw [← bootstrap_start_trace k s] at hff
  have hloop := bootstrap_loop_of_no_failure env k _ _ _ _ _ (Nat.le_refl _) hff
  unfold bootstrap
  simp only [hsize, if_true]
  rw [hloop]
  generalize bootstrap_chunks k s.glasgow_config.bitstream_size
    s.glasgow_config.bitstream_size k.I2C_ADDR_ICE_MEM 0 = cs
  simp only [if_true, call, bootstrap_start_trace, List.append_assoc]
  simp only [List.cons_append, List.nil_append, List.singleton_append]
  rcases Bool.eq_false_or_eq_true (env.ok (s.trace ++ Effect.IO_LED_ACT true ::
      Effect.fpga_reset :: cs.flatMap boot_chunk_effects) Effect.fpga_start) with hq | hq
  · simp [hq, write_IO_LED_ACT, emit]
  · simp [hq, write_IO_LED_ACT, emit, latch_status_bit_eq, latch_effects]

/-- The boot-time bitstream load when the read of chunk `m` is the first to fail. -/
theorem bootstrap_of_failure (env : Env) (k : Consts) (s : State) (m : Nat)
    (hsize : 0 < s.glasgow_config.bitstream_size)
    (hff : first_failure env (s.trace ++ [Effect.IO_LED_ACT true, Effect.fpga_reset])
      (bootstrap_chunks k s.glasgow_config.bitstream_size s.glasgow_config.bitstream_size
        k.I2C_ADDR_ICE_MEM 0) = some m) :
    ∃ c, (bootstrap_chunks k s.glasgow_config.bitstream_size s.glasgow_config.bitstream_size
        k.I2C_ADDR_ICE_MEM 0)[m]? = some c ∧
      env.ok (s.trace ++ ([Effect.IO_LED_ACT true, Effect.fpga_reset] ++
        ((bootstrap_chunks k s.glasgow_config.bitstream_size s.glasgow_config.bitstream_size
          k.I2C_ADDR_ICE_MEM 0).take m).flatMap boot_chunk_effects)) (boot_read c) = false ∧
      (bootstrap env k s).trace =
        s.trace ++ ([Effect.IO_LED_ACT true, Effect.fpga_reset] ++
          ((bootstrap_chunks k s.glasgow_config.bitstream_size
            s.glasgow_config.bitstream_size k.I2C_ADDR_ICE_MEM 0).take m).flatMap
            boot_chunk_effects ++
          boot_read c :: (latch_effects s ST_ERROR ++ [Effect.IO_LED_ACT false])) ∧
      (bootstrap env k s).status = s.status ||| ST_ERROR := by
  rw [← bootstrap_start_trace k s] at hff
  obtain ⟨c, hc, hfail, hpos, hst⟩ :=
    bootstrap_loop_of_failure env k _ _ _ _ _ m (Nat.le_refl _) hff
  refine ⟨c, hc, ?_, ?_⟩
  · rw [bootstrap_start_trace] at hfail
    simpa [List.append_assoc] using hfail
  · unfold bootstrap
    simp only [hsize, if_true]
    rw [if_neg (by omega), hst]
    generalize bootstrap_chunks k s.glasgow_config.bitstream_size
      s.glasgow_config.bitstream_size k.I2C_ADDR_ICE_MEM 0 = cs
    simp [bootstrap_start_trace, write_IO_LED_ACT, emit, latch_status_bit_eq, latch_effects]

theorem first_failure_of_all_ok (env : Env) (hist : List Effect) (cs : List (Nat × Nat × Nat))
    (hok : ∀ h e, is_i2c e = true → env.ok h e = true) :
    first_failure env hist cs = none := by
  induction cs generalizing hist with
  | nil => rfl
  | cons c cs ih =>
    rw [first_failure, if_pos (hok hist (boot_read c) rfl), ih]
    rfl

theorem filter_i2c_boot_chunks (cs : List (Nat × Nat × Nat)) :
    (cs.flatMap boot_chunk_effects).filter is_i2c = cs.map boot_read := by
  induction cs with
  | nil => rfl
  | cons c cs ih =>
    rw [List.flatMap_cons, List.filter_append, ih]
    rfl

theorem mem_boot_chunk_effects {e : Effect} {cs : List (Nat × Nat × Nat)}
    (h : e ∈ cs.flatMap boot_chunk_effects) :
    (∃ c ∈ cs, e = boot_read c) ∨ ∃ n, e = Effect.fpga_load n := by
  obtain ⟨c, hc, he⟩ := List.mem_flatMap.mp h
  simp only [boot_chunk_effects, List.mem_cons, List.mem_singleton, List.not_mem_nil,
    or_false] at he
  rcases he with rfl | rfl
  · exact Or.inl ⟨c, hc, rfl⟩
  · exact Or.inr ⟨_, rfl⟩

theorem count_boot_chunk_effects (cs : List (Nat × Nat × Nat)) (e : Effect)
    (h1 : is_i2c e = false) (h2 : ∀ n, e ≠ Effect.fpga_load n) :
    (cs.flatMap boot_chunk_effects).count e = 0 := by
  rw [List.count_eq_zero]
  intro hmem
  rcases mem_boot_chunk_effects hmem with ⟨c, _, rfl⟩ | ⟨n, rfl⟩
  · simp [boot_read, is_i2c] at h1
  · exact h2 n rfl

theorem count_latch_effects (s : State) (bit : Nat) (e : Effect)
    (h1 : ∀ v, e ≠ Effect.status v) (h2 : ∀ b, e ≠ Effect.IO_LED_ERR b) :
    (latch_effects s bit).count e = 0 := by
  rw [List.count_eq_zero]
  unfold latch_effects
  intro hmem
  rw [List.mem_cons] at hmem
  rcases hmem with rfl | hmem
  · exact h1 _ rfl
  · split_ifs at hmem
    · simp at hmem
    · rw [List.mem_singleton] at hmem
      exact h2 _ hmem

/-- The chip and address that the EEPROM request assigns to a chunk at the linear offset
`n`, when the chunk ends within the tail window. -/
theorem eeprom_select_linear (k : Consts) (n len : Nat)
    (hice : k.I2C_ADDR_ICE_MEM + 2 < 256) (hlen : len ≤ 128) (hb : n + len ≤ 0x21000) :
    ((eeprom_select k (eeprom_request_at n len)).1,
      (eeprom_select k (eeprom_request_at n len)).2.1) = linear_position k n := by
  have hreq : USB_REQ_EEPROM ≠ USB_REQ_CYPRESS_EEPROM_DB := by decide
  unfold eeprom_select linear_position eeprom_request_at
  simp only [hreq, if_false]
  by_cases h1 : n < 0x10000
  · have hi : 1 + n / 65536 = 1 := by omega
    have ha : n % 65536 = n := by omega
    simp [hi, ha, h1]
  · by_cases h2 : n < 0x20000
    · have hi : 1 + n / 65536 = 2 := by omega
      have ha : n % 65536 = n - 0x10000 := by omega
      have hc : (k.I2C_ADDR_ICE_MEM + 1) % 256 = k.I2C_ADDR_ICE_MEM + 1 := by omega
      simp [hi, ha, h1, h2, hc]
    · have hi : 1 + n / 65536 = 3 := by omega
      have ha : n % 65536 = n - 0x20000 := by omega
      have hg : n - 0x20000 ≤ 0x1000 ∧ len ≤ 0x1000 ∧ (n - 0x20000 + len) % 65536 ≤ 0x1000 := by
        omega
      have hm : (n - 0x20000 + 0x7000) % 65536 = 0x7000 + (n - 0x20000) := by omega
      simp only [hi, ha, h1, h2, if_false, if_true]
      rw [if_pos hg, hm]
      rw [if_neg (by decide), if_neg (by decide), if_neg (by decide)]

/-- The reads that `bootstrap` issues are the reads of a prefix of its chunk list. -/
theorem bootstrap_reads_prefix (env : Env) (k : Consts) (s : State) :
    ∃ m, m ≤ (boot_chunks k s).length ∧
      (new_effects s (bootstrap env k s)).filter is_i2c =
        ((boot_chunks k s).take m).map boot_read := by
  have e1 : is_i2c (Effect.IO_LED_ACT true) = false := rfl
  have e2 : is_i2c Effect.fpga_reset = false := rfl
  have e3 : is_i2c Effect.fpga_start = false := rfl
  have e4 : is_i2c (Effect.IO_LED_ACT false) = false := rfl
  have hl : (latch_effects s ST_ERROR).filter is_i2c = [] := by
    unfold latch_effects
    split_ifs <;> rfl
  unfold boot_chunks
  by_cases hsize : 0 < s.glasgow_config.bitstream_size
  · cases hff : first_failure env (s.trace ++ [Effect.IO_LED_ACT true, Effect.fpga_reset])
        (bootstrap_chunks k s.glasgow_config.bitstream_size s.glasgow_config.bitstream_size
          k.I2C_ADDR_ICE_MEM 0) with
    | none =>
      obtain ⟨ht, -⟩ := bootstrap_of_no_failure env k s hsize hff
      refine ⟨_, Nat.le_refl _, ?_⟩
      rw [new_effects_of_trace ht, List.take_length]
      generalize bootstrap_chunks k s.glasgow_config.bitstream_size
        s.glasgow_config.bitstream_size k.I2C_ADDR_ICE_MEM 0 = cs
      simp only [List.filter_append, List.filter_cons, List.filter_nil, e1, e2, e3, e4,
        filter_i2c_boot_chunks, Bool.false_eq_true, if_false, List.nil_append,
        List.append_nil]
      split_ifs <;> simp [hl]
    | some m =>
      obtain ⟨c, hc, -, ht, -⟩ := bootstrap_of_failure env k s m hsize hff
      have hm := (List.getElem?_eq_some_iff.mp hc).1
      refine ⟨m + 1, hm, ?_⟩
      rw [new_effects_of_trace ht]
      have htake : (bootstrap_chunks k s.glasgow_config.bitstream_size
          s.glasgow_config.bitstream_size k.I2C_ADDR_ICE_MEM 0).take (m + 1) =
          (bootstrap_chunks k s.glasgow_config.bitstream_size
            s.glasgow_config.bitstream_size k.I2C_ADDR_ICE_MEM 0).take m ++ [c] := by
        rw [List.take_succ, hc]
        rfl
      rw [htake]
      have e5 : is_i2c (boot_read c) = true := rfl
      simp only [List.filter_append, List.filter_cons, List.filter_nil, e1, e2, e4, e5,
        filter_i2c_boot_chunks, Bool.false_eq_true, if_false, if_true, List.nil_append,
        List.append_nil, hl, List.map_append, List.map_cons, List.map_nil]
  · have h0 : s.glasgow_config.bitstream_size = 0 := by omega
    refine ⟨0, Nat.zero_le _, ?_⟩
    rw [bootstrap_of_no_bitstream env k s h0]
    simp [new_effects]

/-! ## The dispatcher as a lookup -/

/-- The dispatcher is the if-chain over `arms`, after the check of `bmRequestType`. -/
theorem handle_pending_usb_setup_eq_first_match (env : Env) (k : Consts) (req : Setup)
    (s : State) :
    handle_pending_usb_setup env k req s =
      if req.bmRequestType ≠ (USB_RECIP_DEVICE ||| USB_TYPE_VENDOR ||| USB_DIR_IN) ∧
         req.bmRequestType ≠ (USB_RECIP_DEVICE ||| USB_TYPE_VENDOR ||| USB_DIR_OUT) then
        stall_ep0_return s
      else first_match (arms env k req s) (stall_ep0_return s) := by
  unfold handle_pending_usb_setup arms
  simp only [first_match, decide_eq_true_eq]

/-- An arm whose condition holds is the arm that the flat lookup names. -/
theorem lookup_arm_of_guard (env : Env) (k : Consts) (req : Setup) (s : State) (i : Nat)
    (h : ((arms env k req s).map Prod.fst)[i]? = some true) :
    lookup_arm req.bRequest req.wIndex = some i := by
  have hi : i < 17 := by
    have := (List.getElem?_eq_some_iff.mp h).1
    simpa [arms] using this
  interval_cases i <;>
    simp only [arms, List.map_cons, List.map_nil, List.getElem?_cons_succ,
      List.getElem?_cons_zero, Option.some.injEq, decide_eq_true_eq] at h <;>
    first
    | (simp [lookup_arm, h, USB_REQ_IO_VOLT, USB_REQ_LIBFX2_PAGE_SIZE,
        USB_REQ_CYPRESS_EEPROM_DB, USB_REQ_EEPROM, USB_REQ_REGISTER, USB_REQ_STATUS,
        USB_REQ_FPGA_CFG, USB_REQ_BITSTREAM_ID, USB_REQ_ALERT_VOLT, USB_REQ_SENSE_VOLT,
        USB_REQ_POLL_ALERT, USB_REQ_IOBUF_ENABLE, USB_REQ_LIMIT_VOLT, USB_REQ_PULL,
        USB_REQ_TEST_LEDS, USB_REQ_API_LEVEL, USB_REQ_GET_MS_DESCRIPTOR,
        USB_DESC_MS_EXTENDED_COMPAT_ID, USB_DESC_MS_EXTENDED_PROPERTIES]
       done)
    | (rcases h with h | h <;>
       simp [lookup_arm, h, USB_REQ_IO_VOLT, USB_REQ_LIBFX2_PAGE_SIZE,
        USB_REQ_CYPRESS_EEPROM_DB, USB_REQ_EEPROM, USB_REQ_REGISTER, USB_REQ_STATUS,
        USB_REQ_FPGA_CFG, USB_REQ_BITSTREAM_ID, USB_REQ_ALERT_VOLT, USB_REQ_SENSE_VOLT,
        USB_REQ_POLL_ALERT, USB_REQ_IOBUF_ENABLE, USB_REQ_LIMIT_VOLT, USB_REQ_PULL,
        USB_REQ_TEST_LEDS, USB_REQ_API_LEVEL, USB_REQ_GET_MS_DESCRIPTOR,
        USB_DESC_MS_EXTENDED_COMPAT_ID, USB_DESC_MS_EXTENDED_PROPERTIES])

theorem first_match_none (l : List (Bool × State)) (d : State)
    (h : ∀ j : Nat, (l.map Prod.fst)[j]? ≠ some true) : first_match l d = d := by
  induction l with
  | nil => rfl
  | cons a l ih =>
    obtain ⟨g, t⟩ := a
    have hg : g = false := by
      cases g
      · rfl
      · exact absurd (by simp) (h 0)
    subst hg
    simp only [first_match, Bool.false_eq_true, if_false]
    exact ih (fun j hj => h (j + 1) (by simpa using hj))

/-- When only the arm at position `i` can have a true condition, the if-chain is the lookup
of that arm. -/
theorem first_match_unique (l : List (Bool × State)) (d : State) (i : Nat)
    (h : ∀ j, (l.map Prod.fst)[j]? = some true → j = i) :
    first_match l d = arm_at l i d := by
  induction l generalizing i with
  | nil => rfl
  | cons a l ih =>
    obtain ⟨g, t⟩ := a
    cases g
    · simp only [first_match, Bool.false_eq_true, if_false]
      cases i with
      | zero =>
        simp only [arm_at, List.getElem?_cons_zero, Bool.false_eq_true, if_false]
        exact first_match_none l d (fun j hj => by
          have := h (j + 1) (by simpa using hj)
          omega)
      | succ n =>
        simp only [arm_at, List.getElem?_cons_succ]
        exact ih n (fun j hj => by
          have := h (j + 1) (by simpa using hj)
          omega)
    · have h0 : 0 = i := h 0 (by simp)
      subst h0
      simp [first_match, arm_at]

/-- The if-chain over arms with pairwise disjoint conditions does not depend on the order of
the arms. -/
theorem first_match_perm {l1 l2 : List (Bool × State)} (d : State) (hp : l1.Perm l2)
    (hd : disjoint_arms l1) : first_match l1 d = first_match l2 d := by
  induction hp with
  | nil => rfl
  | cons a _ ih =>
    obtain ⟨g, t⟩ := a
    simp only [first_match]
    rw [ih (List.Pairwise.of_cons hd)]
  | swap a b l =>
    obtain ⟨g, t⟩ := a
    obtain ⟨g2, t2⟩ := b
    have hne : ¬ (g2 = true ∧ g = true) := by
      have := (List.pairwise_cons.mp hd).1 (g, t) (List.mem_cons_self _ _)
      simpa using this
    cases g <;> cases g2 <;> simp [first_match] at hne ⊢
  | trans h1 _ ih1 ih2 =>
    rw [ih1 hd]
    exact ih2 (h1.pairwise hd (fun hab hba => hab ⟨hba.2, hba.1⟩))

theorem arms_disjoint (env : Env) (k : Consts) (req : Setup) (s : State) :
    disjoint_arms (arms env k req s) := by
  unfold disjoint_arms
  rw [List.pairwise_iff_getElem]
  intro i j hi hj hij hboth
  have h1 := lookup_arm_of_guard env k req s i (by
    rw [List.getElem?_map, List.getElem?_eq_getElem hi]
    simp [hboth.1])
  have h2 := lookup_arm_of_guard env k req s j (by
    rw [List.getElem?_map, List.getElem?_eq_getElem hj]
    simp [hboth.2])
  rw [h1] at h2
  cases h2
  omega

/-- The dispatcher is the flat lookup. -/
theorem handle_pending_usb_setup_eq_flat_dispatch (env : Env) (k : Consts) (req : Setup)
    (s : State) : handle_pending_usb_setup env k req s = flat_dispatch env k req s := by
  rw [handle_pending_usb_setup_eq_first_match]
  unfold flat_dispatch
  split_ifs with htype
  · rfl
  · cases hl : lookup_arm req.bRequest req.wIndex with
    | none =>
      exact first_match_none _ _ (fun j hj => by
        have := lookup_arm_of_guard env k req s j hj
        rw [hl] at this
        cases this)
    | some i =>
      exact first_match_unique _ _ i (fun j hj => by
        have := lookup_arm_of_guard env k req s j hj
        rw [hl] at this
        cases this
        rfl)

/-- Apart from the Microsoft descriptor code, the flat lookup does not look at `wIndex`. -/
theorem lookup_arm_wIndex (b w1 w2 : Nat) (h : b ≠ USB_REQ_GET_MS_DESCRIPTOR ∨ w1 = w2) :
    lookup_arm b w1 = lookup_arm b w2 := by
  rcases h with h | h
  · simp [lookup_arm, h]
  · rw [h]

/-! ## The flag is never set by the dispatcher -/

theorem never_sets_flag_clear (s : State) : never_sets_flag s (clear_pending_setup s) :=
  ⟨[Effect.pending_setup false], rfl, by simp⟩

/-- A later state whose further effects do not set the flag. -/
theorem never_sets_flag_of {s t u : State} (h : never_sets_flag s t)
    (ht : ∃ l, u.trace = t.trace ++ l ∧ Effect.pending_setup true ∉ l) :
    never_sets_flag s u := by
  obtain ⟨l1, h1, hn1⟩ := h
  obtain ⟨l2, h2, hn2⟩ := ht
  refine ⟨l1 ++ l2, by rw [h2, h1, List.append_assoc], ?_⟩
  rw [List.mem_append]
  exact fun hm => hm.elim hn1 hn2

theorem never_sets_flag_stall {s t : State} (h : never_sets_flag s t) :
    never_sets_flag s (stall_ep0_return t) :=
  never_sets_flag_of h ⟨[Effect.pending_setup false, Effect.STALL_EP0], by
    simp [stall_ep0_return, clear_pending_setup, emit], by simp⟩

theorem never_sets_flag_latch {s t : State} (k : Consts) (bit : Nat)
    (h : never_sets_flag s t) : never_sets_flag s (latch_status_bit k bit t) := by
  refine never_sets_flag_of h ⟨_, latch_status_bit_latch_effects k bit t, ?_⟩
  unfold latch_effects
  split_ifs <;> simp

theorem never_sets_flag_reset {s t : State} (k : Consts) (bit : Nat)
    (h : never_sets_flag s t) : never_sets_flag s (reset_status_bit k bit t).2 := by
  unfold reset_status_bit
  split_ifs
  · refine never_sets_flag_of h
      ⟨Effect.status (t.status &&& (0xFF ^^^ bit)) ::
        (if t.test_leds then []
         else [Effect.IO_LED_ERR
                (decide ((t.status &&& (0xFF ^^^ bit)) &&& (ST_ERROR ||| ST_ALERT) ≠ 0))]),
        ?_, ?_⟩
    · rw [update_err_led_trace]
      simp [emit]
    · split_ifs <;> simp
  · exact h

theorem never_sets_flag_eeprom_loop (env : Env) (dir_in : Bool) (chip page_size timeout : Nat)
    (fuel arg_addr arg_len : Nat) {s t : State} (h : never_sets_flag s t) :
    never_sets_flag s
      (eeprom_loop env dir_in chip page_size timeout fuel arg_addr arg_len t) := by
  induction fuel generalizing arg_addr arg_len t with
  | zero => exact h
  | succ n ih =>
    unfold eeprom_loop
    by_cases hl : arg_len > 0
    · simp only [hl, if_true]
      generalize (if arg_len < 64 then arg_len else 64) = c
      cases dir_in
      · simp only [Bool.false_eq_true, if_false]
        have h1 : never_sets_flag s
            (call env (.eeprom_write chip arg_addr c true page_size timeout)
              (wait_EP0_data env (emit (.SETUP_EP0_BUF 0) t))).2 :=
          never_sets_flag_of h ⟨_, by simp [call, wait_EP0_data, emit]; rfl, by simp⟩
        split
        · exact never_sets_flag_stall h1
        · exact ih _ _ h1
      · simp only [if_true]
        have h1 : never_sets_flag s
            (call_into_EP0 env (.eeprom_read chip arg_addr c true) c (wait_EP0 t)).2 :=
          never_sets_flag_of h ⟨_, by simp [call_into_EP0, wait_EP0, emit]; rfl, by simp⟩
        split
        · exact never_sets_flag_stall h1
        · exact ih _ _ (never_sets_flag_of h1 ⟨[Effect.SETUP_EP0_BUF c], rfl, by simp⟩)
    · simp only [hl, if_false]
      exact h

theorem never_sets_flag_fpga_cfg_loop (env : Env) (fuel arg_len : Nat) {s t : State}
    (h : never_sets_flag s t) : never_sets_flag s (fpga_cfg_loop env fuel arg_len t) := by
  induction fuel generalizing arg_len t with
  | zero => exact h
  | succ n ih =>
    unfold fpga_cfg_loop
    by_cases hl : arg_len > 0
    · simp only [hl, if_true]
      exact ih _ (never_sets_flag_of h ⟨_, by simp [wait_EP0_data, emit]; rfl, by simp⟩)
    · simp only [hl, if_false]
      exact h

/-- No arm of the dispatcher, and not its stall exit, writes `true` to the flag. -/
theorem handle_pending_usb_setup_never_sets_flag (env : Env) (k : Consts) (req : Setup)
    (s : State) : never_sets_flag s (handle_pending_usb_setup env k req s) := by
  have h0 := never_sets_flag_clear s
  apply handle_pending_usb_setup_cases (never_sets_flag s)
  case h_stall => exact never_sets_flag_of h0 ⟨_, by simp [stall_ep0_return, req_page_size, emit]; rfl, by simp⟩
  case h_page_size => exact never_sets_flag_of h0 ⟨_, by simp [stall_ep0_return, req_page_size, emit]; rfl, by simp⟩
  case h_eeprom =>
    unfold req_eeprom
    simp only []
    split
    · exact never_sets_flag_stall h0
    · exact never_sets_flag_eeprom_loop _ _ _ _ _ _ _ _ h0
  case h_register =>
    unfold req_register
    simp only [call, call_into_EP0, wait_EP0, wait_EP0_data]
    split_ifs <;>
      first
      | exact never_sets_flag_stall (never_sets_flag_of h0 ⟨_, by simp [emit]; rfl, by simp⟩)
      | exact never_sets_flag_of h0 ⟨_, by simp [emit]; rfl, by simp⟩
  case h_status =>
    unfold req_status
    simp only [call, wait_EP0]
    exact never_sets_flag_reset k _ (never_sets_flag_of h0 ⟨_, by simp [emit]; rfl, by simp⟩)
  case h_bitstream_id =>
    unfold req_bitstream_id
    simp only [call, call_into_EP0, wait_EP0, wait_EP0_data]
    split_ifs <;>
      first
      | exact never_sets_flag_stall (never_sets_flag_of h0 ⟨_, by simp [emit]; rfl, by simp⟩)
      | exact never_sets_flag_of h0 ⟨_, by simp [emit]; rfl, by simp⟩
  case h_io_volt =>
    unfold req_io_volt
    simp only [call, call_into_EP0, wait_EP0, wait_EP0_data]
    split_ifs <;>
      first
      | exact never_sets_flag_stall (never_sets_flag_of h0 ⟨_, by simp [emit]; rfl, by simp⟩)
      | exact never_sets_flag_latch k _ (never_sets_flag_of h0 ⟨_, by simp [emit]; rfl, by simp⟩)
      | exact never_sets_flag_of h0 ⟨_, by simp [emit]; rfl, by simp⟩
  case h_sense_volt =>
    unfold req_sense_volt
    simp only [call, call_into_EP0, wait_EP0, wait_EP0_data]
    split_ifs <;>
      first
      | exact never_sets_flag_stall (never_sets_flag_of h0 ⟨_, by simp [emit]; rfl, by simp⟩)
      | exact never_sets_flag_of h0 ⟨_, by simp [emit]; rfl, by simp⟩
  case h_alert_volt =>
    unfold req_alert_volt
    simp only [call, call_into_EP0, wait_EP0, wait_EP0_data]
    split_ifs <;>
      first
      | exact never_sets_flag_stall (never_sets_flag_of h0 ⟨_, by simp [emit]; rfl, by simp⟩)
      | exact never_sets_flag_latch k _ (never_sets_flag_of h0 ⟨_, by simp [emit]; rfl, by simp⟩)
      | exact never_sets_flag_of h0 ⟨_, by simp [emit]; rfl, by simp⟩
  case h_poll_alert =>
    unfold req_poll_alert
    simp only [call_into_EP0, wait_EP0]
    split_ifs <;>
      first
      | exact never_sets_flag_stall (never_sets_flag_of h0 ⟨_, by simp [emit]; rfl, by simp⟩)
      | exact never_sets_flag_reset k _ (never_sets_flag_of h0 ⟨_, by simp [emit]; rfl, by simp⟩)
  case h_iobuf_enable =>
    unfold req_iobuf_enable
    simp only [wait_EP0]
    exact never_sets_flag_of h0 ⟨_, by simp [emit]; rfl, by simp⟩
  case h_limit_volt =>
    unfold req_limit_volt
    simp only [call, call_into_EP0, wait_EP0, wait_EP0_data]
    split_ifs <;>
      first
      | exact never_sets_flag_stall (never_sets_flag_of h0 ⟨_, by simp [emit]; rfl, by simp⟩)
      | exact never_sets_flag_latch k _ (never_sets_flag_of h0 ⟨_, by simp [emit]; rfl, by simp⟩)
      | exact never_sets_flag_of h0 ⟨_, by simp [emit]; rfl, by simp⟩
  case h_pull =>
    unfold req_pull
    simp only [call, call_into_EP0, wait_EP0, wait_EP0_data]
    split_ifs <;>
      first
      | exact never_sets_flag_stall (never_sets_flag_of h0 ⟨_, by simp [emit]; rfl, by simp⟩)
      | exact never_sets_flag_latch k _ (never_sets_flag_of h0 ⟨_, by simp [emit]; rfl, by simp⟩)
      | exact never_sets_flag_of h0 ⟨_, by simp [emit]; rfl, by simp⟩
  case h_test_leds =>
    unfold req_test_leds
    simp only [wait_EP0]
    exact never_sets_flag_of h0 ⟨_, by simp [emit]; rfl, by simp⟩
  case h_api_level =>
    unfold req_api_level
    simp only [wait_EP0]
    exact never_sets_flag_of h0 ⟨_, by simp [emit]; rfl, by simp⟩
  case h_ms_compat =>
    unfold req_ms_descriptor
    simp only [wait_EP0]
    exact never_sets_flag_of h0 ⟨_, by simp [emit]; rfl, by simp⟩
  case h_ms_props =>
    unfold req_ms_descriptor
    simp only [wait_EP0]
    exact never_sets_flag_of h0 ⟨_, by simp [emit]; rfl, by simp⟩
  case h_fpga_cfg =>
    intro _
    unfold req_fpga_cfg
    simp only []
    have h1 : never_sets_flag s
        (if req.wIndex = 0 then
          emit .fpga_reset
            { clear_pending_setup s with glasgow_config :=
                { (clear_pending_setup s).glasgow_config with
                  bitstream_id := List.replicate k.CONFIG_SIZE_BITSTREAM_ID 0 } }
        else clear_pending_setup s) := by
      split_ifs
      · exact never_sets_flag_of h0 ⟨_, by simp [emit]; rfl, by simp⟩
      · exact h0
    have h2 := never_sets_flag_fpga_cfg_loop env req.wLength req.wLength h1
    exact never_sets_flag_of h2 ⟨[], by simp, by simp⟩


/-- The dispatcher does not read the flag: its result is the same whatever value the flag
has when it is called. -/
theorem handle_pending_usb_setup_flag_irrelevant (env : Env) (k : Consts) (req : Setup)
    (s : State) (b : Bool) :
    handle_pending_usb_setup env k req { s with pending_setup := b } =
      handle_pending_usb_setup env k req s := by
  rfl

/-! # The claims -/

/-! ## Malformed request types (C1) -/

/-- C1, as stated, fails: a SETUP packet whose bmRequestType is not a device-directed vendor
request is stalled, but the pending-SETUP flag does not keep its prior value; the stall exit
clears it. -/
theorem C1_pending_flag_not_preserved :
    ¬ (∀ (env : Env) (k : Consts) (req : Setup) (s : State),
        req.bmRequestType ≠ (USB_RECIP_DEVICE ||| USB_TYPE_VENDOR ||| USB_DIR_IN) →
        req.bmRequestType ≠ (USB_RECIP_DEVICE ||| USB_TYPE_VENDOR ||| USB_DIR_OUT) →
        (handle_pending_usb_setup env k req s).status = s.status ∧
        (handle_pending_usb_setup env k req s).glasgow_config = s.glasgow_config ∧
        (handle_pending_usb_setup env k req s).bitstream_idx = s.bitstream_idx ∧
        (handle_pending_usb_setup env k req s).usb_alt_setting = s.usb_alt_setting ∧
        (handle_pending_usb_setup env k req s).test_leds = s.test_leds ∧
        (handle_pending_usb_setup env k req s).pending_setup = s.pending_setup) := by
  intro h
  have h1 := (h sample_env sample_consts ⟨0x00, 0x12, 0, 0, 1⟩ sample_state
    (by decide) (by decide)).2.2.2.2.2
  revert h1
  decide

/-- C1, amended: for every SETUP packet whose bmRequestType is neither device/vendor/IN nor
device/vendor/OUT and every prior state, the dispatcher stalls; the state afterwards is the
prior state with the pending-SETUP flag cleared, and the only effects are the clearing of
that flag and the stall, so the status register, configuration record, bitstream index,
alt-setting table and test-mode flag are unchanged and no bus or FPGA operation is issued. -/
theorem C1_malformed_request_type_stalls (env : Env) (k : Consts) (req : Setup) (s : State)
    (hin : req.bmRequestType ≠ (USB_RECIP_DEVICE ||| USB_TYPE_VENDOR ||| USB_DIR_IN))
    (hout : req.bmRequestType ≠ (USB_RECIP_DEVICE ||| USB_TYPE_VENDOR ||| USB_DIR_OUT)) :
    handle_pending_usb_setup env k req s =
      { s with pending_setup := false,
               trace := s.trace ++ [Effect.pending_setup false, Effect.STALL_EP0] } ∧
    (handle_pending_usb_setup env k req s).status = s.status ∧
    (handle_pending_usb_setup env k req s).glasgow_config = s.glasgow_config ∧
    (handle_pending_usb_setup env k req s).bitstream_idx = s.bitstream_idx ∧
    (handle_pending_usb_setup env k req s).usb_alt_setting = s.usb_alt_setting ∧
    (handle_pending_usb_setup env k req s).test_leds = s.test_leds ∧
    (handle_pending_usb_setup env k req s).pending_setup = false ∧
    new_effects s (handle_pending_usb_setup env k req s) =
      [Effect.pending_setup false, Effect.STALL_EP0] := by
  have h : handle_pending_usb_setup env k req s = stall_ep0_return s := by
    unfold handle_pending_usb_setup
    simp only [if_pos (And.intro hin hout)]
  rw [h]
  simp [stall_ep0_return, clear_pending_setup, emit, new_effects]

/-- C1, amended, at a standard (non-vendor) request in the sample state. -/
theorem C1_malformed_request_type_stalls_witness :
    (0x00 : Nat) ≠ (USB_RECIP_DEVICE ||| USB_TYPE_VENDOR ||| USB_DIR_IN) ∧
    (handle_pending_usb_setup sample_env sample_consts ⟨0x00, 0x12, 0, 0, 1⟩
      sample_state).status = 1 ∧
    new_effects sample_state
      (handle_pending_usb_setup sample_env sample_consts ⟨0x00, 0x12, 0, 0, 1⟩ sample_state) =
      [Effect.pending_setup false, Effect.STALL_EP0] :=
  have h := C1_malformed_request_type_stalls sample_env sample_consts ⟨0x00, 0x12, 0, 0, 1⟩
    sample_state (by decide) (by decide)
  ⟨by decide, h.2.1, h.2.2.2.2.2.2.2⟩


/-! ## Bitstream chunk index (C2, C3) -/

/-- C2, as stated, fails: an OUT bitstream chunk request whose wIndex is neither 0 nor
bitstream_idx + 1 is not silently ignored; it falls through every arm of the dispatcher and
is stalled. -/
theorem C2_out_of_order_chunk_is_stalled :
    ¬ (∀ (env : Env) (k : Consts) (req : Setup) (s : State),
        req.bmRequestType = (USB_RECIP_DEVICE ||| USB_TYPE_VENDOR ||| USB_DIR_OUT) →
        req.bRequest = USB_REQ_FPGA_CFG →
        req.wIndex ≠ 0 → req.wIndex ≠ (s.bitstream_idx + 1) % 65536 →
        Effect.STALL_EP0 ∉ new_effects s (handle_pending_usb_setup env k req s) ∧
        (handle_pending_usb_setup env k req s).bitstream_idx = s.bitstream_idx ∧
        (handle_pending_usb_setup env k req s).glasgow_config.bitstream_id =
          s.glasgow_config.bitstream_id ∧
        Effect.fpga_reset ∉ new_effects s (handle_pending_usb_setup env k req s) ∧
        ∀ n, Effect.fpga_load n ∉ new_effects s (handle_pending_usb_setup env k req s)) := by
  intro h
  have h1 := (h sample_env sample_consts ⟨0x40, 0x11, 0, 5, 64⟩ sample_state
    (by decide) (by decide) (by decide) (by decide)).1
  revert h1
  decide

/-- C2, amended: for every OUT bitstream chunk request whose wIndex is neither 0 nor
bitstream_idx + 1 (16-bit), the dispatcher stalls the request; the state afterwards is the
prior state with the pending-SETUP flag cleared, so bitstream_idx and the stored bitstream
id are unchanged, and the only effects are the clearing of the flag and the stall: no FPGA
reset or load is issued. -/
theorem C2_out_of_order_chunk (env : Env) (k : Consts) (req : Setup) (s : State)
    (htype : req.bmRequestType = (USB_RECIP_DEVICE ||| USB_TYPE_VENDOR ||| USB_DIR_OUT))
    (hreq : req.bRequest = USB_REQ_FPGA_CFG)
    (h0 : req.wIndex ≠ 0) (hnext : req.wIndex ≠ (s.bitstream_idx + 1) % 65536) :
    handle_pending_usb_setup env k req s =
      { s with pending_setup := false,
               trace := s.trace ++ [Effect.pending_setup false, Effect.STALL_EP0] } ∧
    (handle_pending_usb_setup env k req s).bitstream_idx = s.bitstream_idx ∧
    (handle_pending_usb_setup env k req s).glasgow_config.bitstream_id =
      s.glasgow_config.bitstream_id ∧
    new_effects s (handle_pending_usb_setup env k req s) =
      [Effect.pending_setup false, Effect.STALL_EP0] ∧
    Effect.fpga_reset ∉ new_effects s (handle_pending_usb_setup env k req s) ∧
    ∀ n, Effect.fpga_load n ∉ new_effects s (handle_pending_usb_setup env k req s) := by
  have hidx : fpga_cfg_index_ok req s = false := by
    simp [fpga_cfg_index_ok, h0, hnext]
  have h := handle_pending_usb_setup_of_rejected env k req s htype hreq hidx
  rw [h]
  simp [stall_ep0_return, clear_pending_setup, emit, new_effects]

/-- C2, amended, at chunk index 5 after chunk 7 in the sample state. -/
theorem C2_out_of_order_chunk_witness :
    (5 : Nat) ≠ (sample_state.bitstream_idx + 1) % 65536 ∧
    new_effects sample_state
      (handle_pending_usb_setup sample_env sample_consts ⟨0x40, 0x11, 0, 5, 64⟩ sample_state) =
      [Effect.pending_setup false, Effect.STALL_EP0] :=
  ⟨by decide,
   (C2_out_of_order_chunk sample_env sample_consts ⟨0x40, 0x11, 0, 5, 64⟩ sample_state
      (by decide) (by decide) (by decide) (by decide)).2.2.2.1⟩

/-- C3: an OUT bitstream chunk request is accepted (not stalled) exactly when its wIndex is 0
or the last accepted index plus 1 in 16-bit arithmetic; on acceptance bitstream_idx becomes
wIndex, otherwise it is unchanged; an accepted index-0 request zeroes the stored bitstream id
and resets the FPGA before any chunk is loaded, an accepted non-zero index leaves the
configuration record alone and issues no reset; and along any run of requests each accepted
index is 0 or the previously accepted index plus 1, so the indices accepted between two
index-0 requests are 0, 1, 2, ... without gap or repeat. -/
theorem C3_bitstream_chunk_order (env : Env) (k : Consts) :
    (∀ (req : Setup) (s : State),
      req.bmRequestType = (USB_RECIP_DEVICE ||| USB_TYPE_VENDOR ||| USB_DIR_OUT) →
      req.bRequest = USB_REQ_FPGA_CFG →
      (Effect.STALL_EP0 ∉ new_effects s (handle_pending_usb_setup env k req s) ↔
        (req.wIndex = 0 ∨ req.wIndex = (s.bitstream_idx + 1) % 65536)) ∧
      ((req.wIndex = 0 ∨ req.wIndex = (s.bitstream_idx + 1) % 65536) →
        (handle_pending_usb_setup env k req s).bitstream_idx = req.wIndex) ∧
      (¬ (req.wIndex = 0 ∨ req.wIndex = (s.bitstream_idx + 1) % 65536) →
        (handle_pending_usb_setup env k req s).bitstream_idx = s.bitstream_idx) ∧
      (req.wIndex = 0 →
        (handle_pending_usb_setup env k req s).glasgow_config.bitstream_id =
          List.replicate k.CONFIG_SIZE_BITSTREAM_ID 0 ∧
        ∃ l, new_effects s (handle_pending_usb_setup env k req s) =
            [Effect.pending_setup false, Effect.fpga_reset] ++ l ∧
          ∀ e ∈ l, e = Effect.SETUP_EP0_BUF 0 ∨ e = Effect.EP0CS_BUSY ∨
            ∃ n, e = Effect.fpga_load n) ∧
      (req.wIndex ≠ 0 → req.wIndex = (s.bitstream_idx + 1) % 65536 →
        (handle_pending_usb_setup env k req s).glasgow_config = s.glasgow_config ∧
        ∃ l, new_effects s (handle_pending_usb_setup env k req s) =
            [Effect.pending_setup false] ++ l ∧
          ∀ e ∈ l, e = Effect.SETUP_EP0_BUF 0 ∨ e = Effect.EP0CS_BUSY ∨
            ∃ n, e = Effect.fpga_load n)) ∧
    (∀ (reqs : List Setup) (s : State),
      List.Chain (fun a b => b = 0 ∨ b = (a + 1) % 65536) s.bitstream_idx
        (accepted_indices env k reqs s)) := by
  constructor
  · intro req s htype hreq
    by_cases hok : req.wIndex = 0 ∨ req.wIndex = (s.bitstream_idx + 1) % 65536
    · have hacc : fpga_cfg_accepted req s = true := by
        simp [fpga_cfg_accepted, fpga_cfg_index_ok, htype, hreq, hok]
      rw [handle_pending_usb_setup_of_accepted env k req s hacc]
      by_cases h0 : req.wIndex = 0
      · obtain ⟨l, hl, hP⟩ := fpga_cfg_loop_trace env req.wLength req.wLength
          (emit .fpga_reset
            { clear_pending_setup s with glasgow_config :=
                { (clear_pending_setup s).glasgow_config with
                  bitstream_id := List.replicate k.CONFIG_SIZE_BITSTREAM_ID 0 } })
        have ht : (req_fpga_cfg env k req s).trace =
            s.trace ++ ([Effect.pending_setup false, Effect.fpga_reset] ++ l) := by
          simp only [req_fpga_cfg, h0, if_true]
          rw [hl]
          simp [emit, clear_pending_setup]
        have hn := new_effects_of_trace ht
        refine ⟨?_, ?_, ?_, ?_, ?_⟩
        · simp only [hok, iff_true, hn]
          intro hmem
          simp only [List.mem_append, List.mem_cons, List.mem_singleton, List.not_mem_nil,
            or_false, reduceCtorEq, false_or] at hmem
          rcases hP _ hmem with h | h | ⟨n, h⟩ <;> simp at h
        · intro _
          simp [req_fpga_cfg]
        · intro hno
          exact absurd hok hno
        · intro _
          refine ⟨?_, l, hn, hP⟩
          simp [req_fpga_cfg, h0, emit]
        · intro hne
          exact absurd h0 hne
      · obtain ⟨l, hl, hP⟩ := fpga_cfg_loop_trace env req.wLength req.wLength
          (clear_pending_setup s)
        have ht : (req_fpga_cfg env k req s).trace =
            s.trace ++ ([Effect.pending_setup false] ++ l) := by
          simp only [req_fpga_cfg, h0, if_false]
          rw [hl]
          simp [emit, clear_pending_setup]
        have hn := new_effects_of_trace ht
        refine ⟨?_, ?_, ?_, ?_, ?_⟩
        · simp only [hok, iff_true, hn]
          intro hmem
          simp only [List.mem_append, List.mem_cons, List.mem_singleton, List.not_mem_nil,
            or_false, reduceCtorEq, false_or] at hmem
          rcases hP _ hmem with h | h | ⟨n, h⟩ <;> simp at h
        · intro _
          simp [req_fpga_cfg]
        · intro hno
          exact absurd hok hno
        · intro h
          exact absurd h h0
        · intro _ _
          refine ⟨?_, l, hn, hP⟩
          simp [req_fpga_cfg, h0, clear_pending_setup, emit]
    · have hidx : fpga_cfg_index_ok req s = false := by
        simpa [fpga_cfg_index_ok] using hok
      rw [handle_pending_usb_setup_of_rejected env k req s htype hreq hidx]
      refine ⟨?_, ?_, ?_, ?_, ?_⟩
      · simp [hok, stall_ep0_return_new_effects]
      · intro h
        exact absurd h hok
      · intro _
        simp [stall_ep0_return, clear_pending_setup, emit]
      · intro h
        exact absurd (Or.inl h) hok
      · intro _ h
        exact absurd (Or.inr h) hok
  · intro reqs
    induction reqs with
    | nil => intro s; exact List.Chain.nil
    | cons req reqs ih =>
      intro s
      unfold accepted_indices
      by_cases hacc : fpga_cfg_accepted req s = true
      · have hidx : (handle_pending_usb_setup env k req s).bitstream_idx = req.wIndex := by
          rw [handle_pending_usb_setup_of_accepted env k req s hacc]
          simp [req_fpga_cfg]
        have hrel : req.wIndex = 0 ∨ req.wIndex = (s.bitstream_idx + 1) % 65536 := by
          simp only [fpga_cfg_accepted, fpga_cfg_index_ok, decide_eq_true_eq,
            Bool.decide_and, Bool.and_eq_true] at hacc
          exact hacc.2.2
        simp only [hacc, if_true, List.singleton_append]
        refine List.Chain.cons hrel ?_
        have := ih (handle_pending_usb_setup env k req s)
        rwa [hidx] at this
      · have hacc2 : fpga_cfg_accepted req s = false := by simpa using hacc
        have hidx := handle_pending_usb_setup_bitstream_idx env k req s hacc2
        simp only [hacc2, Bool.false_eq_true, if_false, List.nil_append]
        have := ih (handle_pending_usb_setup env k req s)
        rwa [hidx] at this

/-- C3 at chunk index 8 after chunk 7 in the sample state: the request is accepted and the
index advances to 8. -/
theorem C3_bitstream_chunk_order_witness :
    ((8 : Nat) = 0 ∨ (8 : Nat) = (sample_state.bitstream_idx + 1) % 65536) ∧
    (handle_pending_usb_setup sample_env sample_consts ⟨0x40, 0x11, 0, 8, 100⟩
      sample_state).bitstream_idx = 8 :=
  ⟨by decide,
   ((C3_bitstream_chunk_order sample_env sample_consts).1 ⟨0x40, 0x11, 0, 8, 100⟩
      sample_state (by decide) (by decide)).2.1 (by decide)⟩

/-! ## Status query (C4, C5) -/

/-- C4: for every prior status byte, a status query (IN, wLength = 1) leaves the status
register equal to its prior value with the error bit cleared: the error bit is 0 afterwards
and every other bit, the alert bit among them, keeps its value. -/
theorem C4_status_query_clears_error_bit (env : Env) (k : Consts) (req : Setup) (s : State)
    (htype : req.bmRequestType = (USB_RECIP_DEVICE ||| USB_TYPE_VENDOR ||| USB_DIR_IN))
    (hreq : req.bRequest = USB_REQ_STATUS) (hlen : req.wLength = 1)
    (hbyte : s.status < 256) :
    (handle_pending_usb_setup env k req s).status = s.status &&& 0xFE ∧
    (handle_pending_usb_setup env k req s).status.testBit 0 = false ∧
    (handle_pending_usb_setup env k req s).status.testBit 2 = s.status.testBit 2 ∧
    ∀ i, i ≠ 0 → (handle_pending_usb_setup env k req s).status.testBit i =
      s.status.testBit i := by
  rw [handle_pending_usb_setup_of_status env k req s htype hreq hlen, req_status_status]
  obtain ⟨h1, h2, h3⟩ := clear_error_bit s.status hbyte
  rw [h1]
  exact ⟨rfl, h2, h3 2 (by decide), h3⟩

/-- C4 in the sample state, whose status byte has the error and alert bits set after an
alert: the query leaves only the alert bit. -/
theorem C4_status_query_clears_error_bit_witness :
    ({ sample_state with status := 5 } : State).status < 256 ∧
    (handle_pending_usb_setup sample_env sample_consts ⟨0xC0, 0x12, 0, 0, 1⟩
      { sample_state with status := 5 }).status = 5 &&& 0xFE :=
  ⟨by decide,
   (C4_status_query_clears_error_bit sample_env sample_consts ⟨0xC0, 0x12, 0, 0, 1⟩
      { sample_state with status := 5 } (by decide) (by decide) (by decide) (by decide)).1⟩

/-- C5: in every state reachable from boot, the byte returned by a status query is the
status register before the read OR'd with the FPGA-ready bit of the live fpga_is_ready()
observation; its error and alert bits are the stored bits before the read (the error bit is
cleared in the register only afterwards), its FPGA-ready bit is set exactly when
fpga_is_ready() is true, and the stored register holds no bit other than error and alert. -/
theorem C5_status_query_reports_live_ready (env : Env) (k : Consts) (req : Setup)
    (s : State) (hreach : Reachable env k s)
    (htype : req.bmRequestType = (USB_RECIP_DEVICE ||| USB_TYPE_VENDOR ||| USB_DIR_IN))
    (hreq : req.bRequest = USB_REQ_STATUS) (hlen : req.wLength = 1) :
    (handle_pending_usb_setup env k req s).EP0BUF 0 =
      s.status |||
        (if env.ok (s.trace ++ [Effect.pending_setup false, Effect.EP0CS_BUSY])
            Effect.fpga_is_ready then ST_FPGA_RDY else 0) ∧
    ((handle_pending_usb_setup env k req s).EP0BUF 0).testBit 0 = s.status.testBit 0 ∧
    ((handle_pending_usb_setup env k req s).EP0BUF 0).testBit 2 = s.status.testBit 2 ∧
    ((handle_pending_usb_setup env k req s).EP0BUF 0).testBit 1 =
      env.ok (s.trace ++ [Effect.pending_setup false, Effect.EP0CS_BUSY])
        Effect.fpga_is_ready ∧
    (∀ i, i ≠ 0 → i ≠ 2 → s.status.testBit i = false) ∧
    (handle_pending_usb_setup env k req s).status.testBit 0 = false ∧
    (new_effects s (handle_pending_usb_setup env k req s)).take 4 =
      [Effect.pending_setup false, Effect.EP0CS_BUSY, Effect.fpga_is_ready,
        Effect.SETUP_EP0_BUF 1] := by
  have hok := reachable_status_ok hreach
  have hlt : s.status < 256 := by
    rcases hok with h | h | h | h <;> rw [h] <;> decide
  rw [handle_pending_usb_setup_of_status env k req s htype hreq hlen, req_status_EP0BUF,
    req_status_status]
  generalize env.ok (s.trace ++ [Effect.pending_setup false, Effect.EP0CS_BUSY])
    Effect.fpga_is_ready = rdy
  refine ⟨rfl, ?_, ?_, ?_, status_only_latched_bits hok, ?_, ?_⟩
  · rcases hok with h | h | h | h <;> rw [h] <;> cases rdy <;> decide
  · rcases hok with h | h | h | h <;> rw [h] <;> cases rdy <;> decide
  · rcases hok with h | h | h | h <;> rw [h] <;> cases rdy <;> decide
  · rw [(clear_error_bit s.status hlt).1]
    exact (clear_error_bit s.status hlt).2.1
  · obtain ⟨l, hl⟩ := req_status_trace env k s
    rw [new_effects_of_trace hl]
    rfl

/-- C5 in the state right after boot with the sample configuration, where every collaborator
succeeds: the returned byte has the FPGA-ready bit set. -/
theorem C5_status_query_reports_live_ready_witness :
    Reachable sample_env sample_consts
      (main_init sample_env sample_consts
        (power_on sample_consts sample_config 0 (fun _ => 0))) ∧
    ((handle_pending_usb_setup sample_env sample_consts ⟨0xC0, 0x12, 0, 0, 1⟩
        (main_init sample_env sample_consts
          (power_on sample_consts sample_config 0 (fun _ => 0)))).EP0BUF 0).testBit 1 =
      true :=
  ⟨Reachable.boot sample_config 0 (fun _ => 0),
   (C5_status_query_reports_live_ready sample_env sample_consts ⟨0xC0, 0x12, 0, 0, 1⟩ _
      (Reachable.boot sample_config 0 (fun _ => 0))
      (by decide) (by decide) (by decide)).2.2.2.1⟩

/-! ## EEPROM selector 3 (C6, C7) -/

/-- C6: for every 16-bit address and length of an EEPROM request with selector 3, the
request is redirected to the on-board memory at address + 0x7000 (the chunk loop runs against
that chip and address) if and only if address + length <= 0x1000 in exact arithmetic;
otherwise, straddling requests included, the request is stalled and no I2C transaction is
issued. -/
theorem C6_selector3_redirection (env : Env) (k : Consts) (req : Setup) (s : State)
    (htype : req.bmRequestType = (USB_RECIP_DEVICE ||| USB_TYPE_VENDOR ||| USB_DIR_IN) ∨
             req.bmRequestType = (USB_RECIP_DEVICE ||| USB_TYPE_VENDOR ||| USB_DIR_OUT))
    (hreq : req.bRequest = USB_REQ_EEPROM) (hsel : req.wIndex = 3)
    (haddr : req.wValue < 65536) (hlen : req.wLength < 65536)
    (hchip : k.I2C_ADDR_FX2_MEM ≠ 0) :
    (eeprom_select k req = (k.I2C_ADDR_FX2_MEM, req.wValue + 0x7000, 6) ↔
      req.wValue + req.wLength ≤ 0x1000) ∧
    (req.wValue + req.wLength ≤ 0x1000 →
      handle_pending_usb_setup env k req s =
        eeprom_loop env (req_dir_in req) k.I2C_ADDR_FX2_MEM 6 255 req.wLength
          (req.wValue + 0x7000) req.wLength (clear_pending_setup s)) ∧
    (¬ req.wValue + req.wLength ≤ 0x1000 →
      eeprom_select k req = (0, req.wValue, 0) ∧
      handle_pending_usb_setup env k req s =
        { s with pending_setup := false,
                 trace := s.trace ++ [Effect.pending_setup false, Effect.pending_setup false,
                   Effect.STALL_EP0] } ∧
      new_effects s (handle_pending_usb_setup env k req s) =
        [Effect.pending_setup false, Effect.pending_setup false, Effect.STALL_EP0] ∧
      ∀ e ∈ new_effects s (handle_pending_usb_setup env k req s), is_i2c e = false) := by
  have hselect := eeprom_select_selector3 k req hreq hsel haddr hlen
  rw [handle_pending_usb_setup_of_eeprom env k req s htype hreq]
  refine ⟨?_, ?_, ?_⟩
  · constructor
    · intro h
      by_contra hw
      rw [hselect, if_neg hw] at h
      simp at h
    · intro hw
      rw [hselect, if_pos hw]
  · intro hw
    unfold req_eeprom
    rw [hselect, if_pos hw]
    simp [hchip]
  · intro hw
    have hsel0 : eeprom_select k req = (0, req.wValue, 0) := by rw [hselect, if_neg hw]
    have hres : req_eeprom env k req s =
        { s with pending_setup := false,
                 trace := s.trace ++ [Effect.pending_setup false, Effect.pending_setup false,
                   Effect.STALL_EP0] } := by
      unfold req_eeprom
      rw [hsel0]
      simp [stall_ep0_return, clear_pending_setup, emit]
    refine ⟨hsel0, hres, ?_, ?_⟩
    · rw [hres]
      simp [new_effects]
    · rw [hres]
      simp [new_effects, is_i2c]

/-- C6 at two read requests in the sample state: address 0x0F00 with length 0x100 is
redirected, address 0x0FFF with length 2 straddles the window and is stalled. -/
theorem C6_selector3_redirection_witness :
    sample_consts.I2C_ADDR_FX2_MEM ≠ 0 ∧
    eeprom_select sample_consts ⟨0xC0, 0x10, 0x0F00, 3, 0x100⟩ = (0x51, 0x7F00, 6) ∧
    new_effects sample_state
      (handle_pending_usb_setup sample_env sample_consts ⟨0xC0, 0x10, 0x0FFF, 3, 2⟩
        sample_state) =
      [Effect.pending_setup false, Effect.pending_setup false, Effect.STALL_EP0] :=
  ⟨by decide,
   (C6_selector3_redirection sample_env sample_consts ⟨0xC0, 0x10, 0x0F00, 3, 0x100⟩
      sample_state (by decide) (by decide) (by decide) (by decide) (by decide)
      (by decide)).1.2 (by decide),
   ((C6_selector3_redirection sample_env sample_consts ⟨0xC0, 0x10, 0x0FFF, 3, 2⟩
      sample_state (by decide) (by decide) (by decide) (by decide) (by decide)
      (by decide)).2.2 (by decide)).2.2.1⟩

/-- C7: for every redirected EEPROM request with selector 3, every I2C transaction issued by
the chunk loop addresses the on-board memory with a chunk that starts at or above 0x7000 and
ends at or below 0x8000: no chunk address wraps around 16 bits or leaves the 4 KiB tail
window. -/
theorem C7_selector3_stays_in_window (env : Env) (k : Consts) (req : Setup) (s : State)
    (htype : req.bmRequestType = (USB_RECIP_DEVICE ||| USB_TYPE_VENDOR ||| USB_DIR_IN) ∨
             req.bmRequestType = (USB_RECIP_DEVICE ||| USB_TYPE_VENDOR ||| USB_DIR_OUT))
    (hreq : req.bRequest = USB_REQ_EEPROM) (hsel : req.wIndex = 3)
    (haddr : req.wValue < 65536) (hlen : req.wLength < 65536)
    (hchip : k.I2C_ADDR_FX2_MEM ≠ 0)
    (hwin : req.wValue + req.wLength ≤ 0x1000) :
    (∀ e ∈ new_effects s (handle_pending_usb_setup env k req s),
      i2c_within k.I2C_ADDR_FX2_MEM 0x7000 0x8000 e) ∧
    (∀ chip a n db,
      Effect.eeprom_read chip a n db ∈ new_effects s (handle_pending_usb_setup env k req s) →
      chip = k.I2C_ADDR_FX2_MEM ∧ 0x7000 ≤ a ∧ a + n ≤ 0x8000) ∧
    (∀ chip a n db page_size timeout,
      Effect.eeprom_write chip a n db page_size timeout ∈
        new_effects s (handle_pending_usb_setup env k req s) →
      chip = k.I2C_ADDR_FX2_MEM ∧ 0x7000 ≤ a ∧ a + n ≤ 0x8000) := by
  have hselect := eeprom_select_selector3 k req hreq hsel haddr hlen
  rw [if_pos hwin] at hselect
  have hall : ∀ e ∈ new_effects s (handle_pending_usb_setup env k req s),
      i2c_within k.I2C_ADDR_FX2_MEM 0x7000 0x8000 e := by
    rw [handle_pending_usb_setup_of_eeprom env k req s htype hreq]
    unfold req_eeprom
    rw [hselect]
    simp only [hchip, if_false]
    obtain ⟨l, hl, hP⟩ := eeprom_loop_window env (req_dir_in req) k.I2C_ADDR_FX2_MEM 6 255
      0x7000 0x8000 (by decide) req.wLength (req.wValue + 0x7000) req.wLength
      (clear_pending_setup s) (by omega) (by omega)
    have ht : (eeprom_loop env (req_dir_in req) k.I2C_ADDR_FX2_MEM 6 255 req.wLength
        (req.wValue + 0x7000) req.wLength (clear_pending_setup s)).trace =
        s.trace ++ ([Effect.pending_setup false] ++ l) := by
      rw [hl]
      simp [clear_pending_setup, emit]
    rw [new_effects_of_trace ht]
    intro e he
    simp only [List.mem_append, List.mem_singleton] at he
    rcases he with he | he
    · subst he; simp [i2c_within]
    · exact hP e he
  refine ⟨hall, ?_, ?_⟩
  · intro chip a n db hmem
    simpa [i2c_within] using hall _ hmem
  · intro chip a n db page_size timeout hmem
    simpa [i2c_within] using hall _ hmem

/-- C7 at a 0x100-byte write to address 0x0F00 through selector 3 in the sample state. -/
theorem C7_selector3_stays_in_window_witness :
    (0x0F00 + 0x100 ≤ 0x1000) ∧
    ∀ e ∈ new_effects sample_state
        (handle_pending_usb_setup sample_env sample_consts ⟨0x40, 0x10, 0x0F00, 3, 0x100⟩
          sample_state),
      i2c_within sample_consts.I2C_ADDR_FX2_MEM 0x7000 0x8000 e :=
  ⟨by decide,
   (C7_selector3_stays_in_window sample_env sample_consts ⟨0x40, 0x10, 0x0F00, 3, 0x100⟩
      sample_state (by decide) (by decide) (by decide) (by decide) (by decide) (by decide)
      (by decide)).1⟩

/-! ## SET_CONFIGURATION (C8) -/

/-- C8, as stated, fails: a configuration value other than 0, 1 and 2 is refused, and then
neither the alt-setting table nor the FPGA pipes are reset. -/
theorem C8_unknown_configuration_resets_nothing :
    ¬ (∀ (config_value : Nat) (s : State),
        (∀ i, i < 4 → (handle_usb_set_configuration config_value s).2.usb_alt_setting i = 0) ∧
        Effect.fpga_pipe_rst 0xf 0 ∈
          new_effects s (handle_usb_set_configuration config_value s).2) := by
  intro h
  have h1 := (h 3 sample_state).1 0 (by decide)
  revert h1
  decide

/-- C8, amended: for every config_value in 0, 1, 2 and every prior state,
handle_usb_set_configuration succeeds, sets all four usb_alt_setting entries to 0, records
the configuration value, and asserts the FPGA pipe reset for all four pipes (after
reconfiguring the FIFOs for the values 1 and 2); for every other config_value it returns
false and changes nothing. -/
theorem C8_set_configuration_resets (config_value : Nat) (s : State) :
    ((config_value = 0 ∨ config_value = 1 ∨ config_value = 2) →
      (handle_usb_set_configuration config_value s).1 = true ∧
      (∀ i, i < 4 → (handle_usb_set_configuration config_value s).2.usb_alt_setting i = 0) ∧
      (handle_usb_set_configuration config_value s).2.usb_config_value = config_value ∧
      new_effects s (handle_usb_set_configuration config_value s).2 =
        (if config_value = 1 then [Effect.fifo_configure false]
         else if config_value = 2 then [Effect.fifo_configure true] else []) ++
        [Effect.fpga_pipe_rst 0xf 0, Effect.usb_reset_data_toggles 0xff 0xff]) ∧
    (¬ (config_value = 0 ∨ config_value = 1 ∨ config_value = 2) →
      handle_usb_set_configuration config_value s = (false, s)) := by
  constructor
  · intro hv
    unfold handle_usb_set_configuration
    rw [if_pos hv]
    refine ⟨rfl, ?_, ?_, ?_⟩
    · intro i hi
      have hcases : i = 0 ∨ i = 1 ∨ i = 2 ∨ i = 3 := by omega
      rcases hcases with h | h | h | h <;> subst h <;> simp [emit, Function.update]
    · simp [emit]
    · rcases hv with h | h | h <;> subst h <;> simp [emit, new_effects]
  · intro hv
    unfold handle_usb_set_configuration
    rw [if_neg hv]

/-- C8, amended, at configuration value 1 in the sample state, whose interface 0 is enabled. -/
theorem C8_set_configuration_resets_witness :
    sample_state.usb_alt_setting 0 = 1 ∧
    ∀ i, i < 4 → (handle_usb_set_configuration 1 sample_state).2.usb_alt_setting i = 0 :=
  ⟨by decide, ((C8_set_configuration_resets 1 sample_state).1 (by decide)).2.1⟩

/-! ## Voltage limit set request (C9) -/

/-- C9: a voltage-limit set request (OUT, wLength = 2) is never stalled and always arms its
data stage.  If iobuf_set_voltage_limit fails, the error bit is latched and no persistence
write is attempted.  If it succeeds, exactly one eeprom_write of the voltage_limit field to
the configuration store follows; when that write succeeds the status register is unchanged,
and when it fails the error bit is latched while the transfer still completes. -/
theorem C9_limit_volt_set (env : Env) (k : Consts) (req : Setup) (s : State)
    (htype : req.bmRequestType = (USB_RECIP_DEVICE ||| USB_TYPE_VENDOR ||| USB_DIR_OUT))
    (hreq : req.bRequest = USB_REQ_LIMIT_VOLT) (hlen : req.wLength = 2) :
    ∃ millivolts,
      Effect.STALL_EP0 ∉ new_effects s (handle_pending_usb_setup env k req s) ∧
      (new_effects s (handle_pending_usb_setup env k req s)).take 4 =
        [Effect.pending_setup false, Effect.SETUP_EP0_BUF 2, Effect.EP0CS_BUSY,
          Effect.iobuf_set_voltage_limit (req.wIndex % 256) millivolts] ∧
      (env.ok (s.trace ++ [Effect.pending_setup false, Effect.SETUP_EP0_BUF 2,
            Effect.EP0CS_BUSY])
          (Effect.iobuf_set_voltage_limit (req.wIndex % 256) millivolts) = false →
        (handle_pending_usb_setup env k req s).status = s.status ||| ST_ERROR ∧
        (new_effects s (handle_pending_usb_setup env k req s)).filter is_i2c = []) ∧
      (env.ok (s.trace ++ [Effect.pending_setup false, Effect.SETUP_EP0_BUF 2,
            Effect.EP0CS_BUSY])
          (Effect.iobuf_set_voltage_limit (req.wIndex % 256) millivolts) = true →
        (new_effects s (handle_pending_usb_setup env k req s)).filter is_i2c =
          [Effect.eeprom_write k.I2C_ADDR_FX2_MEM (8 + 4 + k.offsetof_voltage_limit)
            k.sizeof_voltage_limit true 8 255] ∧
        (env.ok (s.trace ++ [Effect.pending_setup false, Effect.SETUP_EP0_BUF 2,
              Effect.EP0CS_BUSY,
              Effect.iobuf_set_voltage_limit (req.wIndex % 256) millivolts])
            (Effect.eeprom_write k.I2C_ADDR_FX2_MEM (8 + 4 + k.offsetof_voltage_limit)
              k.sizeof_voltage_limit true 8 255) = true →
          (handle_pending_usb_setup env k req s).status = s.status ∧
          new_effects s (handle_pending_usb_setup env k req s) =
            [Effect.pending_setup false, Effect.SETUP_EP0_BUF 2, Effect.EP0CS_BUSY,
              Effect.iobuf_set_voltage_limit (req.wIndex % 256) millivolts,
              Effect.eeprom_write k.I2C_ADDR_FX2_MEM (8 + 4 + k.offsetof_voltage_limit)
                k.sizeof_voltage_limit true 8 255]) ∧
        (env.ok (s.trace ++ [Effect.pending_setup false, Effect.SETUP_EP0_BUF 2,
              Effect.EP0CS_BUSY,
              Effect.iobuf_set_voltage_limit (req.wIndex % 256) millivolts])
            (Effect.eeprom_write k.I2C_ADDR_FX2_MEM (8 + 4 + k.offsetof_voltage_limit)
              k.sizeof_voltage_limit true 8 255) = false →
          (handle_pending_usb_setup env k req s).status = s.status ||| ST_ERROR)) := by
  rw [handle_pending_usb_setup_of_limit_volt env k req s htype hreq hlen]
  refine ⟨EP0BUF_word (wait_EP0_data env (emit (Effect.SETUP_EP0_BUF 2)
    (clear_pending_setup s))) 0, ?_⟩
  have hd := req_dir_in_of_out req htype
  by_cases hset : env.ok (s.trace ++ [Effect.pending_setup false, Effect.SETUP_EP0_BUF 2,
      Effect.EP0CS_BUSY]) (Effect.iobuf_set_voltage_limit (req.wIndex % 256)
        (EP0BUF_word (wait_EP0_data env (emit (Effect.SETUP_EP0_BUF 2)
          (clear_pending_setup s))) 0)) = true
  · by_cases hwr : env.ok (s.trace ++ [Effect.pending_setup false, Effect.SETUP_EP0_BUF 2,
        Effect.EP0CS_BUSY, Effect.iobuf_set_voltage_limit (req.wIndex % 256)
          (EP0BUF_word (wait_EP0_data env (emit (Effect.SETUP_EP0_BUF 2)
            (clear_pending_setup s))) 0)])
        (Effect.eeprom_write k.I2C_ADDR_FX2_MEM (8 + 4 + k.offsetof_voltage_limit)
          k.sizeof_voltage_limit true 8 255) = true
    · simp only [wait_EP0_data, emit, clear_pending_setup, List.append_assoc,
        List.cons_append, List.nil_append, List.singleton_append] at hset hwr
      simp [req_limit_volt, hd, call, wait_EP0_data, emit, clear_pending_setup, new_effects,
        hset, hwr, is_i2c, List.filter]
    · simp only [wait_EP0_data, emit, clear_pending_setup, List.append_assoc,
        List.cons_append, List.nil_append, List.singleton_append] at hset hwr
      simp [req_limit_volt, hd, call, wait_EP0_data, emit, clear_pending_setup, new_effects,
        hset, hwr, is_i2c, List.filter, latch_status_bit_trace]
  · simp only [wait_EP0_data, emit, clear_pending_setup, List.append_assoc,
      List.cons_append, List.nil_append, List.singleton_append] at hset
    simp [req_limit_volt, hd, call, wait_EP0_data, emit, clear_pending_setup, new_effects,
      hset, is_i2c, List.filter, latch_status_bit_trace]

/-- C9 in the sample state with collaborators that all fail: the error bit is latched and
the request is not stalled. -/
theorem C9_limit_volt_set_witness :
    ∃ millivolts,
      Effect.STALL_EP0 ∉ new_effects { sample_state with status := 0 }
        (handle_pending_usb_setup failing_env sample_consts ⟨0x40, 0x1A, 0, 1, 2⟩
          { sample_state with status := 0 }) ∧
      (new_effects { sample_state with status := 0 }
        (handle_pending_usb_setup failing_env sample_consts ⟨0x40, 0x1A, 0, 1, 2⟩
          { sample_state with status := 0 })).take 4 =
        [Effect.pending_setup false, Effect.SETUP_EP0_BUF 2, Effect.EP0CS_BUSY,
          Effect.iobuf_set_voltage_limit 1 millivolts] ∧
      (handle_pending_usb_setup failing_env sample_consts ⟨0x40, 0x1A, 0, 1, 2⟩
        { sample_state with status := 0 }).status = 1 := by
  obtain ⟨mv, h1, h2, h3, -⟩ := C9_limit_volt_set failing_env sample_consts
    ⟨0x40, 0x1A, 0, 1, 2⟩ { sample_state with status := 0 } (by decide) (by decide)
    (by decide)
  exact ⟨mv, h1, h2, (h3 rfl).1⟩

/-! ## Alert handler (C10) -/

/-- C10, as stated, fails: after the alert interrupt has fired and handle_pending_alert has
run with every bus call succeeding, the alert status bit is not cleared; the handler latches
it and nothing on this path clears it. -/
theorem C10_alert_bit_stays_latched :
    ¬ (∀ (env : Env) (k : Consts) (s : State),
        s.armed_alert = false → (∀ history e, env.ok history e = true) →
        (∃ mask, Effect.iobuf_set_voltage mask 0 ∈
          new_effects s (handle_pending_alert env k s)) ∧
        (handle_pending_alert env k s).status.testBit 2 = false ∧
        (handle_pending_alert env k s).armed_alert = true) := by
  intro h
  have h1 := (h sample_env sample_consts (isr_IE0 sample_state) rfl (fun _ _ => rfl)).2.1
  revert h1
  decide

/-- C10, amended: for every state (in particular one in which the alert interrupt has fired)
and every backend (in particular one whose bus calls all succeed), a run of
handle_pending_alert has exactly these effects in this order: the alert status bit is latched
(and the error LED updated unless test mode is active), the backend selected by the revision
is polled for the port mask, the supplies of those ports are commanded to zero, the alert
source is cleared by a separate call on revision C2 and later only, and the alert interrupt
is re-armed.  Afterwards the alert status bit is set, not cleared, and the interrupt is
armed. -/
theorem C10_alert_handler_order (env : Env) (k : Consts) (s : State) :
    new_effects s (handle_pending_alert env k s) =
      Effect.status (s.status ||| ST_ALERT) ::
        ((if s.test_leds then []
          else [Effect.IO_LED_ERR
                  (decide ((s.status ||| ST_ALERT) &&& (ST_ERROR ||| ST_ALERT) ≠ 0))]) ++
         (if s.glasgow_config.revision ≥ k.GLASGOW_REV_C2 then
            [Effect.iobuf_poll_alert_ina233,
              Effect.iobuf_set_voltage
                ((env.data (latch_status_bit k ST_ALERT s).trace
                  Effect.iobuf_poll_alert_ina233).getD 0 0 % 256) 0,
              Effect.iobuf_clear_alert_ina233
                ((env.data (latch_status_bit k ST_ALERT s).trace
                  Effect.iobuf_poll_alert_ina233).getD 0 0 % 256),
              Effect.armed_alert true]
          else
            [Effect.iobuf_poll_alert_adc081c false,
              Effect.iobuf_set_voltage
                ((env.data (latch_status_bit k ST_ALERT s).trace
                  (Effect.iobuf_poll_alert_adc081c false)).getD 0 0 % 256) 0,
              Effect.armed_alert true])) ∧
    (handle_pending_alert env k s).status = s.status ||| ST_ALERT ∧
    (handle_pending_alert env k s).status.testBit 2 = true ∧
    (handle_pending_alert env k s).armed_alert = true := by
  have hcfg : (latch_status_bit k ST_ALERT s).glasgow_config = s.glasgow_config := by
    unfold latch_status_bit update_err_led
    split_ifs <;> rfl
  have hbit : (s.status ||| ST_ALERT).testBit 2 = true := by
    rw [Nat.testBit_or]
    have : ST_ALERT.testBit 2 = true := by decide
    simp [this]
  refine ⟨?_, ?_, ?_, ?_⟩
  · unfold handle_pending_alert
    simp only [hcfg, emit, set_armed_alert]
    by_cases hrev : s.glasgow_config.revision ≥ k.GLASGOW_REV_C2
    · simp only [hrev, if_true, new_effects]
      rw [latch_status_bit_trace]
      simp
    · simp only [hrev, if_false, new_effects]
      rw [latch_status_bit_trace]
      simp
  · exact handle_pending_alert_status env k s
  · rw [handle_pending_alert_status]
    exact hbit
  · unfold handle_pending_alert
    simp [set_armed_alert, emit]

/-! ## Configuration store and boot (C11, C12) -/

/-- C11: if the load-command marker read by config_init is 0xFF, then after boot the revision
is GLASGOW_REV_NA, the serial is sixteen characters 9, the device descriptor carries the
generic identity (VID_CYPRESS, PID_FX2), bitstream_size is 0, and the boot issues no FPGA
reset, load or start. -/
theorem C11_erased_configuration_boot (env : Env) (k : Consts) (cfg : Config) (IOD : Nat)
    (EP0BUF : Nat → Nat)
    (hmarker : load_cmd env k (power_on k cfg IOD EP0BUF) = 0xFF)
    (hserial : k.sizeof_serial = 16) :
    (main_init env k (power_on k cfg IOD EP0BUF)).glasgow_config.revision =
      k.GLASGOW_REV_NA ∧
    (main_init env k (power_on k cfg IOD EP0BUF)).glasgow_config.serial =
      List.replicate 16 ('9').toNat ∧
    (main_init env k (power_on k cfg IOD EP0BUF)).idVendor = k.VID_CYPRESS ∧
    (main_init env k (power_on k cfg IOD EP0BUF)).idProduct = k.PID_FX2 ∧
    (main_init env k (power_on k cfg IOD EP0BUF)).glasgow_config.bitstream_size = 0 ∧
    ∀ e ∈ (main_init env k (power_on k cfg IOD EP0BUF)).trace, is_fpga_load_op e = false := by
  have hci := config_init_of_erased env k (power_on k cfg IOD EP0BUF) hmarker
  have hfail := config_init_fail_config k (emit (marker_read k) (power_on k cfg IOD EP0BUF))
    hserial
  rw [← hci] at hfail
  obtain ⟨hrev, hser, hsize⟩ := hfail
  have hdc := descriptors_init_glasgow_config k (config_init env k (power_on k cfg IOD EP0BUF))
  have hid := descriptors_init_identity_of_NA k
    (config_init env k (power_on k cfg IOD EP0BUF)) hrev
  have hq := quiet_step_main_after_descriptors env k
    (descriptors_init k (config_init env k (power_on k cfg IOD EP0BUF)))
    (by rw [hdc]; exact hsize)
  rw [← main_init_eq] at hq
  obtain ⟨⟨hcfg, hv, hp, -⟩, l, hl, hP⟩ := hq
  refine ⟨?_, ?_, ?_, ?_, ?_, ?_⟩
  · rw [hcfg, hdc]; exact hrev
  · rw [hcfg, hdc]; exact hser
  · rw [hv]; exact hid.1
  · rw [hp]; exact hid.2
  · rw [hcfg, hdc]; exact hsize
  · intro e he
    rw [hl, descriptors_init_trace, hci] at he
    simp only [config_init_fail, emit, power_on, List.nil_append, List.mem_append,
      List.mem_singleton] at he
    rcases he with he | he
    · subst he; rfl
    · exact hP e he

/-- C11 with collaborators that return the marker 0xFF, at power-on with the sample
configuration in memory: after boot the revision is the sentinel and no bitstream is
loaded. -/
theorem C11_erased_configuration_boot_witness :
    load_cmd erased_env sample_consts (power_on sample_consts sample_config 0 (fun _ => 0)) =
      0xFF ∧
    (main_init erased_env sample_consts
      (power_on sample_consts sample_config 0 (fun _ => 0))).glasgow_config.revision =
      sample_consts.GLASGOW_REV_NA ∧
    (main_init erased_env sample_consts
      (power_on sample_consts sample_config 0 (fun _ => 0))).idVendor =
      sample_consts.VID_CYPRESS :=
  have h := C11_erased_configuration_boot erased_env sample_consts sample_config 0
    (fun _ => 0) (by decide) rfl
  ⟨by decide, h.1, h.2.2.1⟩

/-- C12: config_init has exactly three outcomes.  If the marker read succeeds with marker
0xC2, the configuration record is left as it is and no further read is issued.  If it
succeeds with marker 0xC0 and the record read at offset 12 succeeds, the record is the one
denoted by the bytes read.  In every other case (marker read failure, marker 0xFF, any other
marker, failure of the record read) the defaults are applied: revision GLASGOW_REV_NA, serial
sixteen characters 9, bitstream_size 0. -/
theorem C12_config_init_outcomes (env : Env) (k : Consts) (s : State)
    (hserial : k.sizeof_serial = 16) :
    (env.ok s.trace (marker_read k) = true → load_cmd env k s = 0xC2 →
      config_init env k s = emit (marker_read k) s ∧
      (config_init env k s).glasgow_config = s.glasgow_config ∧
      new_effects s (config_init env k s) = [marker_read k]) ∧
    (env.ok s.trace (marker_read k) = true → load_cmd env k s = 0xC0 →
      env.ok (s.trace ++ [marker_read k]) (record_read k) = true →
      (config_init env k s).glasgow_config =
        k.decode_config (env.data (s.trace ++ [marker_read k]) (record_read k)) ∧
      new_effects s (config_init env k s) = [marker_read k, record_read k]) ∧
    (¬ (env.ok s.trace (marker_read k) = true ∧ load_cmd env k s = 0xC2) →
      ¬ (env.ok s.trace (marker_read k) = true ∧ load_cmd env k s = 0xC0 ∧
          env.ok (s.trace ++ [marker_read k]) (record_read k) = true) →
      (config_init env k s).glasgow_config.revision = k.GLASGOW_REV_NA ∧
      (config_init env k s).glasgow_config.serial = List.replicate 16 ('9').toNat ∧
      (config_init env k s).glasgow_config.bitstream_size = 0) := by
  rw [config_init_eq]
  refine ⟨?_, ?_, ?_⟩
  · intro hok hcmd
    have h : (if !env.ok s.trace (marker_read k) then
          config_init_fail k (emit (marker_read k) s)
        else if load_cmd env k s = 0xff then config_init_fail k (emit (marker_read k) s)
        else if load_cmd env k s = 0xc2 then emit (marker_read k) s
        else if load_cmd env k s = 0xc0 then
          if !env.ok (s.trace ++ [marker_read k]) (record_read k) then
            config_init_fail k
              { emit (record_read k) (emit (marker_read k) s) with
                glasgow_config :=
                  k.decode_config (env.data (s.trace ++ [marker_read k]) (record_read k)) }
          else
            { emit (record_read k) (emit (marker_read k) s) with
              glasgow_config :=
                k.decode_config (env.data (s.trace ++ [marker_read k]) (record_read k)) }
        else config_init_fail k (emit (marker_read k) s)) = emit (marker_read k) s := by
      simp [hok, hcmd]
    rw [h]
    simp [emit, new_effects]
  · intro hok hcmd hrec
    simp [hok, hcmd, hrec, emit, new_effects]
  · intro h1 h2
    split
    · exact config_init_fail_config k _ hserial
    · rename_i hok
      have hok' : env.ok s.trace (marker_read k) = true := by simpa using hok
      split
      · exact config_init_fail_config k _ hserial
      · split
        · rename_i hc2
          exact absurd ⟨hok', hc2⟩ h1
        · split
          · rename_i hc0
            split
            · exact config_init_fail_config k _ hserial
            · rename_i hrec
              exfalso
              apply h2
              refine ⟨hok', hc0, ?_⟩
              simpa using hrec
          · exact config_init_fail_config k _ hserial

/-- C12 with collaborators that fail every call: the marker read fails and the defaults are
applied. -/
theorem C12_config_init_outcomes_witness :
    sample_consts.sizeof_serial = 16 ∧
    (config_init failing_env sample_consts sample_state).glasgow_config.revision =
      sample_consts.GLASGOW_REV_NA ∧
    (config_init failing_env sample_consts sample_state).glasgow_config.bitstream_size = 0 :=
  have h := (C12_config_init_outcomes failing_env sample_consts sample_state rfl).2.2
    (by decide) (by decide)
  ⟨rfl, h.1, h.2.2⟩

/-! ## Page-size query and EEPROM chip selection (C13, C14) -/

/-- C14: chip selection of the EEPROM request.  The legacy single-chip code targets the
on-board memory at the unmodified address whatever wIndex is (also for wIndex = 3, without
the 0x7000 offset).  For the logical code, selector 0 targets the on-board memory, selector 1
the configuration memory, selector 2 the next I2C address, all at the unmodified address,
and every selector from 4 up is stalled without any I2C transaction. -/
theorem C14_eeprom_chip_selection (env : Env) (k : Consts) (req : Setup) (s : State)
    (htype : req.bmRequestType = (USB_RECIP_DEVICE ||| USB_TYPE_VENDOR ||| USB_DIR_IN) ∨
             req.bmRequestType = (USB_RECIP_DEVICE ||| USB_TYPE_VENDOR ||| USB_DIR_OUT))
    (hfx2 : k.I2C_ADDR_FX2_MEM ≠ 0) (hice : k.I2C_ADDR_ICE_MEM ≠ 0)
    (hice7 : k.I2C_ADDR_ICE_MEM + 1 < 256) :
    (req.bRequest = USB_REQ_CYPRESS_EEPROM_DB →
      eeprom_select k req = (k.I2C_ADDR_FX2_MEM, req.wValue, 0) ∧
      handle_pending_usb_setup env k req s =
        eeprom_loop env (req_dir_in req) k.I2C_ADDR_FX2_MEM 0 255 req.wLength req.wValue
          req.wLength (clear_pending_setup s)) ∧
    (req.bRequest = USB_REQ_EEPROM →
      (req.wIndex = 0 →
        eeprom_select k req = (k.I2C_ADDR_FX2_MEM, req.wValue, 6) ∧
        handle_pending_usb_setup env k req s =
          eeprom_loop env (req_dir_in req) k.I2C_ADDR_FX2_MEM 6 255 req.wLength req.wValue
            req.wLength (clear_pending_setup s)) ∧
      (req.wIndex = 1 →
        eeprom_select k req = (k.I2C_ADDR_ICE_MEM, req.wValue, 8) ∧
        handle_pending_usb_setup env k req s =
          eeprom_loop env (req_dir_in req) k.I2C_ADDR_ICE_MEM 8 255 req.wLength req.wValue
            req.wLength (clear_pending_setup s)) ∧
      (req.wIndex = 2 →
        eeprom_select k req = (k.I2C_ADDR_ICE_MEM + 1, req.wValue, 8) ∧
        handle_pending_usb_setup env k req s =
          eeprom_loop env (req_dir_in req) (k.I2C_ADDR_ICE_MEM + 1) 8 255 req.wLength
            req.wValue req.wLength (clear_pending_setup s)) ∧
      (4 ≤ req.wIndex →
        eeprom_select k req = (0, req.wValue, 0) ∧
        handle_pending_usb_setup env k req s =
          { s with pending_setup := false,
                   trace := s.trace ++ [Effect.pending_setup false,
                     Effect.pending_setup false, Effect.STALL_EP0] } ∧
        new_effects s (handle_pending_usb_setup env k req s) =
          [Effect.pending_setup false, Effect.pending_setup false, Effect.STALL_EP0] ∧
        ∀ e ∈ new_effects s (handle_pending_usb_setup env k req s), is_i2c e = false)) := by
  constructor
  · intro hreq
    rw [handle_pending_usb_setup_of_eeprom_any env k req s htype (Or.inl hreq)]
    have hsel : eeprom_select k req = (k.I2C_ADDR_FX2_MEM, req.wValue, 0) := by
      simp [eeprom_select, hreq]
    exact ⟨hsel, req_eeprom_of_chip env k req s _ _ _ hsel hfx2⟩
  · intro hreq
    rw [handle_pending_usb_setup_of_eeprom_any env k req s htype (Or.inr hreq)]
    have hne : req.bRequest ≠ USB_REQ_CYPRESS_EEPROM_DB := by rw [hreq]; decide
    refine ⟨?_, ?_, ?_, ?_⟩
    · intro h0
      have hsel : eeprom_select k req = (k.I2C_ADDR_FX2_MEM, req.wValue, 6) := by
        simp [eeprom_select, hne, h0]
      exact ⟨hsel, req_eeprom_of_chip env k req s _ _ _ hsel hfx2⟩
    · intro h1
      have hsel : eeprom_select k req = (k.I2C_ADDR_ICE_MEM, req.wValue, 8) := by
        simp [eeprom_select, hne, h1]
      exact ⟨hsel, req_eeprom_of_chip env k req s _ _ _ hsel hice⟩
    · intro h2
      have hsel : eeprom_select k req = (k.I2C_ADDR_ICE_MEM + 1, req.wValue, 8) := by
        simp [eeprom_select, hne, h2, Nat.mod_eq_of_lt hice7]
      exact ⟨hsel, req_eeprom_of_chip env k req s _ _ _ hsel (by omega)⟩
    · intro h4
      have hsel : eeprom_select k req = (0, req.wValue, 0) := by
        have e0 : req.wIndex ≠ 0 := by omega
        have e1 : req.wIndex ≠ 1 := by omega
        have e2 : req.wIndex ≠ 2 := by omega
        have e3 : req.wIndex ≠ 3 := by omega
        simp [eeprom_select, hne, e0, e1, e2, e3]
      have hres := req_eeprom_of_no_chip env k req s (by rw [hsel])
      refine ⟨hsel, hres, ?_, ?_⟩
      · rw [hres]; simp [new_effects]
      · rw [hres]; simp [new_effects, is_i2c]

/-- C14 at a legacy read with wIndex = 3 and at a logical read with selector 4, in the sample
state. -/
theorem C14_eeprom_chip_selection_witness :
    sample_consts.I2C_ADDR_FX2_MEM ≠ 0 ∧ sample_consts.I2C_ADDR_ICE_MEM ≠ 0 ∧
    eeprom_select sample_consts ⟨0xC0, 0xA9, 0x0100, 3, 8⟩ = (0x51, 0x0100, 0) ∧
    new_effects sample_state
      (handle_pending_usb_setup sample_env sample_consts ⟨0xC0, 0x10, 0x0100, 4, 8⟩
        sample_state) =
      [Effect.pending_setup false, Effect.pending_setup false, Effect.STALL_EP0] :=
  ⟨by decide, by decide,
   ((C14_eeprom_chip_selection sample_env sample_consts ⟨0xC0, 0xA9, 0x0100, 3, 8⟩
      sample_state (by decide) (by decide) (by decide) (by decide)).1 (by decide)).1,
   ((C14_eeprom_chip_selection sample_env sample_consts ⟨0xC0, 0x10, 0x0100, 4, 8⟩
      sample_state (by decide) (by decide) (by decide) (by decide)).2 (by decide)).2.2.2
      (by decide) |>.2.2.1⟩

/-! ## EEPROM chunk loop (C15) -/

/-- C15: for every EEPROM read or write request with a valid chip, start address A and
length L, the chunk loop terminates (any bound of at least L iterations gives the same
result), and its I2C transactions are a prefix of the reference sequence of ceil(L/64) chunks
with addresses (A + 64 i) mod 2^16 and lengths min(64, L - 64 i).  The request is stalled if
and only if a transaction fails, only the last transaction issued can have failed, and when
none fails the whole reference sequence is issued and its lengths add up to L. -/
theorem C15_eeprom_chunk_sequence (env : Env) (k : Consts) (req : Setup) (s : State)
    (chip A page_size : Nat)
    (htype : req.bmRequestType = (USB_RECIP_DEVICE ||| USB_TYPE_VENDOR ||| USB_DIR_IN) ∨
             req.bmRequestType = (USB_RECIP_DEVICE ||| USB_TYPE_VENDOR ||| USB_DIR_OUT))
    (hreq : req.bRequest = USB_REQ_CYPRESS_EEPROM_DB ∨ req.bRequest = USB_REQ_EEPROM)
    (haddr : req.wValue < 65536)
    (hsel : eeprom_select k req = (chip, A, page_size)) (hchip : chip ≠ 0) :
    (∀ fuel, req.wLength ≤ fuel →
      eeprom_loop env (req_dir_in req) chip page_size 255 fuel A req.wLength
        (clear_pending_setup s) = handle_pending_usb_setup env k req s) ∧
    (ref_chunks A req.wLength).length = (req.wLength + 63) / 64 ∧
    (new_effects s (handle_pending_usb_setup env k req s)).filter is_i2c =
      ((ref_chunks A req.wLength).take
        ((new_effects s (handle_pending_usb_setup env k req s)).filter is_i2c).length).map
        (chunk_effect (req_dir_in req) chip page_size 255) ∧
    (Effect.STALL_EP0 ∈ new_effects s (handle_pending_usb_setup env k req s) ↔
      false ∈ i2c_results env s.trace
        (new_effects s (handle_pending_usb_setup env k req s))) ∧
    (∀ b ∈ (i2c_results env s.trace
        (new_effects s (handle_pending_usb_setup env k req s))).dropLast, b = true) ∧
    (i2c_results env s.trace (new_effects s (handle_pending_usb_setup env k req s))).length =
      ((new_effects s (handle_pending_usb_setup env k req s)).filter is_i2c).length ∧
    (false ∉ i2c_results env s.trace
        (new_effects s (handle_pending_usb_setup env k req s)) →
      (new_effects s (handle_pending_usb_setup env k req s)).filter is_i2c =
        (ref_chunks A req.wLength).map (chunk_effect (req_dir_in req) chip page_size 255) ∧
      (((new_effects s (handle_pending_usb_setup env k req s)).filter is_i2c).map
        chunk_len).sum = req.wLength) := by
  have hA : A < 65536 := by
    have h := eeprom_select_addr_lt k req haddr
    rw [hsel] at h
    exact h
  have hh : handle_pending_usb_setup env k req s =
      eeprom_loop env (req_dir_in req) chip page_size 255 req.wLength A req.wLength
        (clear_pending_setup s) := by
    rw [handle_pending_usb_setup_of_eeprom_any env k req s htype hreq]
    exact req_eeprom_of_chip env k req s chip A page_size hsel hchip
  obtain ⟨l, hl, h1, h2, h3, h4⟩ := eeprom_loop_chunked env (req_dir_in req) chip page_size
    255 req.wLength A req.wLength (clear_pending_setup s) hA (le_refl _)
  have htr : (clear_pending_setup s).trace = s.trace ++ [Effect.pending_setup false] := by
    simp [clear_pending_setup, emit]
  have hnew : new_effects s (handle_pending_usb_setup env k req s) =
      [Effect.pending_setup false] ++ l := by
    apply new_effects_of_trace
    rw [hh, hl, htr, List.append_assoc]
  have hp : is_i2c (Effect.pending_setup false) = false := rfl
  have hfil : ([Effect.pending_setup false] ++ l).filter is_i2c = l.filter is_i2c := by
    simp [List.filter_cons, hp]
  have hres : i2c_results env s.trace ([Effect.pending_setup false] ++ l) =
      i2c_results env (clear_pending_setup s).trace l := by
    rw [htr]
    simp [i2c_results, hp]
  have hst : Effect.STALL_EP0 ∈ [Effect.pending_setup false] ++ l ↔ Effect.STALL_EP0 ∈ l := by
    simp
  rw [hnew, hfil, hres, hst]
  refine ⟨?_, ref_chunks_length _ _, h1, h2, h3, i2c_results_length _ _ _, ?_⟩
  · intro fuel hfuel
    rw [hh]
    exact eeprom_loop_fuel env _ chip page_size 255 fuel req.wLength A req.wLength _ hfuel
      (le_refl _)
  · intro hno
    have hfull := h4 hno
    have heq : l.filter is_i2c =
        (ref_chunks A req.wLength).map (chunk_effect (req_dir_in req) chip page_size 255) := by
      rw [h1, hfull, List.take_length]
    refine ⟨heq, ?_⟩
    rw [heq, List.map_map, chunk_len_chunk_effect, ref_chunks_sum]

/-- C15 at a 150-byte read from the configuration memory in the sample state: three
transactions are issued. -/
theorem C15_eeprom_chunk_sequence_witness :
    eeprom_select sample_consts ⟨0xC0, 0x10, 0xFFC0, 1, 150⟩ = (0x52, 0xFFC0, 8) ∧
    (ref_chunks 0xFFC0 150).length = 3 ∧
    (Effect.STALL_EP0 ∈ new_effects sample_state
        (handle_pending_usb_setup sample_env sample_consts ⟨0xC0, 0x10, 0xFFC0, 1, 150⟩
          sample_state) ↔
      false ∈ i2c_results sample_env sample_state.trace
        (new_effects sample_state
          (handle_pending_usb_setup sample_env sample_consts ⟨0xC0, 0x10, 0xFFC0, 1, 150⟩
            sample_state))) :=
  have h := C15_eeprom_chunk_sequence sample_env sample_consts ⟨0xC0, 0x10, 0xFFC0, 1, 150⟩
    sample_state 0x52 0xFFC0 8 (by decide) (by decide) (by decide) (by decide) (by decide)
  ⟨by decide, h.2.1, h.2.2.2.1⟩

/-! ## Bitstream id (C16) -/

/-- C16: bitstream-id set/get round trip.  A set request for which fpga_start() succeeds
stores the tag T that the host sends, without a stall; any requests that follow, as long as
none of them is a bitstream-id set or a bitstream chunk with index 0, leave the stored tag
alone; and a get request then returns exactly T.  If fpga_start() fails, the set request is
stalled and the configuration record is unchanged. -/
theorem C16_bitstream_id_round_trip (env : Env) (k : Consts)
    (hsize : k.CONFIG_SIZE_BITSTREAM_ID ≤ 64) :
    (∀ (set : Setup) (s : State) (T : List Nat),
      set.bmRequestType = (USB_RECIP_DEVICE ||| USB_TYPE_VENDOR ||| USB_DIR_OUT) →
      set.bRequest = USB_REQ_BITSTREAM_ID → set.wLength = k.CONFIG_SIZE_BITSTREAM_ID →
      T.length = k.CONFIG_SIZE_BITSTREAM_ID → (∀ b ∈ T, b < 256) →
      env.ok (s.trace ++ [Effect.pending_setup false]) Effect.fpga_start = true →
      env.data (s.trace ++ [Effect.pending_setup false, Effect.fpga_start,
        Effect.SETUP_EP0_BUF 0]) Effect.EP0CS_BUSY = T →
      (handle_pending_usb_setup env k set s).glasgow_config.bitstream_id = T ∧
      new_effects s (handle_pending_usb_setup env k set s) =
        [Effect.pending_setup false, Effect.fpga_start, Effect.SETUP_EP0_BUF 0,
          Effect.EP0CS_BUSY] ∧
      ∀ (reqs : List Setup) (get : Setup),
        (∀ r ∈ reqs, changes_bitstream_id r = false) →
        get.bmRequestType = (USB_RECIP_DEVICE ||| USB_TYPE_VENDOR ||| USB_DIR_IN) →
        get.bRequest = USB_REQ_BITSTREAM_ID → get.wLength = k.CONFIG_SIZE_BITSTREAM_ID →
        (List.range k.CONFIG_SIZE_BITSTREAM_ID).map
          (handle_pending_usb_setup env k get
            (run env k reqs (handle_pending_usb_setup env k set s))).EP0BUF = T ∧
        new_effects (run env k reqs (handle_pending_usb_setup env k set s))
          (handle_pending_usb_setup env k get
            (run env k reqs (handle_pending_usb_setup env k set s))) =
          [Effect.pending_setup false, Effect.EP0CS_BUSY,
            Effect.SETUP_EP0_BUF k.CONFIG_SIZE_BITSTREAM_ID]) ∧
    (∀ (set : Setup) (s : State),
      set.bmRequestType = (USB_RECIP_DEVICE ||| USB_TYPE_VENDOR ||| USB_DIR_OUT) →
      set.bRequest = USB_REQ_BITSTREAM_ID → set.wLength = k.CONFIG_SIZE_BITSTREAM_ID →
      env.ok (s.trace ++ [Effect.pending_setup false]) Effect.fpga_start = false →
      (handle_pending_usb_setup env k set s).glasgow_config = s.glasgow_config ∧
      new_effects s (handle_pending_usb_setup env k set s) =
        [Effect.pending_setup false, Effect.fpga_start, Effect.pending_setup false,
          Effect.STALL_EP0]) := by
  constructor
  · intro set s T htype hreq hlen hT hbytes hstart hdata
    have hd := req_dir_in_of_out set htype
    have hset := handle_pending_usb_setup_of_bitstream_id env k set s (Or.inr htype) hreq hlen
    have hstored : (handle_pending_usb_setup env k set s).glasgow_config.bitstream_id = T := by
      rw [hset]
      simp only [req_bitstream_id, hd, Bool.false_eq_true, if_false, call, clear_pending_setup,
        emit, List.append_assoc, List.singleton_append, hstart, if_true, wait_EP0_data,
        List.cons_append, List.nil_append, hdata]
      apply map_range_bytes T _ _ hT hbytes
      intro i hi
      have h64 : i < 64 := by omega
      simp [fill, h64]
    refine ⟨hstored, ?_, ?_⟩
    · rw [hset]
      simp [req_bitstream_id, hd, call, clear_pending_setup, emit, hstart, wait_EP0_data,
        new_effects]
    · intro reqs get hreqs hgtype hgreq hglen
      have hdg := req_dir_in_of_in get hgtype
      have hid := run_bitstream_id_frame env k reqs (handle_pending_usb_setup env k set s)
        hreqs
      rw [hstored] at hid
      generalize run env k reqs (handle_pending_usb_setup env k set s) = t at hid ⊢
      rw [handle_pending_usb_setup_of_bitstream_id env k get t (Or.inl hgtype) hgreq hglen]
      constructor
      · apply map_range_bytes T _ _ hT hbytes
        intro i hi
        simp [req_bitstream_id, hdg, clear_pending_setup, emit, wait_EP0, fill, hi, hid]
      · simp [req_bitstream_id, hdg, clear_pending_setup, emit, wait_EP0, new_effects]
  · intro set s htype hreq hlen hstart
    have hd := req_dir_in_of_out set htype
    rw [handle_pending_usb_setup_of_bitstream_id env k set s (Or.inr htype) hreq hlen]
    simp [req_bitstream_id, hd, call, clear_pending_setup, emit, hstart, stall_ep0_return,
      new_effects]

/-- C16 with the sample constants: the host sends sixteen bytes 0xFF, a status query
intervenes, and the get request returns the sixteen bytes. -/
theorem C16_bitstream_id_round_trip_witness :
    sample_consts.CONFIG_SIZE_BITSTREAM_ID ≤ 64 ∧
    (List.range sample_consts.CONFIG_SIZE_BITSTREAM_ID).map
      (handle_pending_usb_setup ⟨fun _ _ => true, fun _ _ => List.replicate 16 0xFF⟩
        sample_consts ⟨0xC0, 0x18, 0, 0, 16⟩
        (run ⟨fun _ _ => true, fun _ _ => List.replicate 16 0xFF⟩ sample_consts
          [⟨0xC0, 0x12, 0, 0, 1⟩]
          (handle_pending_usb_setup ⟨fun _ _ => true, fun _ _ => List.replicate 16 0xFF⟩
            sample_consts ⟨0x40, 0x18, 0, 0, 16⟩ sample_state))).EP0BUF =
      List.replicate 16 0xFF :=
  ⟨by decide,
    (((C16_bitstream_id_round_trip ⟨fun _ _ => true, fun _ _ => List.replicate 16 0xFF⟩
      sample_consts (by decide)).1 ⟨0x40, 0x18, 0, 0, 16⟩ sample_state
      (List.replicate 16 0xFF) rfl rfl rfl rfl (by decide) rfl rfl).2.2
      [⟨0xC0, 0x12, 0, 0, 1⟩] ⟨0xC0, 0x18, 0, 0, 16⟩ (by decide) rfl rfl rfl).1⟩

/-- C17: failure policy of the get/set requests (I/O voltage, alert threshold, voltage limit,
pull resistor).  When the backend of the get (IN) direction fails, the transfer is stalled
right after the backend call and the status byte is as before.  When a backend of the set
(OUT) direction fails (for the voltage limit: the limit backend or the EEPROM write that
follows it), the error bit is latched, the data stage has been armed and nothing is stalled.
A pull-resistor request on a revision older than GLASGOW_REV_C0 behaves like a backend
failure, and no pull backend is called: the get is stalled directly after the busy-wait and
the set latches the error bit directly after the data stage. -/
theorem C17_get_set_failure_policy (env : Env) (k : Consts) (req : Setup) (s : State) :
    (req.bmRequestType = (USB_RECIP_DEVICE ||| USB_TYPE_VENDOR ||| USB_DIR_IN) →
      req.bRequest = USB_REQ_IO_VOLT → req.wLength = 2 →
      env.ok (get_stage s).trace (.iobuf_get_voltage (req.wIndex % 256)) = false →
      ((handle_pending_usb_setup env k req s).status = s.status ∧
      new_effects s (handle_pending_usb_setup env k req s) =
        [Effect.pending_setup false, Effect.EP0CS_BUSY, Effect.iobuf_get_voltage (req.wIndex % 256),
          Effect.pending_setup false, Effect.STALL_EP0])) ∧
    (req.bmRequestType = (USB_RECIP_DEVICE ||| USB_TYPE_VENDOR ||| USB_DIR_OUT) →
      req.bRequest = USB_REQ_IO_VOLT → req.wLength = 2 →
      env.ok (set_stage env 2 s).trace
        (.iobuf_set_voltage (req.wIndex % 256) (EP0BUF_word (set_stage env 2 s) 0)) = false →
      ((handle_pending_usb_setup env k req s).status = s.status ||| ST_ERROR ∧
      Effect.SETUP_EP0_BUF 2 ∈ new_effects s (handle_pending_usb_setup env k req s) ∧
      Effect.STALL_EP0 ∉ new_effects s (handle_pending_usb_setup env k req s))) ∧
    (req.bmRequestType = (USB_RECIP_DEVICE ||| USB_TYPE_VENDOR ||| USB_DIR_IN) →
      req.bRequest = USB_REQ_ALERT_VOLT → req.wLength = 4 →
      env.ok (get_stage s).trace
        (if s.glasgow_config.revision ≥ k.GLASGOW_REV_C2
          then Effect.iobuf_get_alert_ina233 (req.wIndex % 256)
          else Effect.iobuf_get_alert_adc081c (req.wIndex % 256)) = false →
      ((handle_pending_usb_setup env k req s).status = s.status ∧
      new_effects s (handle_pending_usb_setup env k req s) =
        [Effect.pending_setup false, Effect.EP0CS_BUSY, (if s.glasgow_config.revision ≥ k.GLASGOW_REV_C2
            then Effect.iobuf_get_alert_ina233 (req.wIndex % 256)
            else Effect.iobuf_get_alert_adc081c (req.wIndex % 256)),
          Effect.pending_setup false, Effect.STALL_EP0])) ∧
    (req.bmRequestType = (USB_RECIP_DEVICE ||| USB_TYPE_VENDOR ||| USB_DIR_OUT) →
      req.bRequest = USB_REQ_ALERT_VOLT → req.wLength = 4 →
      env.ok (set_stage env 4 s).trace
        (if s.glasgow_config.revision ≥ k.GLASGOW_REV_C2
          then Effect.iobuf_set_alert_ina233 (req.wIndex % 256)
            (EP0BUF_word (set_stage env 4 s) 0) (EP0BUF_word (set_stage env 4 s) 1)
          else Effect.iobuf_set_alert_adc081c (req.wIndex % 256)
            (EP0BUF_word (set_stage env 4 s) 0) (EP0BUF_word (set_stage env 4 s) 1)) = false →
      ((handle_pending_usb_setup env k req s).status = s.status ||| ST_ERROR ∧
      Effect.SETUP_EP0_BUF 4 ∈ new_effects s (handle_pending_usb_setup env k req s) ∧
      Effect.STALL_EP0 ∉ new_effects s (handle_pending_usb_setup env k req s))) ∧
    (req.bmRequestType = (USB_RECIP_DEVICE ||| USB_TYPE_VENDOR ||| USB_DIR_IN) →
      req.bRequest = USB_REQ_LIMIT_VOLT → req.wLength = 2 →
      env.ok (get_stage s).trace (.iobuf_get_voltage_limit (req.wIndex % 256)) = false →
      ((handle_pending_usb_setup env k req s).status = s.status ∧
      new_effects s (handle_pending_usb_setup env k req s) =
        [Effect.pending_setup false, Effect.EP0CS_BUSY, Effect.iobuf_get_voltage_limit (req.wIndex % 256),
          Effect.pending_setup false, Effect.STALL_EP0])) ∧
    (req.bmRequestType = (USB_RECIP_DEVICE ||| USB_TYPE_VENDOR ||| USB_DIR_OUT) →
      req.bRequest = USB_REQ_LIMIT_VOLT → req.wLength = 2 →
      env.ok (set_stage env 2 s).trace
        (.iobuf_set_voltage_limit (req.wIndex % 256)
          (EP0BUF_word (set_stage env 2 s) 0)) = false →
      ((handle_pending_usb_setup env k req s).status = s.status ||| ST_ERROR ∧
      Effect.SETUP_EP0_BUF 2 ∈ new_effects s (handle_pending_usb_setup env k req s) ∧
      Effect.STALL_EP0 ∉ new_effects s (handle_pending_usb_setup env k req s))) ∧
    (req.bmRequestType = (USB_RECIP_DEVICE ||| USB_TYPE_VENDOR ||| USB_DIR_OUT) →
      req.bRequest = USB_REQ_LIMIT_VOLT → req.wLength = 2 →
      env.ok (set_stage env 2 s).trace
        (.iobuf_set_voltage_limit (req.wIndex % 256)
          (EP0BUF_word (set_stage env 2 s) 0)) = true →
      env.ok ((set_stage env 2 s).trace ++
          [.iobuf_set_voltage_limit (req.wIndex % 256) (EP0BUF_word (set_stage env 2 s) 0)])
        (.eeprom_write k.I2C_ADDR_FX2_MEM (8 + 4 + k.offsetof_voltage_limit)
          k.sizeof_voltage_limit true 8 255) = false →
      ((handle_pending_usb_setup env k req s).status = s.status ||| ST_ERROR ∧
      Effect.SETUP_EP0_BUF 2 ∈ new_effects s (handle_pending_usb_setup env k req s) ∧
      Effect.STALL_EP0 ∉ new_effects s (handle_pending_usb_setup env k req s))) ∧
    (req.bmRequestType = (USB_RECIP_DEVICE ||| USB_TYPE_VENDOR ||| USB_DIR_IN) →
      req.bRequest = USB_REQ_PULL → req.wLength = 2 →
      ¬ s.glasgow_config.revision < k.GLASGOW_REV_C0 →
      env.ok (get_stage s).trace (.iobuf_get_pull (req.wIndex % 256)) = false →
      ((handle_pending_usb_setup env k req s).status = s.status ∧
      new_effects s (handle_pending_usb_setup env k req s) =
        [Effect.pending_setup false, Effect.EP0CS_BUSY, Effect.iobuf_get_pull (req.wIndex % 256),
          Effect.pending_setup false, Effect.STALL_EP0])) ∧
    (req.bmRequestType = (USB_RECIP_DEVICE ||| USB_TYPE_VENDOR ||| USB_DIR_OUT) →
      req.bRequest = USB_REQ_PULL → req.wLength = 2 →
      ¬ s.glasgow_config.revision < k.GLASGOW_REV_C0 →
      env.ok (set_stage env 2 s).trace
        (.iobuf_set_pull (req.wIndex % 256) ((set_stage env 2 s).EP0BUF 0)
          ((set_stage env 2 s).EP0BUF 1)) = false →
      ((handle_pending_usb_setup env k req s).status = s.status ||| ST_ERROR ∧
      Effect.SETUP_EP0_BUF 2 ∈ new_effects s (handle_pending_usb_setup env k req s) ∧
      Effect.STALL_EP0 ∉ new_effects s (handle_pending_usb_setup env k req s))) ∧
    (req.bmRequestType = (USB_RECIP_DEVICE ||| USB_TYPE_VENDOR ||| USB_DIR_IN) →
      req.bRequest = USB_REQ_PULL → req.wLength = 2 →
      s.glasgow_config.revision < k.GLASGOW_REV_C0 →
      (handle_pending_usb_setup env k req s).status = s.status ∧
      new_effects s (handle_pending_usb_setup env k req s) =
        [Effect.pending_setup false, Effect.EP0CS_BUSY, Effect.pending_setup false,
          Effect.STALL_EP0]) ∧
    (req.bmRequestType = (USB_RECIP_DEVICE ||| USB_TYPE_VENDOR ||| USB_DIR_OUT) →
      req.bRequest = USB_REQ_PULL → req.wLength = 2 →
      s.glasgow_config.revision < k.GLASGOW_REV_C0 →
      handle_pending_usb_setup env k req s = latch_status_bit k ST_ERROR (set_stage env 2 s) ∧
      ((handle_pending_usb_setup env k req s).status = s.status ||| ST_ERROR ∧
      Effect.SETUP_EP0_BUF 2 ∈ new_effects s (handle_pending_usb_setup env k req s) ∧
      Effect.STALL_EP0 ∉ new_effects s (handle_pending_usb_setup env k req s))) := by
  have hI := req_dir_in_of_in req
  have hO := req_dir_in_of_out req
  refine ⟨?_, ?_, ?_, ?_, ?_, ?_, ?_, ?_, ?_, ?_, ?_⟩
  · intro htype hreq hlen hfail
    rw [handle_pending_usb_setup_of_io_volt env k req s (Or.inl htype) hreq hlen]
    simp only [req_io_volt, hI htype, if_true]
    exact get_failure env _ 2 2 s hfail
  · intro htype hreq hlen hfail
    rw [handle_pending_usb_setup_of_io_volt env k req s (Or.inr htype) hreq hlen]
    simp only [req_io_volt, hO htype, Bool.false_eq_true, if_false]
    rw [← set_stage, set_failure env k _ _ hfail]
    exact latch_after_set_stage env k 2 s _
      [Effect.iobuf_set_voltage (req.wIndex % 256) (EP0BUF_word (set_stage env 2 s) 0)]
      (by simp [emit, set_stage_status]) (by simp [emit]) (by simp)
  · intro htype hreq hlen hfail
    rw [handle_pending_usb_setup_of_alert_volt env k req s (Or.inl htype) hreq hlen]
    simp only [req_alert_volt, hI htype, if_true]
    have hrev : (wait_EP0 (clear_pending_setup s)).glasgow_config.revision =
        s.glasgow_config.revision := rfl
    rw [hrev, ← get_stage]
    by_cases hr : s.glasgow_config.revision ≥ k.GLASGOW_REV_C2
    · rw [if_pos hr] at hfail ⊢
      rw [if_pos hr]
      exact get_failure env _ 4 4 s hfail
    · rw [if_neg hr] at hfail ⊢
      rw [if_neg hr]
      exact get_failure env _ 4 4 s hfail
  · intro htype hreq hlen hfail
    rw [handle_pending_usb_setup_of_alert_volt env k req s (Or.inr htype) hreq hlen]
    simp only [req_alert_volt, hO htype, Bool.false_eq_true, if_false]
    rw [← set_stage]
    have hrev : (set_stage env 4 s).glasgow_config.revision = s.glasgow_config.revision := rfl
    rw [hrev]
    by_cases hr : s.glasgow_config.revision ≥ k.GLASGOW_REV_C2
    · rw [if_pos hr] at hfail ⊢
      rw [set_failure env k _ _ hfail]
      exact latch_after_set_stage env k 4 s _
        [Effect.iobuf_set_alert_ina233 (req.wIndex % 256)
          (EP0BUF_word (set_stage env 4 s) 0) (EP0BUF_word (set_stage env 4 s) 1)]
        (by simp [emit, set_stage_status]) (by simp [emit]) (by simp)
    · rw [if_neg hr] at hfail ⊢
      rw [set_failure env k _ _ hfail]
      exact latch_after_set_stage env k 4 s _
        [Effect.iobuf_set_alert_adc081c (req.wIndex % 256)
          (EP0BUF_word (set_stage env 4 s) 0) (EP0BUF_word (set_stage env 4 s) 1)]
        (by simp [emit, set_stage_status]) (by simp [emit]) (by simp)
  · intro htype hreq hlen hfail
    rw [handle_pending_usb_setup_of_limit_volt_any env k req s (Or.inl htype) hreq hlen]
    simp only [req_limit_volt, hI htype, if_true]
    exact get_failure env _ 2 2 s hfail
  · intro htype hreq hlen hfail
    rw [handle_pending_usb_setup_of_limit_volt_any env k req s (Or.inr htype) hreq hlen]
    simp only [req_limit_volt, hO htype, Bool.false_eq_true, if_false]
    rw [← set_stage]
    simp only [call, hfail, Bool.not_false, if_true]
    exact latch_after_set_stage env k 2 s _
      [Effect.iobuf_set_voltage_limit (req.wIndex % 256) (EP0BUF_word (set_stage env 2 s) 0)]
      (by simp [emit, set_stage_status]) (by simp [emit]) (by simp)
  · intro htype hreq hlen hok hfail
    rw [handle_pending_usb_setup_of_limit_volt_any env k req s (Or.inr htype) hreq hlen]
    simp only [req_limit_volt, hO htype, Bool.false_eq_true, if_false]
    rw [← set_stage]
    simp only [call, hok, Bool.not_true, Bool.false_eq_true, if_false]
    rw [if_pos (by simpa [emit] using hfail)]
    exact latch_after_set_stage env k 2 s _
      [Effect.iobuf_set_voltage_limit (req.wIndex % 256) (EP0BUF_word (set_stage env 2 s) 0),
        Effect.eeprom_write k.I2C_ADDR_FX2_MEM (8 + 4 + k.offsetof_voltage_limit)
          k.sizeof_voltage_limit true 8 255]
      (by simp [emit, set_stage_status]) (by simp [emit]) (by simp)
  · intro htype hreq hlen hrev hfail
    rw [handle_pending_usb_setup_of_pull env k req s (Or.inl htype) hreq hlen]
    simp only [req_pull, hI htype, if_true]
    have hr : (wait_EP0 (clear_pending_setup s)).glasgow_config.revision =
        s.glasgow_config.revision := rfl
    rw [hr, if_neg hrev, ← get_stage]
    exact get_failure env _ 2 2 s hfail
  · intro htype hreq hlen hrev hfail
    rw [handle_pending_usb_setup_of_pull env k req s (Or.inr htype) hreq hlen]
    simp only [req_pull, hO htype, Bool.false_eq_true, if_false]
    rw [← set_stage]
    have hr : (set_stage env 2 s).glasgow_config.revision = s.glasgow_config.revision := rfl
    rw [hr, if_neg hrev, set_failure env k _ _ hfail]
    exact latch_after_set_stage env k 2 s _
      [Effect.iobuf_set_pull (req.wIndex % 256) ((set_stage env 2 s).EP0BUF 0)
        ((set_stage env 2 s).EP0BUF 1)]
      (by simp [emit, set_stage_status]) (by simp [emit]) (by simp)
  · intro htype hreq hlen hrev
    rw [handle_pending_usb_setup_of_pull env k req s (Or.inl htype) hreq hlen]
    simp only [req_pull, hI htype, if_true]
    have hr : (wait_EP0 (clear_pending_setup s)).glasgow_config.revision =
        s.glasgow_config.revision := rfl
    rw [hr, if_pos hrev]
    simp [stall_ep0_return, wait_EP0, clear_pending_setup, emit, new_effects]
  · intro htype hreq hlen hrev
    rw [handle_pending_usb_setup_of_pull env k req s (Or.inr htype) hreq hlen]
    simp only [req_pull, hO htype, Bool.false_eq_true, if_false]
    rw [← set_stage]
    have hr : (set_stage env 2 s).glasgow_config.revision = s.glasgow_config.revision := rfl
    rw [hr, if_pos hrev]
    exact ⟨rfl, latch_after_set_stage env k 2 s _ [] (set_stage_status env 2 s)
      (by simp) (by simp)⟩

/-- C17 at a concrete input: with every backend failing, an I/O voltage set request latches
the error bit without a stall, and an I/O voltage get request is stalled with the status byte
unchanged. -/
theorem C17_get_set_failure_policy_witness :
    ((handle_pending_usb_setup failing_env sample_consts ⟨0x40, 0x14, 0, 0, 2⟩
        sample_state).status = sample_state.status ||| ST_ERROR ∧
      Effect.STALL_EP0 ∉ new_effects sample_state
        (handle_pending_usb_setup failing_env sample_consts ⟨0x40, 0x14, 0, 0, 2⟩
          sample_state)) ∧
    ((handle_pending_usb_setup failing_env sample_consts ⟨0xC0, 0x14, 0, 0, 2⟩
        sample_state).status = sample_state.status ∧
      new_effects sample_state
        (handle_pending_usb_setup failing_env sample_consts ⟨0xC0, 0x14, 0, 0, 2⟩
          sample_state) =
        [Effect.pending_setup false, Effect.EP0CS_BUSY, Effect.iobuf_get_voltage 0,
          Effect.pending_setup false, Effect.STALL_EP0]) :=
  ⟨⟨((C17_get_set_failure_policy failing_env sample_consts ⟨0x40, 0x14, 0, 0, 2⟩
        sample_state).2.1 rfl rfl rfl rfl).1,
      ((C17_get_set_failure_policy failing_env sample_consts ⟨0x40, 0x14, 0, 0, 2⟩
        sample_state).2.1 rfl rfl rfl rfl).2.2⟩,
    (C17_get_set_failure_policy failing_env sample_consts ⟨0xC0, 0x14, 0, 0, 2⟩
      sample_state).1 rfl rfl rfl rfl⟩

/-! ## Unrecognized requests (C18) -/

/-- C18: a device-directed vendor request that satisfies none of the arm conditions of
handle_pending_usb_setup is stalled: the state afterwards is the prior state with the
pending-SETUP flag cleared, the status byte, configuration record, bitstream index and
test-mode flag are unchanged, and the only effects are the clearing of the flag and the
stall.  This covers an unknown request code, a status query with wLength other than 1, an
I/O-buffer-enable request in the IN direction and an I/O voltage request with wLength other
than 2. -/
theorem C18_unrecognized_request_stalls (env : Env) (k : Consts) (req : Setup) (s : State)
    (htype : req.bmRequestType = (USB_RECIP_DEVICE ||| USB_TYPE_VENDOR ||| USB_DIR_IN) ∨
             req.bmRequestType = (USB_RECIP_DEVICE ||| USB_TYPE_VENDOR ||| USB_DIR_OUT)) :
    (¬ recognized k req s →
      handle_pending_usb_setup env k req s =
        { s with pending_setup := false,
                 trace := s.trace ++ [Effect.pending_setup false, Effect.STALL_EP0] } ∧
      (handle_pending_usb_setup env k req s).status = s.status ∧
      (handle_pending_usb_setup env k req s).glasgow_config = s.glasgow_config ∧
      (handle_pending_usb_setup env k req s).bitstream_idx = s.bitstream_idx ∧
      (handle_pending_usb_setup env k req s).test_leds = s.test_leds ∧
      new_effects s (handle_pending_usb_setup env k req s) =
        [Effect.pending_setup false, Effect.STALL_EP0]) ∧
    (req.bRequest ∉ request_codes → ¬ recognized k req s) ∧
    (req.bRequest = USB_REQ_STATUS → req.wLength ≠ 1 → ¬ recognized k req s) ∧
    (req.bRequest = USB_REQ_IOBUF_ENABLE →
      req.bmRequestType = (USB_RECIP_DEVICE ||| USB_TYPE_VENDOR ||| USB_DIR_IN) →
      ¬ recognized k req s) ∧
    (req.bRequest = USB_REQ_IO_VOLT → req.wLength ≠ 2 → ¬ recognized k req s) := by
  refine ⟨?_, ?_, ?_, ?_, ?_⟩
  · intro h
    rw [handle_pending_usb_setup_of_unrecognized env k req s htype h]
    simp [stall_ep0_return, clear_pending_setup, emit, new_effects]
  · intro h
    simp only [request_codes, List.mem_cons, List.mem_singleton, not_or,
      List.not_mem_nil, or_false] at h
    unfold recognized
    simp [h]
  · intro hreq hlen
    unfold recognized
    simp [hreq, hlen, USB_REQ_IO_VOLT, USB_REQ_LIBFX2_PAGE_SIZE,
      USB_REQ_CYPRESS_EEPROM_DB, USB_REQ_EEPROM, USB_REQ_REGISTER, USB_REQ_STATUS,
      USB_REQ_FPGA_CFG, USB_REQ_BITSTREAM_ID, USB_REQ_ALERT_VOLT, USB_REQ_SENSE_VOLT,
      USB_REQ_POLL_ALERT, USB_REQ_IOBUF_ENABLE, USB_REQ_LIMIT_VOLT, USB_REQ_PULL,
      USB_REQ_TEST_LEDS, USB_REQ_API_LEVEL, USB_REQ_GET_MS_DESCRIPTOR]
  · intro hreq hin
    have hd := req_dir_in_of_in req hin
    unfold recognized
    simp [hreq, hd, USB_REQ_IO_VOLT, USB_REQ_LIBFX2_PAGE_SIZE,
      USB_REQ_CYPRESS_EEPROM_DB, USB_REQ_EEPROM, USB_REQ_REGISTER, USB_REQ_STATUS,
      USB_REQ_FPGA_CFG, USB_REQ_BITSTREAM_ID, USB_REQ_ALERT_VOLT, USB_REQ_SENSE_VOLT,
      USB_REQ_POLL_ALERT, USB_REQ_IOBUF_ENABLE, USB_REQ_LIMIT_VOLT, USB_REQ_PULL,
      USB_REQ_TEST_LEDS, USB_REQ_API_LEVEL, USB_REQ_GET_MS_DESCRIPTOR]
  · intro hreq hlen
    unfold recognized
    simp [hreq, hlen, USB_REQ_IO_VOLT, USB_REQ_LIBFX2_PAGE_SIZE,
      USB_REQ_CYPRESS_EEPROM_DB, USB_REQ_EEPROM, USB_REQ_REGISTER, USB_REQ_STATUS,
      USB_REQ_FPGA_CFG, USB_REQ_BITSTREAM_ID, USB_REQ_ALERT_VOLT, USB_REQ_SENSE_VOLT,
      USB_REQ_POLL_ALERT, USB_REQ_IOBUF_ENABLE, USB_REQ_LIMIT_VOLT, USB_REQ_PULL,
      USB_REQ_TEST_LEDS, USB_REQ_API_LEVEL, USB_REQ_GET_MS_DESCRIPTOR]

/-- C18 at a status query with wLength 2 in the sample state (error bit set): the request is
stalled, the error bit stays set and nothing else happens. -/
theorem C18_unrecognized_request_stalls_witness :
    (handle_pending_usb_setup sample_env sample_consts ⟨0xC0, 0x12, 0, 0, 2⟩
      sample_state).status = 1 ∧
    new_effects sample_state
      (handle_pending_usb_setup sample_env sample_consts ⟨0xC0, 0x12, 0, 0, 2⟩ sample_state) =
      [Effect.pending_setup false, Effect.STALL_EP0] :=
  have h := C18_unrecognized_request_stalls sample_env sample_consts ⟨0xC0, 0x12, 0, 0, 2⟩
    sample_state (Or.inl rfl)
  have hu := h.2.2.1 rfl (by decide)
  ⟨(h.1 hu).2.1, (h.1 hu).2.2.2.2.2⟩

/-! ## Fault indicator (C19) -/

/-- C19, evaluated at a boot in which `iobuf_init_adc_ina233` fails on a revision C2 board
without a flashed bitstream: the state that enters the main loop is reachable, test mode is
inactive and the error bit is set, but the error LED pin is low, because `main` clears the
pin in its LED set-up after the error has been latched. -/
theorem C19_boot_error_led_dark :
    Reachable adc_failing_env sample_consts
      (main_init adc_failing_env sample_consts
        (power_on sample_consts sample_config 0 (fun _ => 0))) ∧
    (main_init adc_failing_env sample_consts
      (power_on sample_consts sample_config 0 (fun _ => 0))).test_leds = false ∧
    (main_init adc_failing_env sample_consts
      (power_on sample_consts sample_config 0 (fun _ => 0))).status = ST_ERROR ∧
    (main_init adc_failing_env sample_consts
      (power_on sample_consts sample_config 0 (fun _ => 0))).IOD.testBit
        sample_consts.PIND_LED_ERR = false ∧
    (main_init adc_failing_env sample_consts
      (power_on sample_consts sample_config 0 (fun _ => 0))).trace =
      [Effect.eeprom_read 0x51 0 1 true, Effect.iobuf_init_dac_ldo,
        Effect.iobuf_init_adc_ina233, Effect.status 1, Effect.IO_LED_ERR true,
        Effect.fpga_init, Effect.fifo_init, Effect.IO_LED_FX2 true, Effect.IOD 1,
        Effect.armed_alert true, Effect.usb_init true] := by
  refine ⟨Reachable.boot _ _ _, ?_, ?_, ?_, ?_⟩
  · decide
  · decide
  · decide
  · decide

/-! ## Alt-setting table (C20) -/

/-- C20, as stated, fails: in configuration 1, a set-interface call with alt_setting 2 on
interface 0 stores 2 in the table, and handle_usb_get_interface reports 2. -/
theorem C20_alt_setting_two_is_stored :
    (∀ c ∈ [UsbCall.set_configuration 1, UsbCall.set_interface 0 2], c.wf) ∧
    (apply_calls sample_env [UsbCall.set_configuration 1, UsbCall.set_interface 0 2]
      (power_on sample_consts sample_config 0 (fun _ => 0))).usb_alt_setting 0 = 2 ∧
    (handle_usb_get_interface 0
      (apply_calls sample_env [UsbCall.set_configuration 1, UsbCall.set_interface 0 2]
        (power_on sample_consts sample_config 0 (fun _ => 0)))).EP0BUF 0 = 2 ∧
    ¬ (∀ (env : Env) (calls : List UsbCall) (s : State),
        (∀ i, i < 4 → s.usb_alt_setting i = 0) → (∀ c ∈ calls, c.wf) →
        ∀ i, i < 4 → (apply_calls env calls s).usb_alt_setting i = 0 ∨
          (apply_calls env calls s).usb_alt_setting i = 1) := by
  refine ⟨?_, by decide, by decide, ?_⟩
  · intro c hc
    simp only [List.mem_cons, List.mem_singleton, List.not_mem_nil, or_false] at hc
    rcases hc with rfl | rfl <;> simp [UsbCall.wf]
  · intro h
    have h2 := h sample_env [UsbCall.set_configuration 1, UsbCall.set_interface 0 2]
      (power_on sample_consts sample_config 0 (fun _ => 0)) (fun _ _ => rfl)
      (by
        intro c hc
        simp only [List.mem_cons, List.mem_singleton, List.not_mem_nil, or_false] at hc
        rcases hc with rfl | rfl <;> simp [UsbCall.wf]) 0 (by decide)
    revert h2
    decide

/-- C20, amended: starting from a table whose four entries are 0 or 1 (at reset they are all
0), after any sequence of handle_usb_set_configuration calls (any config value) and
handle_usb_set_interface calls (interface index 0..3) in which every set-interface call
passes alt_setting 0 or 1, every one of the four usb_alt_setting entries is 0 or 1, and
handle_usb_get_interface reports 0 or 1. -/
theorem C20_alt_setting_table (env : Env) (calls : List UsbCall) (s : State)
    (h0 : ∀ i, i < 4 → s.usb_alt_setting i = 0 ∨ s.usb_alt_setting i = 1)
    (hwf : ∀ c ∈ calls, c.wf) (halt : ∀ c ∈ calls, c.alt_setting_ok) :
    ∀ i, i < 4 →
      ((apply_calls env calls s).usb_alt_setting i = 0 ∨
        (apply_calls env calls s).usb_alt_setting i = 1) ∧
      ((handle_usb_get_interface i (apply_calls env calls s)).EP0BUF 0 = 0 ∨
        (handle_usb_get_interface i (apply_calls env calls s)).EP0BUF 0 = 1) := by
  intro i hi
  have h := apply_calls_alt env calls s h0 halt i hi
  refine ⟨h, ?_⟩
  simpa [handle_usb_get_interface, emit] using h

/-- C20, amended, at a concrete sequence from reset: configuration 1, interface 0 enabled,
interface 3 enabled, interface 0 disabled. -/
theorem C20_alt_setting_table_witness :
    (∀ c ∈ [UsbCall.set_configuration 1, UsbCall.set_interface 0 1,
        UsbCall.set_interface 3 1, UsbCall.set_interface 0 0], c.alt_setting_ok) ∧
    ((apply_calls sample_env [UsbCall.set_configuration 1, UsbCall.set_interface 0 1,
        UsbCall.set_interface 3 1, UsbCall.set_interface 0 0]
        (power_on sample_consts sample_config 0 (fun _ => 0))).usb_alt_setting 3 = 0 ∨
      (apply_calls sample_env [UsbCall.set_configuration 1, UsbCall.set_interface 0 1,
        UsbCall.set_interface 3 1, UsbCall.set_interface 0 0]
        (power_on sample_consts sample_config 0 (fun _ => 0))).usb_alt_setting 3 = 1) ∧
    (apply_calls sample_env [UsbCall.set_configuration 1, UsbCall.set_interface 0 1,
        UsbCall.set_interface 3 1, UsbCall.set_interface 0 0]
        (power_on sample_consts sample_config 0 (fun _ => 0))).usb_alt_setting 3 = 1 :=
  have halt : ∀ c ∈ [UsbCall.set_configuration 1, UsbCall.set_interface 0 1,
      UsbCall.set_interface 3 1, UsbCall.set_interface 0 0], c.alt_setting_ok := by
    intro c hc
    simp only [List.mem_cons, List.mem_singleton, List.not_mem_nil, or_false] at hc
    rcases hc with rfl | rfl | rfl | rfl <;> simp [UsbCall.alt_setting_ok]
  have hwf : ∀ c ∈ [UsbCall.set_configuration 1, UsbCall.set_interface 0 1,
      UsbCall.set_interface 3 1, UsbCall.set_interface 0 0], c.wf := by
    intro c hc
    simp only [List.mem_cons, List.mem_singleton, List.not_mem_nil, or_false] at hc
    rcases hc with rfl | rfl | rfl | rfl <;> simp [UsbCall.wf]
  ⟨halt,
    (C20_alt_setting_table sample_env _ (power_on sample_consts sample_config 0 (fun _ => 0))
      (fun _ _ => Or.inl rfl) hwf halt 3 (by decide)).1,
    by decide⟩

/-! ## Serial string descriptor (C21) -/

/-- C21: for a revision byte with high nibble hi in 1..15 and low nibble lo in 0..9 and a
16-character stored serial, descriptors_init, run on the initial string table, leaves the
serial string descriptor (string index 3) as: the hi-th uppercase letter, the decimal digit
lo, the separator character of the initial string, the 16 characters of the stored serial,
and the terminating NUL. -/
theorem C21_serial_descriptor (k : Consts) (s : State) (hi lo : Nat)
    (hhi : 1 ≤ hi ∧ hi ≤ 15) (hlo : lo ≤ 9)
    (hrev : s.glasgow_config.revision = 16 * hi + lo)
    (hser : s.glasgow_config.serial.length = 16)
    (hstr : s.usb_strings = (power_on k s.glasgow_config s.IOD s.EP0BUF).usb_strings) :
    (descriptors_init k s).usb_strings.getD 2 [] =
      ('A'.toNat + (hi - 1)) :: ('0'.toNat + lo) :: '-'.toNat ::
        (s.glasgow_config.serial ++ [0]) ∧
    'A'.toNat + (hi - 1) ≤ 'O'.toNat ∧ '0'.toNat + lo ≤ '9'.toNat := by
  have h1 : (16 * hi + lo) >>> 4 = hi := by
    rw [Nat.shiftRight_eq_div_pow]
    omega
  have h2 : (16 * hi + lo) &&& 0xF = lo := by
    have h := Nat.and_pow_two_sub_one_eq_mod (16 * hi + lo) 4
    norm_num at h
    rw [h]
    omega
  refine ⟨?_, ?_, ?_⟩
  · unfold descriptors_init
    simp only [modify_usb_string, hstr, power_on, hrev, h1, h2]
    have hA : ('A'.toNat + hi - 1) % 256 = 'A'.toNat + (hi - 1) := by
      have : 'A'.toNat = 65 := rfl
      omega
    have h0 : ('0'.toNat + lo) % 256 = '0'.toNat + lo := by
      have : '0'.toNat = 48 := rfl
      omega
    rw [hA, h0]
    split_ifs <;>
      simp [List.modify, List.modifyHead, blit, c_string, hser, List.set, List.getD]
  · have : 'A'.toNat = 65 := rfl
    have : 'O'.toNat = 79 := rfl
    omega
  · have : '0'.toNat = 48 := rfl
    have : '9'.toNat = 57 := rfl
    omega

/-- C21 at revision C2 (byte 0x32) with the serial of sixteen zeros: the descriptor reads
C2-0000000000000000. -/
theorem C21_serial_descriptor_witness :
    (1 ≤ 3 ∧ 3 ≤ 15) ∧ 2 ≤ 9 ∧
    (descriptors_init sample_consts
      (power_on sample_consts sample_config 0 (fun _ => 0))).usb_strings.getD 2 [] =
      c_string "C2-0000000000000000" :=
  ⟨by decide, by decide,
    (C21_serial_descriptor sample_consts (power_on sample_consts sample_config 0 (fun _ => 0))
      3 2 (by decide) (by decide) rfl rfl rfl).1.trans (by decide)⟩

/-! ## The pending-SETUP flag (C22) -/

/-- C22, as stated, fails: the flag can be true when handle_pending_usb_setup returns,
because the interrupt handler handle_usb_setup sets it whenever a new SETUP packet arrives,
also while the dispatcher is still at work.  The statements of the page-size arm and of a
successful 8-byte EEPROM write are the dispatcher on these requests; run without an
interrupt, or with the interrupt taken before the first statement, they end with the flag
false; with the interrupt taken after the clearing of the flag (before ACK_EP0, before the
eeprom_write call, or after the last statement) they end with the flag true. -/
theorem C22_interrupt_sets_flag_before_return :
    run_steps req_page_size_steps sample_state =
      handle_pending_usb_setup sample_env sample_consts ⟨0x40, 0xB0, 0, 0, 0⟩ sample_state ∧
    (run_steps req_page_size_steps sample_state).pending_setup = false ∧
    (run_steps (interrupt_at 0 handle_usb_setup req_page_size_steps)
      sample_state).pending_setup = false ∧
    (run_steps (interrupt_at 1 handle_usb_setup req_page_size_steps)
      sample_state).pending_setup = true ∧
    (run_steps (interrupt_at 2 handle_usb_setup req_page_size_steps)
      sample_state).pending_setup = true ∧
    run_steps (eeprom_write_steps sample_env sample_consts 0 8) sample_state =
      handle_pending_usb_setup sample_env sample_consts ⟨0x40, 0x10, 0, 0, 8⟩ sample_state ∧
    (run_steps (interrupt_at 3 handle_usb_setup
      (eeprom_write_steps sample_env sample_consts 0 8)) sample_state).pending_setup = true ∧
    (run_steps (interrupt_at 4 handle_usb_setup
      (eeprom_write_steps sample_env sample_consts 0 8)) sample_state).pending_setup = true :=
  ⟨rfl, by decide, by decide, by decide, by decide, rfl, by decide, by decide⟩

/-- C22, amended: for every SETUP packet and every prior state, the first effect of
handle_pending_usb_setup is the clearing of the pending-SETUP flag: in every branch (and on
the stall exit) no data-stage, bus, backend or FPGA effect precedes it.  The function never
writes true to the flag and never reads it (its result is the same whatever value the flag
has at the call), so in a run in which handle_usb_setup is not taken between its statements
the flag is false when it returns. -/
theorem C22_flag_cleared_first_and_never_set (env : Env) (k : Consts) (req : Setup)
    (s : State) :
    (new_effects s (handle_pending_usb_setup env k req s)).head? =
      some (Effect.pending_setup false) ∧
    (∃ l, new_effects s (handle_pending_usb_setup env k req s) =
      Effect.pending_setup false :: l) ∧
    Effect.pending_setup true ∉ new_effects s (handle_pending_usb_setup env k req s) ∧
    (∀ b : Bool, handle_pending_usb_setup env k req { s with pending_setup := b } =
      handle_pending_usb_setup env k req s) ∧
    (handle_pending_usb_setup env k req s).pending_setup = false := by
  obtain ⟨hp, l, hl⟩ := handle_pending_usb_setup_cleared_first env k req s
  obtain ⟨l2, hl2, hn⟩ := handle_pending_usb_setup_never_sets_flag env k req s
  have h := new_effects_of_trace hl
  refine ⟨by rw [h]; rfl, ⟨l, h⟩, ?_,
    handle_pending_usb_setup_flag_irrelevant env k req s, hp⟩
  rw [new_effects_of_trace hl2]
  exact hn

/-! ## Boot-time bitstream load (C23, C24) -/

/-- C23, as stated, fails: for a bitstream of 0x21080 bytes the boot-time loop reads
chunk 1056 (linear offset 0x21000) from the on-board memory at address 0x8000, beyond the
0x1000-byte tail window, while the EEPROM request for the same offset (selector 3, address
0x1000, 128 bytes) selects no chip and is stalled. -/
theorem C23_boot_read_beyond_tail_window :
    (boot_chunks sample_consts oversized_boot_state)[1056]? = some (0x51, 0x8000, 128) ∧
    Effect.eeprom_read 0x51 0x8000 128 true ∈
      new_effects oversized_boot_state
        (bootstrap sample_env sample_consts oversized_boot_state) ∧
    eeprom_request_at (128 * 1056) 128 =
      ⟨USB_RECIP_DEVICE ||| USB_TYPE_VENDOR ||| USB_DIR_IN, USB_REQ_EEPROM, 0x1000, 3, 128⟩ ∧
    (eeprom_select sample_consts (eeprom_request_at (128 * 1056) 128)).1 = 0 := by
  have hget : (boot_chunks sample_consts oversized_boot_state)[1056]? =
      some (0x51, 0x8000, 128) := by
    have h := bootstrap_chunks_get sample_consts 0x21080 0x21080 0 1056 (by decide)
      (Nat.le_refl _) (by decide) (by decide) (by decide)
    have hp : linear_position sample_consts 0 = (0x52, 0) := by decide
    have hq : linear_position sample_consts (0 + 128 * 1056) = (0x51, 0x8000) := by decide
    rw [hp, hq] at h
    exact h
  refine ⟨hget, ?_, rfl, by decide⟩
  have hff := first_failure_of_all_ok sample_env
    (oversized_boot_state.trace ++ [Effect.IO_LED_ACT true, Effect.fpga_reset])
    (boot_chunks sample_consts oversized_boot_state) (fun _ _ _ => rfl)
  obtain ⟨ht, -⟩ := bootstrap_of_no_failure sample_env sample_consts oversized_boot_state
    (by decide) hff
  rw [new_effects_of_trace ht]
  have hmem : (0x51, 0x8000, 128) ∈ boot_chunks sample_consts oversized_boot_state :=
    List.getElem?_mem hget
  have hflat : boot_read (0x51, 0x8000, 128) ∈
      (boot_chunks sample_consts oversized_boot_state).flatMap boot_chunk_effects :=
    List.mem_flatMap.mpr ⟨_, hmem, by simp [boot_chunk_effects]⟩
  exact List.mem_append_left _ (List.mem_append_right _ hflat)

/-- C23, amended: for every bitstream_size up to 0x21000 (the two halves of the
configuration memory and the 0x1000-byte tail window) and every chunk j of the boot-time loop
(linear offset n = 128 j), the chunk is read from the chip and address that the EEPROM
request assigns to selector 1 + n div 65536 and address n mod 65536: the configuration
memory's low half at n for n < 0x10000, its high half at n - 0x10000 for n < 0x20000, and the
on-board memory at 0x7000 + (n - 0x20000), within the tail window, thereafter.  No chunk
straddles a chip boundary, and the reads that the loop issues are the reads of these chunks
in order, up to the first failing one. -/
theorem C23_bootstrap_address_walk (env : Env) (k : Consts) (s : State)
    (hice : k.I2C_ADDR_ICE_MEM + 2 < 256)
    (hsize : s.glasgow_config.bitstream_size ≤ 0x21000) :
    (∀ j, 128 * j < s.glasgow_config.bitstream_size →
      (boot_chunks k s)[j]? =
        some ((eeprom_select k (eeprom_request_at (128 * j)
                (min 128 (s.glasgow_config.bitstream_size - 128 * j)))).1,
              (eeprom_select k (eeprom_request_at (128 * j)
                (min 128 (s.glasgow_config.bitstream_size - 128 * j)))).2.1,
              min 128 (s.glasgow_config.bitstream_size - 128 * j)) ∧
      ((eeprom_select k (eeprom_request_at (128 * j)
          (min 128 (s.glasgow_config.bitstream_size - 128 * j)))).1,
        (eeprom_select k (eeprom_request_at (128 * j)
          (min 128 (s.glasgow_config.bitstream_size - 128 * j)))).2.1) =
        linear_position k (128 * j) ∧
      (linear_position k (128 * j)).2 +
        min 128 (s.glasgow_config.bitstream_size - 128 * j) ≤ 0x10000 ∧
      (0x20000 ≤ 128 * j →
        0x7000 ≤ (linear_position k (128 * j)).2 ∧
        (linear_position k (128 * j)).2 +
          min 128 (s.glasgow_config.bitstream_size - 128 * j) ≤ 0x8000)) ∧
    (∃ m, m ≤ (boot_chunks k s).length ∧
      (new_effects s (bootstrap env k s)).filter is_i2c =
        ((boot_chunks k s).take m).map boot_read) := by
  refine ⟨?_, bootstrap_reads_prefix env k s⟩
  intro j hj
  have hmin : min 128 (s.glasgow_config.bitstream_size - 128 * j) ≤ 128 := Nat.min_le_left _ _
  have hmin2 : min 128 (s.glasgow_config.bitstream_size - 128 * j) ≤
      s.glasgow_config.bitstream_size - 128 * j := Nat.min_le_right _ _
  have hsel := eeprom_select_linear k (128 * j)
    (min 128 (s.glasgow_config.bitstream_size - 128 * j)) hice hmin (by omega)
  have hget := bootstrap_chunks_get k s.glasgow_config.bitstream_size
    s.glasgow_config.bitstream_size 0 j hice (Nat.le_refl _) (by decide) (by omega) hj
  have hp : linear_position k 0 = (k.I2C_ADDR_ICE_MEM, 0) := by simp [linear_position]
  rw [hp, Nat.zero_add] at hget
  have h1 := congrArg Prod.fst hsel
  have h2 := congrArg Prod.snd hsel
  simp only at h1 h2
  refine ⟨?_, hsel, ?_, ?_⟩
  · rw [h1, h2]
    exact hget
  · unfold linear_position
    split_ifs <;> simp only <;> omega
  · intro h20
    unfold linear_position
    rw [if_neg (by omega), if_neg (by omega)]
    simp only
    omega

/-- C23, amended, at a bitstream of 0x20100 bytes: chunk 1025 (linear offset 0x20080) is a
read of the on-board memory at 0x7080, the position that the EEPROM request assigns to
selector 3, address 0x80. -/
theorem C23_bootstrap_address_walk_witness :
    sample_consts.I2C_ADDR_ICE_MEM + 2 < 256 ∧
    (0x20100 : Nat) ≤ 0x21000 ∧ 128 * 1025 < 0x20100 ∧
    (boot_chunks sample_consts
      (power_on sample_consts { sample_config with bitstream_size := 0x20100 } 0
        (fun _ => 0)))[1025]? =
      some ((eeprom_select sample_consts (eeprom_request_at (128 * 1025) 128)).1,
            (eeprom_select sample_consts (eeprom_request_at (128 * 1025) 128)).2.1, 128) ∧
    eeprom_select sample_consts (eeprom_request_at (128 * 1025) 128) = (0x51, 0x7080, 6) :=
  ⟨by decide, by decide, by decide,
    ((C23_bootstrap_address_walk sample_env sample_consts
      (power_on sample_consts { sample_config with bitstream_size := 0x20100 } 0 (fun _ => 0))
      (by decide) (by decide)).1 1025 (by decide)).1,
    by decide⟩

/-- C24: control flow of the boot-time bitstream load, for every bitstream_size and every
behaviour of the storage and the FPGA.  With bitstream_size 0 nothing happens.  Otherwise the
FPGA is reset exactly once and the loop terminates (any bound of at least bitstream_size
iterations gives the same result).  If no chunk read fails, the ceil(size/128) chunks, whose
lengths add up to bitstream_size, are read and loaded in order, fpga_start is issued once
after them, and the error bit is latched exactly when fpga_start fails.  If the read of chunk
m is the first to fail, the chunks before it are read and loaded, the failing read is
followed only by the latching of the error bit, and fpga_start is not issued.  No read fails
when the storage never fails. -/
theorem C24_bootstrap_control_flow (env : Env) (k : Consts) (s : State) :
    (s.glasgow_config.bitstream_size = 0 → bootstrap env k s = s) ∧
    (0 < s.glasgow_config.bitstream_size →
      (∀ fuel t, s.glasgow_config.bitstream_size ≤ fuel →
        bootstrap_loop env k fuel s.glasgow_config.bitstream_size k.I2C_ADDR_ICE_MEM 0 t =
          bootstrap_loop env k s.glasgow_config.bitstream_size
            s.glasgow_config.bitstream_size k.I2C_ADDR_ICE_MEM 0 t) ∧
      (new_effects s (bootstrap env k s)).count Effect.fpga_reset = 1 ∧
      (first_failure env (boot_history s) (boot_chunks k s) = none →
        new_effects s (bootstrap env k s) =
          [Effect.IO_LED_ACT true, Effect.fpga_reset] ++
            (boot_chunks k s).flatMap boot_chunk_effects ++
            Effect.fpga_start ::
              ((if env.ok (boot_history s ++ (boot_chunks k s).flatMap boot_chunk_effects)
                    Effect.fpga_start
                then [] else latch_effects s ST_ERROR) ++ [Effect.IO_LED_ACT false]) ∧
        (bootstrap env k s).status =
          (if env.ok (boot_history s ++ (boot_chunks k s).flatMap boot_chunk_effects)
              Effect.fpga_start
            then s.status else s.status ||| ST_ERROR) ∧
        (boot_chunks k s).length = (s.glasgow_config.bitstream_size + 127) / 128 ∧
        ((boot_chunks k s).map fun c => c.2.2).sum = s.glasgow_config.bitstream_size ∧
        (new_effects s (bootstrap env k s)).count Effect.fpga_start = 1) ∧
      (∀ m, first_failure env (boot_history s) (boot_chunks k s) = some m →
        ∃ c, (boot_chunks k s)[m]? = some c ∧
          env.ok (boot_history s ++ ((boot_chunks k s).take m).flatMap boot_chunk_effects)
            (boot_read c) = false ∧
          new_effects s (bootstrap env k s) =
            [Effect.IO_LED_ACT true, Effect.fpga_reset] ++
              ((boot_chunks k s).take m).flatMap boot_chunk_effects ++
              boot_read c :: (latch_effects s ST_ERROR ++ [Effect.IO_LED_ACT false]) ∧
          (bootstrap env k s).status = s.status ||| ST_ERROR ∧
          (new_effects s (bootstrap env k s)).count Effect.fpga_start = 0)) ∧
    ((∀ hist e, is_i2c e = true → env.ok hist e = true) →
      first_failure env (boot_history s) (boot_chunks k s) = none) := by
  refine ⟨bootstrap_of_no_bitstream env k s, ?_, first_failure_of_all_ok env _ _⟩
  intro hsize
  have hA : ∀ cs : List (Nat × Nat × Nat),
      (cs.flatMap boot_chunk_effects).count Effect.fpga_reset = 0 :=
    fun cs => count_boot_chunk_effects cs _ rfl (fun _ h => by cases h)
  have hB : ∀ cs : List (Nat × Nat × Nat),
      (cs.flatMap boot_chunk_effects).count Effect.fpga_start = 0 :=
    fun cs => count_boot_chunk_effects cs _ rfl (fun _ h => by cases h)
  have hC : (latch_effects s ST_ERROR).count Effect.fpga_reset = 0 :=
    count_latch_effects s _ _ (fun _ h => by cases h) (fun _ h => by cases h)
  have hD : (latch_effects s ST_ERROR).count Effect.fpga_start = 0 :=
    count_latch_effects s _ _ (fun _ h => by cases h) (fun _ h => by cases h)
  have hnone : first_failure env (boot_history s) (boot_chunks k s) = none →
      new_effects s (bootstrap env k s) =
          [Effect.IO_LED_ACT true, Effect.fpga_reset] ++
            (boot_chunks k s).flatMap boot_chunk_effects ++
            Effect.fpga_start ::
              ((if env.ok (boot_history s ++ (boot_chunks k s).flatMap boot_chunk_effects)
                    Effect.fpga_start
                then [] else latch_effects s ST_ERROR) ++ [Effect.IO_LED_ACT false]) ∧
        (bootstrap env k s).status =
          (if env.ok (boot_history s ++ (boot_chunks k s).flatMap boot_chunk_effects)
              Effect.fpga_start
            then s.status else s.status ||| ST_ERROR) := by
    intro hff
    obtain ⟨ht, hst⟩ := bootstrap_of_no_failure env k s hsize hff
    refine ⟨?_, ?_⟩
    · rw [new_effects_of_trace ht]
      simp only [boot_history, boot_chunks, List.append_assoc]
    · rw [hst]
      simp only [boot_history, boot_chunks, List.append_assoc]
  have hsome : ∀ m, first_failure env (boot_history s) (boot_chunks k s) = some m →
      ∃ c, (boot_chunks k s)[m]? = some c ∧
        env.ok (boot_history s ++ ((boot_chunks k s).take m).flatMap boot_chunk_effects)
          (boot_read c) = false ∧
        new_effects s (bootstrap env k s) =
          [Effect.IO_LED_ACT true, Effect.fpga_reset] ++
            ((boot_chunks k s).take m).flatMap boot_chunk_effects ++
            boot_read c :: (latch_effects s ST_ERROR ++ [Effect.IO_LED_ACT false]) ∧
        (bootstrap env k s).status = s.status ||| ST_ERROR := by
    intro m hff
    obtain ⟨c, hc, hfail, ht, hst⟩ := bootstrap_of_failure env k s m hsize hff
    refine ⟨c, hc, ?_, new_effects_of_trace ht, hst⟩
    simpa only [boot_history, boot_chunks, List.append_assoc] using hfail
  refine ⟨?_, ?_, ?_, ?_⟩
  · intro fuel t hfuel
    exact bootstrap_loop_fuel env k _ _ _ _ _ t hfuel (Nat.le_refl _)
  · cases hff : first_failure env (boot_history s) (boot_chunks k s) with
    | none =>
      rw [(hnone hff).1]
      generalize env.ok (boot_history s ++ (boot_chunks k s).flatMap boot_chunk_effects)
        Effect.fpga_start = q
      cases q <;> simp [List.count_cons, hA, hC]
    | some m =>
      obtain ⟨c, -, -, ht, -⟩ := hsome m hff
      rw [ht]
      simp [List.count_cons, hA, hC, boot_read]
  · intro hff
    refine ⟨(hnone hff).1, (hnone hff).2,
      bootstrap_chunks_length k _ _ _ _ (Nat.le_refl _),
      bootstrap_chunks_sum k _ _ _ _ (Nat.le_refl _), ?_⟩
    rw [(hnone hff).1]
    generalize env.ok (boot_history s ++ (boot_chunks k s).flatMap boot_chunk_effects)
      Effect.fpga_start = q
    cases q <;> simp [List.count_cons, hB, hD]
  · intro m hff
    obtain ⟨c, hc, hfail, ht, hst⟩ := hsome m hff
    refine ⟨c, hc, hfail, ht, hst, ?_⟩
    rw [ht]
    simp [List.count_cons, hB, hD, boot_read]

/-- C24 at a bitstream of 300 bytes with a storage and an FPGA that never fail: three chunks
of 128, 128 and 44 bytes are loaded, fpga_start is issued once and the status byte stays 0. -/
theorem C24_bootstrap_control_flow_witness :
    0 < sample_boot_state.glasgow_config.bitstream_size ∧
    first_failure sample_env (boot_history sample_boot_state)
      (boot_chunks sample_consts sample_boot_state) = none ∧
    boot_chunks sample_consts sample_boot_state =
      [(0x52, 0, 128), (0x52, 128, 128), (0x52, 256, 44)] ∧
    (boot_chunks sample_consts sample_boot_state).length = (300 + 127) / 128 ∧
    (new_effects sample_boot_state
      (bootstrap sample_env sample_consts sample_boot_state)).count Effect.fpga_start = 1 ∧
    (bootstrap sample_env sample_consts sample_boot_state).status = 0 :=
  have h := C24_bootstrap_control_flow sample_env sample_consts sample_boot_state
  have hff := h.2.2 (fun _ _ _ => rfl)
  have h3 := (h.2.1 (by decide)).2.2.1 hff
  ⟨by decide, hff, by decide, h3.2.2.1, h3.2.2.2.2, h3.2.1⟩

/-! ## Alert handler (C25) -/

/-- C25: order of the effects of handle_pending_alert, for every revision and every outcome
of the backend calls.  The alert status bit is latched first; then the backend is polled for
the port mask; then the supplies of those ports are commanded to zero; the alert source is
cleared by a separate call on revision C2 and later only, after the supply command; the
re-arming of the alert interrupt is the last effect.  The success flags of the backend calls
play no part: the error bit keeps its value and the interrupt is armed afterwards. -/
theorem C25_alert_handler_sequence (env : Env) (k : Consts) (s : State) :
    new_effects s (handle_pending_alert env k s) =
      latch_effects s ST_ALERT ++
        [alert_poll k s, Effect.iobuf_set_voltage (alert_mask env k s) 0] ++
        (if s.glasgow_config.revision ≥ k.GLASGOW_REV_C2
          then [Effect.iobuf_clear_alert_ina233 (alert_mask env k s)] else []) ++
        [Effect.armed_alert true] ∧
    (new_effects s (handle_pending_alert env k s)).head? =
      some (Effect.status (s.status ||| ST_ALERT)) ∧
    (new_effects s (handle_pending_alert env k s)).getLast? =
      some (Effect.armed_alert true) ∧
    (handle_pending_alert env k s).status = s.status ||| ST_ALERT ∧
    (handle_pending_alert env k s).status.testBit 0 = s.status.testBit 0 ∧
    (handle_pending_alert env k s).armed_alert = true ∧
    (∀ ok2 : List Effect → Effect → Bool,
      handle_pending_alert { env with ok := ok2 } k s = handle_pending_alert env k s) := by
  have hcfg : (latch_status_bit k ST_ALERT s).glasgow_config = s.glasgow_config := by
    rw [latch_status_bit_eq]
  have htrace : new_effects s (handle_pending_alert env k s) =
      latch_effects s ST_ALERT ++
        [alert_poll k s, Effect.iobuf_set_voltage (alert_mask env k s) 0] ++
        (if s.glasgow_config.revision ≥ k.GLASGOW_REV_C2
          then [Effect.iobuf_clear_alert_ina233 (alert_mask env k s)] else []) ++
        [Effect.armed_alert true] := by
    apply new_effects_of_trace
    unfold handle_pending_alert alert_mask alert_poll
    simp only [hcfg, emit, set_armed_alert, latch_status_bit_latch_effects]
    by_cases hrev : s.glasgow_config.revision ≥ k.GLASGOW_REV_C2
    · simp [hrev]
    · simp [hrev]
  refine ⟨htrace, ?_, ?_, handle_pending_alert_status env k s, ?_, ?_, ?_⟩
  · rw [htrace]
    simp [latch_effects]
  · rw [htrace, List.getLast?_append]
    rfl
  · rw [handle_pending_alert_status, Nat.testBit_or]
    have : ST_ALERT.testBit 0 = false := by decide
    simp [this]
  · unfold handle_pending_alert
    simp [set_armed_alert, emit]
  · intro ok2
    rfl

/-! ## The dispatcher as a lookup (C26) -/

/-- C26, as stated, fails: the request code alone does not determine the arm.  The two
Microsoft descriptor requests with wIndex 4 and wIndex 5 share the request code 0xC0 and are
accepted by two different arms (positions 15 and 16), with different outcomes. -/
theorem C26_ms_descriptor_arms_share_code :
    ((arms sample_env sample_consts ⟨0xC0, 0xC0, 0, 4, 0⟩ sample_state).map Prod.fst)[15]? =
      some true ∧
    ((arms sample_env sample_consts ⟨0xC0, 0xC0, 0, 5, 0⟩ sample_state).map Prod.fst)[16]? =
      some true ∧
    new_effects sample_state
      (handle_pending_usb_setup sample_env sample_consts ⟨0xC0, 0xC0, 0, 4, 0⟩ sample_state) =
      [Effect.pending_setup false, Effect.SETUP_EP0_IN_DESC 4] ∧
    new_effects sample_state
      (handle_pending_usb_setup sample_env sample_consts ⟨0xC0, 0xC0, 0, 5, 0⟩ sample_state) =
      [Effect.pending_setup false, Effect.SETUP_EP0_IN_DESC 5] ∧
    ¬ code_determines_arm sample_env sample_consts := by
  have h1 : ((arms sample_env sample_consts ⟨0xC0, 0xC0, 0, 4, 0⟩ sample_state).map
      Prod.fst)[15]? = some true := by decide
  have h2 : ((arms sample_env sample_consts ⟨0xC0, 0xC0, 0, 5, 0⟩ sample_state).map
      Prod.fst)[16]? = some true := by decide
  refine ⟨h1, h2, by decide, by decide, ?_⟩
  intro h
  have := h ⟨0xC0, 0xC0, 0, 4, 0⟩ ⟨0xC0, 0xC0, 0, 5, 0⟩ sample_state 15 16 rfl h1 h2
  omega

/-- C26, amended: for every SETUP packet and every state the conditions of the arms of
handle_pending_usb_setup are pairwise disjoint; an arm whose condition holds is the one arm
that the request code names, where the two Microsoft descriptor arms share their code and
are told apart by wIndex; the outcome equals that of the flat lookup on the request code
(with wIndex for the Microsoft descriptor code) followed by the arm's own condition; and it
does not depend on the order in which the arms are tested. -/
theorem C26_dispatch_is_lookup (env : Env) (k : Consts) (req : Setup) (s : State) :
    disjoint_arms (arms env k req s) ∧
    (∀ i : Nat, ((arms env k req s).map Prod.fst)[i]? = some true →
      lookup_arm req.bRequest req.wIndex = some i) ∧
    (∀ (r2 : Setup) (s2 : State) (i j : Nat),
      r2.bRequest = req.bRequest →
      (req.bRequest ≠ USB_REQ_GET_MS_DESCRIPTOR ∨ req.wIndex = r2.wIndex) →
      ((arms env k req s).map Prod.fst)[i]? = some true →
      ((arms env k r2 s2).map Prod.fst)[j]? = some true → i = j) ∧
    handle_pending_usb_setup env k req s = flat_dispatch env k req s ∧
    (∀ l : List (Bool × State), l.Perm (arms env k req s) →
      handle_pending_usb_setup env k req s =
        if req.bmRequestType ≠ (USB_RECIP_DEVICE ||| USB_TYPE_VENDOR ||| USB_DIR_IN) ∧
           req.bmRequestType ≠ (USB_RECIP_DEVICE ||| USB_TYPE_VENDOR ||| USB_DIR_OUT) then
          stall_ep0_return s
        else first_match l (stall_ep0_return s)) := by
  refine ⟨arms_disjoint env k req s, lookup_arm_of_guard env k req s, ?_,
    handle_pending_usb_setup_eq_flat_dispatch env k req s, ?_⟩
  · intro r2 s2 i j hcode hw hi hj
    have h1 := lookup_arm_of_guard env k req s i hi
    have h2 := lookup_arm_of_guard env k r2 s2 j hj
    rw [hcode, ← lookup_arm_wIndex req.bRequest req.wIndex r2.wIndex hw, h1] at h2
    cases h2
    rfl
  · intro l hl
    rw [handle_pending_usb_setup_eq_first_match,
      first_match_perm (stall_ep0_return s) hl.symm (arms_disjoint env k req s)]

/-- C26, amended, at a status query in the sample state: testing the arms in the reverse
order gives the outcome of the dispatcher. -/
theorem C26_dispatch_is_lookup_witness :
    (arms sample_env sample_consts ⟨0xC0, 0x12, 0, 0, 1⟩ sample_state).reverse.Perm
      (arms sample_env sample_consts ⟨0xC0, 0x12, 0, 0, 1⟩ sample_state) ∧
    handle_pending_usb_setup sample_env sample_consts ⟨0xC0, 0x12, 0, 0, 1⟩ sample_state =
      first_match (arms sample_env sample_consts ⟨0xC0, 0x12, 0, 0, 1⟩ sample_state).reverse
        (stall_ep0_return sample_state) :=
  ⟨List.reverse_perm _,
    ((C26_dispatch_is_lookup sample_env sample_consts ⟨0xC0, 0x12, 0, 0, 1⟩
      sample_state).2.2.2.2 _ (List.reverse_perm _)).trans (if_neg (by decide))⟩

/-! ## Zero-length requests (C27) -/

/-- C27, evaluated at requests with wLength = 0: an EEPROM read and an EEPROM write of the
on-board memory (selector 0) only clear the pending-SETUP flag, and a bitstream chunk with
index 0 only clears the flag and resets the FPGA; in all three cases the loop body, which
holds the only SETUP_EP0_BUF of the arm, never runs, and the trace contains no action that
resolves the control transfer. -/
theorem C27_zero_length_request_unresolved :
    new_effects sample_state
      (handle_pending_usb_setup sample_env sample_consts ⟨0xC0, 0x10, 0, 0, 0⟩ sample_state) =
      [Effect.pending_setup false] ∧
    new_effects sample_state
      (handle_pending_usb_setup sample_env sample_consts ⟨0x40, 0x10, 0, 0, 0⟩ sample_state) =
      [Effect.pending_setup false] ∧
    new_effects sample_state
      (handle_pending_usb_setup sample_env sample_consts ⟨0x40, 0x11, 0, 0, 0⟩ sample_state) =
      [Effect.pending_setup false, Effect.fpga_reset] ∧
    (new_effects sample_state
      (handle_pending_usb_setup sample_env sample_consts ⟨0xC0, 0x10, 0, 0, 0⟩
        sample_state)).any resolves = false ∧
    (new_effects sample_state
      (handle_pending_usb_setup sample_env sample_consts ⟨0x40, 0x11, 0, 0, 0⟩
        sample_state)).any resolves = false := by
  refine ⟨by decide, by decide, by decide, by decide, by decide⟩

end Glasgow
